import Mathlib

/-! The wsgate RDP session bridge (src/wsgate/RDP.cpp).

A shallow embedding of the session object `wsgate::RDP`: the connection state
machine, the inbound message dispatcher `OnWsMessage`, the pointer callbacks with
the cursor cache, and the worker loop `ThreadFunc`.

Conventions of the embedding.

* Members of the C++ object are the fields of the structure `RDP`; a member
  function takes the object and returns a `Res`: the object afterwards, the calls
  it made on the engine and on the transport (a list of `Effect`, in program
  order) and how it ended (`Outcome`: a return value, a thrown
  `tracing::runtime_error`, a read outside the message buffer, or an access
  through a null pointer).
* `uint32_t` / `uint16_t` values are natural numbers, reduced modulo `2^32` /
  `2^16` wherever the source narrows or can overflow.
* Constants and macros of headers that are not part of the translation unit
  (`RDP.hpp`, the engine headers) are the fields of `Consts`.
* Logging (`log::debug`, `log::info`) has no effect on the object and is left out.
* Each member function and each pass of the worker loop runs atomically (the
  source takes no lock; interleavings inside them are not modelled). The one
  place where a member function waits for the worker, the `pthread_join` of
  `Disconnect`, is modelled by `Disconnect_joined`: the worker completes the
  pass it is in and returns before the call does.
-/

namespace wsgate

/-! ## Bytes and wire words -/

abbrev Byte := Fin 256

/-- Contents of a `std::string` used as a byte buffer. -/
abbrev Bytes := List Byte

/-- The four bytes of a `uint32_t` in memory (little-endian host), as copied by
`string buf(reinterpret_cast<const char *>(&tmp), sizeof(tmp))`. -/
def le32 (w : Nat) : Bytes :=
  [⟨w % 256, Nat.mod_lt _ (by decide)⟩,
   ⟨w / 256 % 256, Nat.mod_lt _ (by decide)⟩,
   ⟨w / 65536 % 256, Nat.mod_lt _ (by decide)⟩,
   ⟨w / 16777216 % 256, Nat.mod_lt _ (by decide)⟩]

/-- Read of a `uint32_t` field at byte offset `off` of the message
(`reinterpret_cast<const wsmsg *>(data.data())->field`); `none` when the four
bytes do not all lie inside the buffer. -/
def readU32 (data : Bytes) (off : Nat) : Option Nat :=
  match data.drop off with
  | b0 :: b1 :: b2 :: b3 :: _ =>
    some (b0.val + 256 * b1.val + 65536 * b2.val + 16777216 * b3.val)
  | _ => none

/-- Conversion of an `int` to `uint32_t`. -/
def toU32 (i : Int) : Nat := (i % 4294967296).toNat

/-! ## Constants of the headers -/

/-- Constants, macros and engine helpers that `RDP.cpp` takes from `RDP.hpp` and
from the engine headers. The constants are non-negative `int` values, which a
`uint32_t` holds unchanged. -/
structure Consts where
  WSOP_CS_MOUSE : Nat
  WSOP_CS_KUPDOWN : Nat
  WSOP_CS_KPRESS : Nat
  /-- The three labels are the `case` labels of one `switch`, hence distinct. -/
  cs_distinct : WSOP_CS_MOUSE ≠ WSOP_CS_KUPDOWN ∧ WSOP_CS_MOUSE ≠ WSOP_CS_KPRESS ∧
    WSOP_CS_KUPDOWN ≠ WSOP_CS_KPRESS
  WSOP_SC_PTR_NEW : Nat
  WSOP_SC_PTR_FREE : Nat
  WSOP_SC_PTR_SET : Nat
  WSOP_SC_PTR_SETNULL : Nat
  WSOP_SC_PTR_SETDEFAULT : Nat
  KBD_FLAGS_EXTENDED : Nat
  KBD_FLAGS_DOWN : Nat
  KBD_FLAGS_RELEASE : Nat
  /-- Macro `RDP_SCANCODE_EXTENDED(sc)`. -/
  RDP_SCANCODE_EXTENDED : Nat → Bool
  /-- Macro `RDP_SCANCODE_CODE(sc)`. -/
  RDP_SCANCODE_CODE : Nat → Nat
  RDP_SCANCODE_BACKSPACE : Nat
  RDP_SCANCODE_LSHIFT : Nat
  RDP_SCANCODE_LCONTROL : Nat
  RDP_SCANCODE_LMENU : Nat
  RDP_SCANCODE_LWIN : Nat
  RDP_SCANCODE_TAB : Nat
  RDP_SCANCODE_RETURN : Nat
  RDP_SCANCODE_PAUSE : Nat
  RDP_SCANCODE_ESCAPE : Nat
  RDP_SCANCODE_SPACE : Nat
  RDP_SCANCODE_PRIOR : Nat
  RDP_SCANCODE_NEXT : Nat
  RDP_SCANCODE_END : Nat
  RDP_SCANCODE_HOME : Nat
  RDP_SCANCODE_LEFT : Nat
  RDP_SCANCODE_UP : Nat
  RDP_SCANCODE_RIGHT : Nat
  RDP_SCANCODE_DOWN : Nat
  RDP_SCANCODE_PRINTSCREEN : Nat
  RDP_SCANCODE_INSERT : Nat
  RDP_SCANCODE_DELETE : Nat
  /-- Engine helper `freerdp_keyboard_get_rdp_scancode_from_virtual_key_code`. -/
  freerdp_keyboard_get_rdp_scancode_from_virtual_key_code : Nat → Nat
  PERF_FLAG_NONE : Nat
  PERF_DISABLE_WALLPAPER : Nat
  PERF_DISABLE_FULLWINDOWDRAG : Nat
  PERF_DISABLE_MENUANIMATIONS : Nat
  PERF_DISABLE_THEMING : Nat
  CONNECTION_TYPE_LAN : Nat
  CONNECTION_TYPE_BROADBAND_HIGH : Nat
  CONNECTION_TYPE_MODEM : Nat
  /-- Engine helper `freerdp_alpha_cursor_convert`: the pixel buffer it leaves,
  from the buffer it is given, the XOR mask, the AND mask, width, height, bpp. -/
  freerdp_alpha_cursor_convert : Bytes → Bytes → Bytes → Nat → Nat → Nat → Bytes
  /-- Image encoder `Png::GenerateFromARGB(width, height, pixels)`. -/
  GenerateFromARGB : Nat → Nat → Bytes → Bytes

/-! ## The session object -/

/-- Enum `State` of the session. -/
inductive State
  | STATE_INITIAL
  | STATE_CONNECT
  | STATE_CONNECTED
  | STATE_CLOSED
  deriving DecidableEq, Repr

/-- The members of `rdpSettings` that `RDP::Connect` writes. -/
structure rdpSettings where
  SendPreconnectionPdu : Bool
  PreconnectionBlob : Option String
  DesktopWidth : Nat
  DesktopHeight : Nat
  ServerPort : Nat
  IgnoreCertificate : Bool
  NegotiateSecurityLayer : Bool
  ServerHostname : Option String
  Username : Option String
  Domain : Option String
  Password : Option String
  Authentication : Nat
  PerformanceFlags : Nat
  ConnectionType : Nat
  DisableWallpaper : Nat
  DisableFullWindowDrag : Nat
  DisableMenuAnims : Nat
  DisableThemes : Nat
  TlsSecurity : Nat
  deriving DecidableEq, Repr

/-- The members of `WsRdpParams` that `RDP::Connect` reads. -/
structure WsRdpParams where
  width : Int
  height : Int
  perf : Int
  notls : Int
  nowallp : Int
  nowdrag : Int
  nomani : Int
  notheme : Int
  deriving DecidableEq, Repr

/-- A cache entry `RDP::cursor`: `pair<time_t, string>`. -/
abbrev cursor := Nat × Bytes

/-- The cursor map `std::map<uint32_t, cursor>`, as a list of bindings with at most
one binding per key in use. -/
abbrev CursorMap := List (Nat × cursor)

/-- Lookup `m_cursorMap.find(k)`. -/
def CursorMap.find (m : CursorMap) (k : Nat) : Option cursor :=
  match m with
  | [] => none
  | (k0, v) :: rest => if k0 = k then some v else CursorMap.find rest k

/-- Removal `m_cursorMap.erase(k)`. -/
def CursorMap.erase (m : CursorMap) (k : Nat) : CursorMap :=
  m.filter (fun e => decide (e.1 ≠ k))

/-- Assignment `m_cursorMap[k] = v`. -/
def CursorMap.set (m : CursorMap) (k : Nat) (v : cursor) : CursorMap :=
  (k, v) :: CursorMap.erase m k

/-- Data members of `wsgate::RDP` that the modelled member functions use.
`m_rdpInput` records whether the pointer is non-null; `m_rdpSettings` is `none`
for a null pointer and otherwise holds the settings it points to. `m_lastError`
and `m_ptrId` are `uint32_t`, as are `MyPointer::id`, to which `m_ptrId` is
assigned, and the key of the cursor map. -/
structure RDP where
  m_rdpInput : Bool
  m_rdpSettings : Option rdpSettings
  m_bThreadLoop : Bool
  m_errMsg : String
  m_State : State
  m_lastError : Nat
  m_ptrId : Nat
  m_cursorMap : CursorMap
  deriving DecidableEq, Repr

/-- Calls on the engine, on the worker thread and on the transport. -/
inductive Effect
  /-- Call `m_freerdp->input->MouseEvent(input, flags, x, y)`. -/
  | MouseEvent (flags x y : Nat)
  /-- Call `freerdp_input_send_keyboard_event(m_rdpInput, flags, code)`. -/
  | keyboard_event (flags code : Nat)
  /-- Call `freerdp_input_send_unicode_keyboard_event(m_rdpInput, flags, code)`. -/
  | unicode_keyboard_event (flags code : Nat)
  | freerdp_disconnect
  | freerdp_connect
  | freerdp_check_fds
  | pthread_join
  | usleep (us : Nat)
  /-- Call `m_wshandler->send_text(s)`. -/
  | send_text (s : String)
  /-- Call `m_wshandler->send_binary(b)`. -/
  | send_binary (b : Bytes)
  deriving DecidableEq, Repr

/-- How a member function ends. -/
inductive Outcome (α : Type)
  /-- Normal return. -/
  | ret (a : α)
  /-- A `tracing::runtime_error` with the given text leaves the function. -/
  | throw (msg : String)
  /-- A field was read outside the message buffer. -/
  | fault
  /-- A member was accessed through a null pointer. -/
  | nullptr
  deriving DecidableEq, Repr

/-- Result of running a member function. -/
structure Res (α : Type) where
  st : RDP
  eff : List Effect
  out : Outcome α

/-- Sequencing of two steps: the second runs only when the first returned. -/
def Res.andThen {α β : Type} (r : Res α) (f : RDP → α → Res β) : Res β :=
  match r.out with
  | Outcome.ret a =>
    let r2 := f r.st a
    { st := r2.st, eff := r.eff ++ r2.eff, out := r2.out }
  | Outcome.throw msg => { st := r.st, eff := r.eff, out := Outcome.throw msg }
  | Outcome.fault => { st := r.st, eff := r.eff, out := Outcome.fault }
  | Outcome.nullptr => { st := r.st, eff := r.eff, out := Outcome.nullptr }

/-- The engine instance as `ContextNew` sees it: whether `inst->input` is non-null
and what `inst->settings` points to. -/
structure freerdp where
  input : Bool
  settings : Option rdpSettings

/-- Callback `RDP::ContextNew`: binds `m_rdpInput` and `m_rdpSettings`. -/
def ContextNew (s : RDP) (inst : freerdp) : RDP :=
  { s with m_rdpInput := inst.input, m_rdpSettings := inst.settings }

/-- Constructor `RDP::RDP`. `inst` is the result of `freerdp_new()` (`none` for a
null pointer); `freerdp_context_new` runs `ContextNew` on it; `threadCreated`
tells whether `pthread_create` returned 0. `none` stands for the exception
"Could not create freerep instance". -/
def RDP.new (inst : Option freerdp) (threadCreated : Bool) : Option RDP :=
  match inst with
  | none => none
  | some i =>
    let s0 : RDP :=
      { m_rdpInput := false, m_rdpSettings := none, m_bThreadLoop := false,
        m_errMsg := "", m_State := State.STATE_INITIAL, m_lastError := 0,
        m_ptrId := 1, m_cursorMap := [] }
    let s1 := ContextNew s0 i
    some { s1 with m_bThreadLoop := threadCreated }

/-! ## Connect and Disconnect -/

/-- The copy `strdup(x.c_str())` of a `std::string`: its characters up to the first
NUL. -/
def strdup (x : String) : String :=
  String.mk (x.data.takeWhile fun ch => ch ≠ Char.ofNat 0)

/-- Member function `RDP::Connect`. -/
def Connect (c : Consts) (s : RDP) (host user domain pass : String)
    (params : WsRdpParams) : Res Bool :=
  match s.m_rdpSettings with
  | none => { st := s, eff := [], out := Outcome.throw "m_rdpSettings is NULL" }
  | some r0 =>
    if s.m_bThreadLoop = false then
      { st := s, eff := [], out := Outcome.throw "worker thread has terminated" }
    else
      let r1 : rdpSettings :=
        { r0 with
          SendPreconnectionPdu := true
          PreconnectionBlob := some (strdup "D63E75FC-2F61-43EA-BB58-16311126FFF1")
          DesktopWidth := toU32 params.width
          DesktopHeight := toU32 params.height
          ServerPort := 2179
          IgnoreCertificate := true
          NegotiateSecurityLayer := false
          ServerHostname := some (strdup host)
          Username := some (strdup user) }
      let r2 : rdpSettings :=
        if domain ≠ "" then { r1 with Domain := some (strdup domain) } else r1
      let r3 : rdpSettings :=
        if pass ≠ "" then { r2 with Password := some (strdup pass) }
        else { r2 with Authentication := 0 }
      let r4 : rdpSettings :=
        if params.perf = 0 then
          { r3 with PerformanceFlags := c.PERF_FLAG_NONE
                    ConnectionType := c.CONNECTION_TYPE_LAN }
        else if params.perf = 1 then
          { r3 with PerformanceFlags := c.PERF_DISABLE_WALLPAPER
                    ConnectionType := c.CONNECTION_TYPE_BROADBAND_HIGH }
        else if params.perf = 2 then
          { r3 with PerformanceFlags :=
                      c.PERF_DISABLE_WALLPAPER ||| c.PERF_DISABLE_FULLWINDOWDRAG |||
                      c.PERF_DISABLE_MENUANIMATIONS ||| c.PERF_DISABLE_THEMING
                    ConnectionType := c.CONNECTION_TYPE_MODEM }
        else r3
      let r5 : rdpSettings :=
        if params.nowallp ≠ 0 then
          { r4 with DisableWallpaper := 1
                    PerformanceFlags := r4.PerformanceFlags ||| c.PERF_DISABLE_WALLPAPER }
        else r4
      let r6 : rdpSettings :=
        if params.nowdrag ≠ 0 then
          { r5 with DisableFullWindowDrag := 1
                    PerformanceFlags :=
                      r5.PerformanceFlags ||| c.PERF_DISABLE_FULLWINDOWDRAG }
        else r5
      let r7 : rdpSettings :=
        if params.nomani ≠ 0 then
          { r6 with DisableMenuAnims := 1
                    PerformanceFlags :=
                      r6.PerformanceFlags ||| c.PERF_DISABLE_MENUANIMATIONS }
        else r6
      let r8 : rdpSettings :=
        if params.notheme ≠ 0 then
          { r7 with DisableThemes := 1
                    PerformanceFlags := r7.PerformanceFlags ||| c.PERF_DISABLE_THEMING }
        else r7
      let r9 : rdpSettings :=
        if params.notls ≠ 0 then { r8 with TlsSecurity := 0 } else r8
      { st := { s with m_rdpSettings := some r9, m_State := State.STATE_CONNECT },
        eff := [], out := Outcome.ret true }

/-- Member function `RDP::Disconnect`, the calling thread alone. `engineRet` is the
value that `freerdp_disconnect` returns when it is called. On the join path the
result is the object at the call of `pthread_join`; what the worker does until the
join returns is `ThreadFunc_rest`, and `Disconnect_joined` is the call with
the wait included. -/
def Disconnect (s : RDP) (engineRet : Nat) : Res Bool :=
  if s.m_bThreadLoop then
    let s1 := { s with m_bThreadLoop := false }
    if State.STATE_CONNECTED = s1.m_State then
      { st := { s1 with m_State := State.STATE_CLOSED },
        eff := [Effect.freerdp_disconnect],
        out := Outcome.ret (decide (engineRet ≠ 0)) }
    else
      { st := s1, eff := [Effect.pthread_join], out := Outcome.ret true }
  else
    { st := s, eff := [], out := Outcome.ret true }

/-! ## Inbound messages -/

/-- Member function `RDP::SendInputKeyboardEvent(uint16_t flags, uint16_t code)`. -/
def SendInputKeyboardEvent (s : RDP) (flags code : Nat) : Res Unit :=
  if s.m_rdpInput = false then
    { st := s, eff := [], out := Outcome.throw "m_rdpInput is NULL" }
  else
    { st := s, eff := [Effect.keyboard_event (flags % 65536) (code % 65536)],
      out := Outcome.ret () }

/-- Member function `RDP::SendInputUnicodeKeyboardEvent(uint16_t flags, uint16_t code)`. -/
def SendInputUnicodeKeyboardEvent (s : RDP) (flags code : Nat) : Res Unit :=
  if s.m_rdpInput = false then
    { st := s, eff := [], out := Outcome.throw "m_rdpInput is NULL" }
  else
    { st := s, eff := [Effect.unicode_keyboard_event (flags % 65536) (code % 65536)],
      out := Outcome.ret () }

/-- The inner `switch (m->code)` of the `WSOP_CS_KUPDOWN` case: the value of `tcode`
after it. -/
def kupdownTcode (c : Consts) (code : Nat) : Nat :=
  if code = 8 then c.RDP_SCANCODE_BACKSPACE
  else if code = 16 then c.RDP_SCANCODE_LSHIFT
  else if code = 17 then c.RDP_SCANCODE_LCONTROL
  else if code = 18 then c.RDP_SCANCODE_LMENU
  else if code = 20 then 0
  else if code = 93 then c.RDP_SCANCODE_LWIN
  else if code = 144 then 0
  else if code = 145 then 0
  else 0

/-- The inner `switch (m->code)` of the `else` branch of the `WSOP_CS_KPRESS` case:
the value of `tcode` after it. -/
def kpressTcode (c : Consts) (code : Nat) : Nat :=
  if code = 0x09 then c.RDP_SCANCODE_TAB
  else if code = 0x0D then c.RDP_SCANCODE_RETURN
  else if code = 0x13 then c.RDP_SCANCODE_PAUSE
  else if code = 0x1B then c.RDP_SCANCODE_ESCAPE
  else if code = 0x20 then c.RDP_SCANCODE_SPACE
  else if code = 0x21 then c.RDP_SCANCODE_PRIOR
  else if code = 0x22 then c.RDP_SCANCODE_NEXT
  else if code = 0x23 then c.RDP_SCANCODE_END
  else if code = 0x24 then c.RDP_SCANCODE_HOME
  else if code = 0x25 then c.RDP_SCANCODE_LEFT
  else if code = 0x26 then c.RDP_SCANCODE_UP
  else if code = 0x27 then c.RDP_SCANCODE_RIGHT
  else if code = 0x28 then c.RDP_SCANCODE_DOWN
  else if code = 0x2C then c.RDP_SCANCODE_PRINTSCREEN
  else if code = 0x2D then c.RDP_SCANCODE_INSERT
  else if code = 0x2E then c.RDP_SCANCODE_DELETE
  else 0

/-- The statement `tcode -= (m->shiftstate & 1) ? 0 : 32;` of the Ctrl/Alt branch of
the `WSOP_CS_KPRESS` case: the value of `tcode` after it, which is the argument of
`freerdp_keyboard_get_rdp_scancode_from_virtual_key_code`. -/
def kpressVirtualKey (shiftstate tcode : Nat) : Nat :=
  (tcode - (if shiftstate &&& 1 ≠ 0 then 0 else 32)) % 4294967296

/-- Modelled from the spec: the parameter types of the engine entry point
`rdpInput::MouseEvent`, whose declaration is in the engine header and not in the
repository. The spec says "x/y are truncated/narrowed to the engine's native
coordinate width (16-bit)"; the entry point is taken with
`UINT16 flags, UINT16 x, UINT16 y`, so that a call with `uint32_t` arguments hands
over their values modulo `2^16`. -/
abbrev callMouseEvent (flags x y : Nat) : Effect :=
  Effect.MouseEvent (flags % 65536) (x % 65536) (y % 65536)

/-- Case `WSOP_CS_MOUSE` of `RDP::OnWsMessage`. The call goes through
`m_freerdp->input`, the pointer that `ContextNew` copied to `m_rdpInput`, and the
case does not test it: with a null input pointer the member `MouseEvent` is
fetched through a null pointer and no call is made. The payload fields are the
arguments of the call; a message too short for them is reported as a read outside
the buffer whatever the pointer is. -/
def onMouse (s : RDP) (data : Bytes) : Res Unit :=
  match readU32 data 4, readU32 data 8, readU32 data 12 with
  | some flags, some x, some y =>
    if s.m_rdpInput = false then { st := s, eff := [], out := Outcome.nullptr }
    else { st := s, eff := [callMouseEvent flags x y], out := Outcome.ret () }
  | _, _, _ => { st := s, eff := [], out := Outcome.fault }

/-- Case `WSOP_CS_KUPDOWN` of `RDP::OnWsMessage`. -/
def onKUpDown (c : Consts) (s : RDP) (data : Bytes) : Res Unit :=
  match readU32 data 4, readU32 data 8 with
  | some down, some code =>
    let tcode := kupdownTcode c code
    if 0 < tcode then
      let tflag := if c.RDP_SCANCODE_EXTENDED tcode then c.KBD_FLAGS_EXTENDED else 0
      let tcode1 := c.RDP_SCANCODE_CODE tcode
      SendInputKeyboardEvent s
        ((if down ≠ 0 then c.KBD_FLAGS_DOWN else c.KBD_FLAGS_RELEASE) ||| tflag) tcode1
    else { st := s, eff := [], out := Outcome.ret () }
  | _, _ => { st := s, eff := [], out := Outcome.fault }

/-- Case `WSOP_CS_KPRESS` of `RDP::OnWsMessage`. -/
def onKPress (c : Consts) (s : RDP) (data : Bytes) : Res Unit :=
  match readU32 data 4, readU32 data 8 with
  | some shiftstate, some code =>
    let tcode := code
    if 0x20 < code then
      if shiftstate &&& 6 ≠ 0 then
        if (64 < tcode ∧ 91 > tcode) ∨ (96 < tcode ∧ 123 > tcode) then
          let tcode1 := kpressVirtualKey shiftstate tcode
          let tcode2 :=
            c.freerdp_keyboard_get_rdp_scancode_from_virtual_key_code tcode1 % 4294967296
          if 0 < tcode2 then
            (SendInputKeyboardEvent s c.KBD_FLAGS_DOWN tcode2).andThen fun s1 _ =>
              SendInputKeyboardEvent s1 c.KBD_FLAGS_RELEASE tcode2
          else { st := s, eff := [], out := Outcome.ret () }
        else { st := s, eff := [], out := Outcome.ret () }
      else
        if 0 < tcode then
          (SendInputUnicodeKeyboardEvent s c.KBD_FLAGS_DOWN tcode).andThen fun s1 _ =>
            SendInputUnicodeKeyboardEvent s1 c.KBD_FLAGS_RELEASE tcode
        else { st := s, eff := [], out := Outcome.ret () }
    else
      let tcode0 := kpressTcode c code
      if 0 < tcode0 then
        let tflag := if c.RDP_SCANCODE_EXTENDED tcode0 then c.KBD_FLAGS_EXTENDED else 0
        let tcode1 := c.RDP_SCANCODE_CODE tcode0
        (SendInputKeyboardEvent s (c.KBD_FLAGS_DOWN ||| tflag) tcode1).andThen fun s1 _ =>
          SendInputKeyboardEvent s1 (c.KBD_FLAGS_RELEASE ||| tflag) tcode1
      else { st := s, eff := [], out := Outcome.ret () }
  | _, _ => { st := s, eff := [], out := Outcome.fault }

/-- Member function `RDP::OnWsMessage`. -/
def OnWsMessage (c : Consts) (s : RDP) (data : Bytes) : Res Unit :=
  if State.STATE_CONNECTED = s.m_State ∧ data.length ≥ 4 then
    match readU32 data 0 with
    | some op =>
      if op = c.WSOP_CS_MOUSE then onMouse s data
      else if op = c.WSOP_CS_KUPDOWN then onKUpDown c s data
      else if op = c.WSOP_CS_KPRESS then onKPress c s data
      else { st := s, eff := [], out := Outcome.ret () }
    | none => { st := s, eff := [], out := Outcome.fault }
  else { st := s, eff := [], out := Outcome.ret () }

/-! ## Cursor cache and pointer callbacks -/

/-- Member function `RDP::GetCursor`. -/
def GetCursor (s : RDP) (cid : Nat) : cursor :=
  match CursorMap.find s.m_cursorMap cid with
  | some v => v
  | none => (0, [])

/-- The members of the engine's `rdpPointer` that the callbacks read; a mask is
`none` for a null pointer. -/
structure rdpPointer where
  xPos : Nat
  yPos : Nat
  width : Nat
  height : Nat
  xorBpp : Nat
  andMaskData : Option Bytes
  xorMaskData : Option Bytes
  deriving DecidableEq, Repr

/-- Struct `MyPointer`: the engine's pointer followed by the id of the bridge. -/
structure MyPointer where
  pointer : rdpPointer
  id : Nat
  deriving DecidableEq, Repr

/-- Callback `RDP::Pointer_New`; `now` is the value of `time(NULL)`. The result is
the object together with the pointer as the callback leaves it. -/
def Pointer_New (c : Consts) (now : Nat) (s : RDP) (p : MyPointer) : Res MyPointer :=
  let psize := p.pointer.width * p.pointer.height * 4 % 4294967296
  let p1 : MyPointer := { p with id := s.m_ptrId }
  let s1 : RDP := { s with m_ptrId := (s.m_ptrId + 1) % 4294967296 }
  let pixels0 : Bytes := List.replicate psize 0
  let pixels : Bytes :=
    match p.pointer.andMaskData, p.pointer.xorMaskData with
    | some andMask, some xorMask =>
      c.freerdp_alpha_cursor_convert pixels0 xorMask andMask
        p.pointer.width p.pointer.height p.pointer.xorBpp
    | _, _ => pixels0
  let entry : cursor := (now, c.GenerateFromARGB p.pointer.width p.pointer.height pixels)
  let s2 : RDP := { s1 with m_cursorMap := CursorMap.set s1.m_cursorMap p1.id entry }
  { st := s2,
    eff := [Effect.send_binary
      (le32 c.WSOP_SC_PTR_NEW ++ le32 p1.id ++ le32 p.pointer.xPos ++ le32 p.pointer.yPos)],
    out := Outcome.ret p1 }

/-- Callback `RDP::Pointer_Free`. -/
def Pointer_Free (c : Consts) (s : RDP) (p : MyPointer) : Res MyPointer :=
  if p.id ≠ 0 then
    { st := { s with m_cursorMap := CursorMap.erase s.m_cursorMap p.id },
      eff := [Effect.send_binary (le32 c.WSOP_SC_PTR_FREE ++ le32 p.id)],
      out := Outcome.ret { p with id := 0 } }
  else { st := s, eff := [], out := Outcome.ret p }

/-- Callback `RDP::Pointer_Set`. -/
def Pointer_Set (c : Consts) (s : RDP) (p : MyPointer) : Res MyPointer :=
  { st := s, eff := [Effect.send_binary (le32 c.WSOP_SC_PTR_SET ++ le32 p.id)],
    out := Outcome.ret p }

/-- Callback `RDP::Pointer_SetNull`. -/
def Pointer_SetNull (c : Consts) (s : RDP) : Res Unit :=
  { st := s, eff := [Effect.send_binary (le32 c.WSOP_SC_PTR_SETNULL)],
    out := Outcome.ret () }

/-- Callback `RDP::Pointer_SetDefault`. -/
def Pointer_SetDefault (c : Consts) (s : RDP) : Res Unit :=
  { st := s, eff := [Effect.send_binary (le32 c.WSOP_SC_PTR_SETDEFAULT)],
    out := Outcome.ret () }

/-! ## The worker loop -/

/-- Member function `RDP::addError`. -/
def addError (s : RDP) (msg : String) : RDP :=
  let m1 := if s.m_errMsg ≠ "" then s.m_errMsg ++ "\n" else s.m_errMsg
  { s with m_errMsg := m1 ++ "E:" ++ msg }

/-- Text produced by `oss << hex << e`. -/
def hexText (e : Nat) : String := String.mk (Nat.toDigits 16 e)

/-- What the engine answers during one iteration of the loop of `ThreadFunc`:
the value of `freerdp_error_info`, of `freerdp_shall_disconnect`, and of
`freerdp_connect` (consulted only in state `STATE_CONNECT`). -/
structure LoopObs where
  error_info : Nat
  shall_disconnect : Bool
  connect : Bool
  deriving DecidableEq, Repr

/-- How one pass through the body of the `while` loop is left. -/
inductive LoopExit
  /-- The end of the body is reached, after `usleep(100)`. -/
  | next
  /-- Through `continue`, without sleeping. -/
  | continued
  /-- Through `break`. -/
  | broken
  deriving DecidableEq, Repr

/-- The error classification at the head of the loop body of `ThreadFunc`. -/
def classifyError (s : RDP) (e : Nat) : RDP :=
  if 0 ≠ e then
    if s.m_lastError ≠ e then
      let s1 := { s with m_lastError := e }
      if e = 1 ∨ e = 2 ∨ e = 7 ∨ e = 9 then { s1 with m_bThreadLoop := false }
      else if e = 5 then
        addError s1
          "Another user connected to the server,\nforcing the disconnection of the current connection."
      else addError s1 ("Server reported error 0x" ++ hexText e)
    else s
  else s

/-- One pass through the body of the `while (m_bThreadLoop)` loop of
`RDP::ThreadFunc`, entered with the loop condition true. -/
def ThreadFunc_body (s : RDP) (o : LoopObs) : RDP × List Effect × LoopExit :=
  let s1 := classifyError s o.error_info
  let flush : RDP × List Effect :=
    if s1.m_errMsg ≠ "" then ({ s1 with m_errMsg := "" }, [Effect.send_text s1.m_errMsg])
    else (s1, [])
  let s2 := flush.1
  if o.shall_disconnect then (s2, flush.2, LoopExit.broken)
  else
    match s2.m_State with
    | State.STATE_CONNECTED =>
      (s2, flush.2 ++ [Effect.freerdp_check_fds, Effect.usleep 100], LoopExit.next)
    | State.STATE_CONNECT =>
      if o.connect then
        ({ s2 with m_State := State.STATE_CONNECTED },
          flush.2 ++ [Effect.freerdp_connect], LoopExit.continued)
      else
        (addError { s2 with m_State := State.STATE_INITIAL }
            "Could not connect to RDP backend.",
          flush.2 ++ [Effect.freerdp_connect, Effect.usleep 100], LoopExit.next)
    | State.STATE_INITIAL => (s2, flush.2 ++ [Effect.usleep 100], LoopExit.next)
    | State.STATE_CLOSED => (s2, flush.2 ++ [Effect.usleep 100], LoopExit.next)

/-- The statements of `RDP::ThreadFunc` after the loop. -/
def ThreadFunc_epilogue (s : RDP) : List Effect :=
  if State.STATE_CONNECTED = s.m_State then [Effect.send_text "T:"] else []

/-- The loop of `RDP::ThreadFunc` run against a script of engine answers, one per
pass; the loop stops when the condition `m_bThreadLoop` is false, at a `break`, or
when the script is used up (the last component tells whether the function has
returned, in which case the effects include those of the epilogue). -/
def ThreadFunc (s : RDP) (script : List LoopObs) : RDP × List Effect × Bool :=
  match script with
  | [] =>
    if s.m_bThreadLoop then (s, [], false) else (s, ThreadFunc_epilogue s, true)
  | o :: rest =>
    if s.m_bThreadLoop then
      let r := ThreadFunc_body s o
      match r.2.2 with
      | LoopExit.broken => (r.1, r.2.1 ++ ThreadFunc_epilogue r.1, true)
      | _ =>
        let r2 := ThreadFunc r.1 rest
        (r2.1, r.2.1 ++ r2.2.1, r2.2.2)
    else (s, ThreadFunc_epilogue s, true)

/-! ## The wait for the worker in Disconnect -/

/-- Where the worker thread stands when `Disconnect` has cleared the loop flag. -/
inductive WorkerAt
  /-- `ThreadFunc` has returned already (it left the loop through `break`). -/
  | returned
  /-- The worker is about to evaluate the loop condition `m_bThreadLoop`. -/
  | atTest
  /-- The worker is inside the loop body: a pass is in flight, during which the
  engine answers `o`. -/
  | inPass (o : LoopObs)
  deriving DecidableEq, Repr

/-- The rest of `RDP::ThreadFunc` from the moment `Disconnect` has cleared the loop
flag until the function returns, which is what `pthread_join(m_worker, NULL)`
waits for; `s` is the object with the flag clear. A pass in flight is completed;
the loop condition that is evaluated next is false (no statement of the body sets
the flag), so the statements after the loop follow. -/
def ThreadFunc_rest (s : RDP) (w : WorkerAt) : RDP × List Effect :=
  match w with
  | WorkerAt.returned => (s, [])
  | WorkerAt.atTest => (s, ThreadFunc_epilogue s)
  | WorkerAt.inPass o =>
    let r := ThreadFunc_body s o
    (r.1, r.2.1 ++ ThreadFunc_epilogue r.1)

/-- An operation that reaches the session object: a call of a public member
function, a pointer callback of the engine on the pointer object number `h`, or
one pass of the worker loop. -/
inductive Op
  | Connect (host user domain pass : String) (params : WsRdpParams)
  | Disconnect (engineRet : Nat)
  | OnWsMessage (data : Bytes)
  | Pointer_New (now : Nat) (h : Nat) (p : rdpPointer)
  | Pointer_Free (h : Nat)
  | Pointer_Set (h : Nat)
  | Pointer_SetNull
  | Pointer_SetDefault
  | ThreadFunc_pass (o : LoopObs)

/-- The session object together with the pointer objects of the engine
(`ptrs h` is pointer object number `h`, a `MyPointer`). -/
structure World where
  rdp : RDP
  ptrs : Nat → MyPointer

/-- Replacement of pointer object `h`. -/
def setPtr (ptrs : Nat → MyPointer) (h : Nat) (v : MyPointer) : Nat → MyPointer :=
  fun k => if k = h then v else ptrs k

/-- The pointer object as a pointer callback leaves it. -/
def ptrAfter (r : Res MyPointer) (old : MyPointer) : MyPointer :=
  match r.out with
  | Outcome.ret p => p
  | _ => old

/-- One operation. For `Pointer_New` the engine has filled the pointer object `h`
with `p` before the callback runs. A pass of the worker loop takes place only
while the loop condition `m_bThreadLoop` holds. An exception leaves the object as
it is at the throw. -/
def step (c : Consts) (w : World) (op : Op) : World × List Effect :=
  match op with
  | Op.Connect host user domain pass params =>
    let r := Connect c w.rdp host user domain pass params
    ({ w with rdp := r.st }, r.eff)
  | Op.Disconnect engineRet =>
    let r := Disconnect w.rdp engineRet
    ({ w with rdp := r.st }, r.eff)
  | Op.OnWsMessage data =>
    let r := OnWsMessage c w.rdp data
    ({ w with rdp := r.st }, r.eff)
  | Op.Pointer_New now h p =>
    let p0 : MyPointer := { pointer := p, id := (w.ptrs h).id }
    let r := Pointer_New c now w.rdp p0
    ({ rdp := r.st, ptrs := setPtr w.ptrs h (ptrAfter r p0) }, r.eff)
  | Op.Pointer_Free h =>
    let r := Pointer_Free c w.rdp (w.ptrs h)
    ({ rdp := r.st, ptrs := setPtr w.ptrs h (ptrAfter r (w.ptrs h)) }, r.eff)
  | Op.Pointer_Set h =>
    let r := Pointer_Set c w.rdp (w.ptrs h)
    ({ rdp := r.st, ptrs := setPtr w.ptrs h (ptrAfter r (w.ptrs h)) }, r.eff)
  | Op.Pointer_SetNull =>
    let r := Pointer_SetNull c w.rdp
    ({ w with rdp := r.st }, r.eff)
  | Op.Pointer_SetDefault =>
    let r := Pointer_SetDefault c w.rdp
    ({ w with rdp := r.st }, r.eff)
  | Op.ThreadFunc_pass o =>
    if w.rdp.m_bThreadLoop then
      let r := ThreadFunc_body w.rdp o
      ({ w with rdp := r.1 }, r.2.1)
    else (w, [])

/-- A sequence of operations: the final world and all effects in order. -/
def run (c : Consts) (w : World) (ops : List Op) : World × List Effect :=
  match ops with
  | [] => (w, [])
  | op :: rest =>
    let r := step c w op
    let r2 := run c r.1 rest
    (r2.1, r.2 ++ r2.2)

/-! ## Concrete data for evaluating the model -/

/-- A concrete table of constants: set-1 scancodes with bit 8 as the extended mark,
the keyboard flags of the RDP input PDU, opcodes numbered in order. -/
def sampleConsts : Consts where
  WSOP_CS_MOUSE := 0
  WSOP_CS_KUPDOWN := 1
  WSOP_CS_KPRESS := 2
  cs_distinct := by decide
  WSOP_SC_PTR_NEW := 8
  WSOP_SC_PTR_FREE := 9
  WSOP_SC_PTR_SET := 10
  WSOP_SC_PTR_SETNULL := 11
  WSOP_SC_PTR_SETDEFAULT := 12
  KBD_FLAGS_EXTENDED := 0x0100
  KBD_FLAGS_DOWN := 0x4000
  KBD_FLAGS_RELEASE := 0x8000
  RDP_SCANCODE_EXTENDED := fun sc => decide (sc &&& 0x100 ≠ 0)
  RDP_SCANCODE_CODE := fun sc => sc &&& 0xFF
  RDP_SCANCODE_BACKSPACE := 0x0E
  RDP_SCANCODE_LSHIFT := 0x2A
  RDP_SCANCODE_LCONTROL := 0x1D
  RDP_SCANCODE_LMENU := 0x38
  RDP_SCANCODE_LWIN := 0x15B
  RDP_SCANCODE_TAB := 0x0F
  RDP_SCANCODE_RETURN := 0x1C
  RDP_SCANCODE_PAUSE := 0x146
  RDP_SCANCODE_ESCAPE := 0x01
  RDP_SCANCODE_SPACE := 0x39
  RDP_SCANCODE_PRIOR := 0x149
  RDP_SCANCODE_NEXT := 0x151
  RDP_SCANCODE_END := 0x14F
  RDP_SCANCODE_HOME := 0x147
  RDP_SCANCODE_LEFT := 0x14B
  RDP_SCANCODE_UP := 0x148
  RDP_SCANCODE_RIGHT := 0x14D
  RDP_SCANCODE_DOWN := 0x150
  RDP_SCANCODE_PRINTSCREEN := 0x137
  RDP_SCANCODE_INSERT := 0x152
  RDP_SCANCODE_DELETE := 0x153
  freerdp_keyboard_get_rdp_scancode_from_virtual_key_code := fun vk =>
    if vk = 0x41 then 0x1E else if vk = 0x43 then 0x2E else if vk = 0x21 then 0x149
    else 0
  PERF_FLAG_NONE := 0
  PERF_DISABLE_WALLPAPER := 1
  PERF_DISABLE_FULLWINDOWDRAG := 2
  PERF_DISABLE_MENUANIMATIONS := 4
  PERF_DISABLE_THEMING := 8
  CONNECTION_TYPE_LAN := 6
  CONNECTION_TYPE_BROADBAND_HIGH := 4
  CONNECTION_TYPE_MODEM := 1
  freerdp_alpha_cursor_convert := fun _ xorMask _ _ _ _ => xorMask
  GenerateFromARGB := fun w h pixels => le32 w ++ le32 h ++ pixels

/-- Settings with every member zero or null. -/
def zeroSettings : rdpSettings :=
  { SendPreconnectionPdu := false, PreconnectionBlob := none, DesktopWidth := 0,
    DesktopHeight := 0, ServerPort := 0, IgnoreCertificate := false,
    NegotiateSecurityLayer := false, ServerHostname := none, Username := none,
    Domain := none, Password := none, Authentication := 0, PerformanceFlags := 0,
    ConnectionType := 0, DisableWallpaper := 0, DisableFullWindowDrag := 0,
    DisableMenuAnims := 0, DisableThemes := 0, TlsSecurity := 0 }

/-- The session as the constructor leaves it when the engine instance has input
and settings and the worker thread was created. -/
def freshSession : RDP :=
  { m_rdpInput := true, m_rdpSettings := some zeroSettings, m_bThreadLoop := true,
    m_errMsg := "", m_State := State.STATE_INITIAL, m_lastError := 0, m_ptrId := 1,
    m_cursorMap := [] }

/-- The same session once the worker has seen `freerdp_connect` succeed. -/
def connectedSession : RDP := { freshSession with m_State := State.STATE_CONNECTED }

/-- Parameters with every member zero. -/
def zeroParams : WsRdpParams :=
  { width := 0, height := 0, perf := 0, notls := 0, nowallp := 0, nowdrag := 0,
    nomani := 0, notheme := 0 }

/-- A `WSOP_CS_KPRESS` message of `sampleConsts` with the given shift state and
code (both below 256). -/
def kpressMsg (shiftstate code : Byte) : Bytes :=
  [2, 0, 0, 0, shiftstate, 0, 0, 0, code, 0, 0, 0]

/-- A pointer object with every member zero or null. -/
def zeroPointer : MyPointer :=
  { pointer := ⟨0, 0, 0, 0, 0, none, none⟩, id := 0 }

/-- The world at the start of a session: no pointer object carries an id. -/
def World.start (s : RDP) : World := { rdp := s, ptrs := fun _ => zeroPointer }

/-! ## Observations on sequences of pointer callbacks -/

/-- The ids that the successive `Pointer_New` callbacks of a sequence write to their
pointer objects (`p->id = m_ptrId++`), in order. -/
def assignedIds (c : Consts) (w : World) : List Op → List Nat
  | [] => []
  | Op.Pointer_New now h p :: rest =>
    ((step c w (Op.Pointer_New now h p)).1.ptrs h).id ::
      assignedIds c (step c w (Op.Pointer_New now h p)).1 rest
  | op :: rest => assignedIds c (step c w op).1 rest

/-- Number of `Pointer_New` callbacks in a sequence. -/
def countNew : List Op → Nat
  | [] => 0
  | Op.Pointer_New _ _ _ :: rest => countNew rest + 1
  | _ :: rest => countNew rest

/-- The non-zero ids found on the pointer objects by the successive `Pointer_Free`
callbacks of a sequence: the ids for which a Free has been processed. -/
def freedIds (c : Consts) (w : World) : List Op → List Nat
  | [] => []
  | Op.Pointer_Free h :: rest =>
    if (w.ptrs h).id ≠ 0 then
      (w.ptrs h).id :: freedIds c (step c w (Op.Pointer_Free h)).1 rest
    else freedIds c (step c w (Op.Pointer_Free h)).1 rest
  | op :: rest => freedIds c (step c w op).1 rest

/-- The outbound message `{WSOP_SC_PTR_NEW, id, hx, hy}`. -/
def msgPtrNew (c : Consts) (id hx hy : Nat) : Effect :=
  Effect.send_binary (le32 c.WSOP_SC_PTR_NEW ++ le32 id ++ le32 hx ++ le32 hy)

/-- The outbound message `{WSOP_SC_PTR_FREE, id}`. -/
def msgPtrFree (c : Consts) (id : Nat) : Effect :=
  Effect.send_binary (le32 c.WSOP_SC_PTR_FREE ++ le32 id)

/-- In the trace `tr` every `PTR_FREE` message comes after a `PTR_NEW` message
with the same id. -/
def FreeAfterNew (c : Consts) (tr : List Effect) : Prop :=
  ∀ (pre post : List Effect) (id : Nat), tr = pre ++ msgPtrFree c id :: post →
    ∃ hx hy, msgPtrNew c id hx hy ∈ pre

/-- Operations that are neither a `Pointer_New` nor a `Pointer_Free` on a pointer
object with a non-zero id. -/
def leavesPointers (w : World) : Op → Prop
  | Op.Pointer_New _ _ _ => False
  | Op.Pointer_Free h => (w.ptrs h).id = 0
  | _ => True

/-- Invariant of the pointer bookkeeping. `fr` lists the ids freed so far; `n` is
one more than the number of `Pointer_New` callbacks so far (the counter `m_ptrId`
before reduction modulo `2^32`). -/
structure PtrInv (w : World) (fr : List Nat) (n : Nat) : Prop where
  counter : w.rdp.m_ptrId = n % 4294967296
  pos : 1 ≤ n
  bound : n ≤ 4294967296
  idLt : ∀ h, (w.ptrs h).id < n
  idInj : ∀ h1 h2, (w.ptrs h1).id = (w.ptrs h2).id → (w.ptrs h1).id ≠ 0 → h1 = h2
  freed : ∀ k, k ∈ fr →
    k ≠ 0 ∧ k < n ∧ (∀ h, (w.ptrs h).id ≠ k) ∧ CursorMap.find w.rdp.m_cursorMap k = none

/-- Invariant of the trace: a `PTR_NEW` message was sent for every id that a
pointer object carries, and every `PTR_FREE` message comes after a `PTR_NEW`
message with the same id. -/
structure OrderInv (c : Consts) (w : World) (tr : List Effect) : Prop where
  held : ∀ h, (w.ptrs h).id ≠ 0 → ∃ hx hy, msgPtrNew c (w.ptrs h).id hx hy ∈ tr
  order : FreeAfterNew c tr

/-- Invariant of the trace: the `PTR_FREE` messages sent so far carry the ids in
`fr`, and none was sent twice. -/
structure OnceInv (c : Consts) (tr : List Effect) (fr : List Nat) : Prop where
  sound : ∀ k, k < 4294967296 → msgPtrFree c k ∈ tr → k ∈ fr
  freeOnce : ∀ k, tr.count (msgPtrFree c k) ≤ 1

/-- A `WSOP_CS_KUPDOWN` message of `sampleConsts` with the given down field and
code (both below 256). -/
def kupdownMsg (down code : Byte) : Bytes :=
  [1, 0, 0, 0, down, 0, 0, 0, code, 0, 0, 0]

/-- A `WSOP_CS_MOUSE` message of `sampleConsts`: flags 0x8000, x = 0x00012345
(bytes 45 23 01 00), y = 0x0000FFFF. -/
def mouseMsg : Bytes :=
  [0, 0, 0, 0, 0x00, 0x80, 0, 0, 0x45, 0x23, 0x01, 0x00, 0xFF, 0xFF, 0, 0]

/-! ## Lines of a text message -/

/-- The lines of a text: the pieces between its newline characters. -/
def textLines : List Char → List (List Char)
  | [] => [[]]
  | ch :: cs =>
    if ch = '\n' then [] :: textLines cs
    else
      match textLines cs with
      | [] => [[ch]]
      | l :: ls => (ch :: l) :: ls

/-- Whether a line begins with the two characters `E:`. -/
def beginsWithE : List Char → Bool
  | 'E' :: ':' :: _ => true
  | _ => false

/-- The second line of the text that the loop adds for error code 5. -/
def forcedSecondLine : List Char :=
  "forcing the disconnection of the current connection.".data

/-- Every line of the text begins with `E:`, or, when `allow` holds, is the second
line of the text for error code 5. -/
def LinesOK (allow : Prop) (t : List Char) : Prop :=
  ∀ l, l ∈ textLines t → beginsWithE l = true ∨ (allow ∧ l = forcedSecondLine)

/-! ## Theorems -/

theorem freshSession_new :
    RDP.new (some ⟨true, some zeroSettings⟩) true = some freshSession := rfl

theorem connectedSession_reached :
    (run sampleConsts (World.start freshSession)
      [Op.Connect "h" "u" "" "" zeroParams, Op.ThreadFunc_pass ⟨0, false, true⟩]).1.rdp.m_State
      = State.STATE_CONNECTED ∧
    connectedSession.m_State = State.STATE_CONNECTED := by
  decide

/-- C1: when the state is not Connected or the message is shorter than 4 bytes,
`OnWsMessage` makes no call at all (no engine input call, nothing sent), returns
normally and leaves the session object as it was. -/
theorem OnWsMessage_ignored (c : Consts) (s : RDP) (data : Bytes)
    (h : s.m_State ≠ State.STATE_CONNECTED ∨ data.length < 4) :
    (OnWsMessage c s data).eff = [] ∧
    (OnWsMessage c s data).out = Outcome.ret () ∧
    (OnWsMessage c s data).st = s := by
  have hg : ¬ (State.STATE_CONNECTED = s.m_State ∧ data.length ≥ 4) := by
    rintro ⟨h1, h2⟩
    rcases h with h | h
    · exact h h1.symm
    · omega
  simp [OnWsMessage, hg]

/-- Witness of C1: a three-byte message on a connected session. -/
theorem OnWsMessage_ignored_witness :
    (connectedSession.m_State ≠ State.STATE_CONNECTED ∨ ([2, 0, 0] : Bytes).length < 4) ∧
    (OnWsMessage sampleConsts connectedSession [2, 0, 0]).eff = [] ∧
    (OnWsMessage sampleConsts connectedSession [2, 0, 0]).out = Outcome.ret () ∧
    (OnWsMessage sampleConsts connectedSession [2, 0, 0]).st = connectedSession :=
  ⟨Or.inr (by decide),
    OnWsMessage_ignored sampleConsts connectedSession [2, 0, 0] (Or.inr (by decide))⟩

/-- C3, the claim refuted: a second `Disconnect` on a session that is still
`STATE_INITIAL` (the first one cleared the loop flag) makes no call at all, so it
does not join the worker. -/
theorem Disconnect_initial_no_join :
    (Disconnect freshSession 1).st.m_State = State.STATE_INITIAL ∧
    Effect.pthread_join ∉ (Disconnect (Disconnect freshSession 1).st 1).eff := by
  decide

/-- C3 as amended: with the loop flag set, `Disconnect` in `STATE_CONNECTED` sets the
state to `STATE_CLOSED`, clears the flag and makes exactly one call, the engine
disconnect; with the loop flag set, `Disconnect` in `STATE_INITIAL` clears the flag
and makes exactly one call, the join of the worker (no engine disconnect), the
state staying `STATE_INITIAL`; with the loop flag clear, `Disconnect` makes no call
and leaves the object as it was. -/
theorem Disconnect_spec (s : RDP) (engineRet : Nat) :
    (s.m_bThreadLoop = true → s.m_State = State.STATE_CONNECTED →
      (Disconnect s engineRet).st.m_State = State.STATE_CLOSED ∧
      (Disconnect s engineRet).st.m_bThreadLoop = false ∧
      (Disconnect s engineRet).eff = [Effect.freerdp_disconnect]) ∧
    (s.m_bThreadLoop = true → s.m_State = State.STATE_INITIAL →
      (Disconnect s engineRet).st.m_State = State.STATE_INITIAL ∧
      (Disconnect s engineRet).st.m_bThreadLoop = false ∧
      (Disconnect s engineRet).eff = [Effect.pthread_join]) ∧
    (s.m_bThreadLoop = false →
      (Disconnect s engineRet).st = s ∧ (Disconnect s engineRet).eff = []) := by
  refine ⟨?_, ?_, ?_⟩
  · intro hl hs
    simp [Disconnect, hl, hs]
  · intro hl hs
    simp [Disconnect, hl, hs]
  · intro hl
    simp [Disconnect, hl]

/-- Witness of C3 as amended, on a connected and on a fresh session. -/
theorem Disconnect_spec_witness :
    ((Disconnect connectedSession 1).st.m_State = State.STATE_CLOSED ∧
      (Disconnect connectedSession 1).st.m_bThreadLoop = false ∧
      (Disconnect connectedSession 1).eff = [Effect.freerdp_disconnect]) ∧
    ((Disconnect freshSession 1).st.m_State = State.STATE_INITIAL ∧
      (Disconnect freshSession 1).st.m_bThreadLoop = false ∧
      (Disconnect freshSession 1).eff = [Effect.pthread_join]) :=
  ⟨(Disconnect_spec connectedSession 1).1 (by decide) (by decide),
    (Disconnect_spec freshSession 1).2.1 (by decide) (by decide)⟩

/-- `Connect` with the settings pointer null or the loop flag clear leaves the
object as it was. -/
theorem Connect_throw_st (c : Consts) (s : RDP) (host user domain pass : String)
    (params : WsRdpParams) (h : s.m_rdpSettings = none ∨ s.m_bThreadLoop = false) :
    (Connect c s host user domain pass params).st = s := by
  cases hs : s.m_rdpSettings with
  | none => simp [Connect, hs]
  | some r0 =>
    have hl : s.m_bThreadLoop = false := by
      rcases h with h | h
      · simp [hs] at h
      · exact h
    simp [Connect, hs, hl]

/-! ### Closed is terminal -/

theorem SendInputKeyboardEvent_st (s : RDP) (flags code : Nat) :
    (SendInputKeyboardEvent s flags code).st = s := by
  unfold SendInputKeyboardEvent
  split <;> rfl

theorem SendInputUnicodeKeyboardEvent_st (s : RDP) (flags code : Nat) :
    (SendInputUnicodeKeyboardEvent s flags code).st = s := by
  unfold SendInputUnicodeKeyboardEvent
  split <;> rfl

theorem andThen_st {α β : Type} (r : Res α) (f : RDP → α → Res β) (s : RDP)
    (h1 : r.st = s) (h2 : ∀ a, (f s a).st = s) : (r.andThen f).st = s := by
  unfold Res.andThen
  split
  · simp [h1, h2]
  · exact h1
  · exact h1
  · exact h1

theorem onMouse_st (s : RDP) (data : Bytes) : (onMouse s data).st = s := by
  unfold onMouse
  split
  · split <;> rfl
  · rfl

theorem onKUpDown_st (c : Consts) (s : RDP) (data : Bytes) : (onKUpDown c s data).st = s := by
  unfold onKUpDown
  split
  · simp only
    split
    · exact SendInputKeyboardEvent_st _ _ _
    · rfl
  · rfl

theorem onKPress_st (c : Consts) (s : RDP) (data : Bytes) : (onKPress c s data).st = s := by
  unfold onKPress
  split
  · simp only
    repeat' split
    all_goals first
      | rfl
      | exact andThen_st _ _ s (SendInputKeyboardEvent_st _ _ _)
          (fun _ => SendInputKeyboardEvent_st _ _ _)
      | exact andThen_st _ _ s (SendInputUnicodeKeyboardEvent_st _ _ _)
          (fun _ => SendInputUnicodeKeyboardEvent_st _ _ _)
  · rfl

theorem OnWsMessage_st (c : Consts) (s : RDP) (data : Bytes) :
    (OnWsMessage c s data).st = s := by
  unfold OnWsMessage
  repeat' split
  all_goals first
    | rfl
    | exact onMouse_st _ _
    | exact onKUpDown_st _ _ _
    | exact onKPress_st _ _ _

theorem addError_State (s : RDP) (msg : String) : (addError s msg).m_State = s.m_State := rfl

theorem addError_bThreadLoop (s : RDP) (msg : String) :
    (addError s msg).m_bThreadLoop = s.m_bThreadLoop := rfl

theorem classifyError_State (s : RDP) (e : Nat) : (classifyError s e).m_State = s.m_State := by
  unfold classifyError
  repeat' split
  all_goals rfl

theorem ThreadFunc_body_closed_iff (s : RDP) (o : LoopObs) :
    (ThreadFunc_body s o).1.m_State = State.STATE_CLOSED ↔ s.m_State = State.STATE_CLOSED := by
  have hc := classifyError_State s o.error_info
  unfold ThreadFunc_body
  simp only
  cases hs : s.m_State <;> rw [hs] at hc <;> repeat' split
  all_goals simp_all [addError_State]

/-- The state and loop flag after one operation on a closed session whose loop flag
is clear. -/
theorem step_closed (c : Consts) (w : World) (op : Op)
    (h1 : w.rdp.m_State = State.STATE_CLOSED) (h2 : w.rdp.m_bThreadLoop = false) :
    (step c w op).1.rdp.m_State = State.STATE_CLOSED ∧
    (step c w op).1.rdp.m_bThreadLoop = false := by
  cases op with
  | Connect host user domain pass params =>
    have h := (Connect_throw_st c w.rdp host user domain pass params (Or.inr h2))
    simp [step, h, h1, h2]
  | Disconnect e => simp [step, Disconnect, h1, h2]
  | OnWsMessage data => simp [step, OnWsMessage_st, h1, h2]
  | Pointer_New now h p => simp [step, Pointer_New, h1, h2]
  | Pointer_Free h =>
    simp only [step, Pointer_Free]
    split <;> simp [h1, h2]
  | Pointer_Set h => simp [step, Pointer_Set, h1, h2]
  | Pointer_SetNull => simp [step, Pointer_SetNull, h1, h2]
  | Pointer_SetDefault => simp [step, Pointer_SetDefault, h1, h2]
  | ThreadFunc_pass o => simp [step, h1, h2]

theorem Connect_cases (c : Consts) (s : RDP) (host user domain pass : String)
    (params : WsRdpParams) :
    (Connect c s host user domain pass params).st = s ∨
    ((Connect c s host user domain pass params).st.m_State = State.STATE_CONNECT ∧
      (Connect c s host user domain pass params).st.m_bThreadLoop = s.m_bThreadLoop) := by
  cases hs : s.m_rdpSettings with
  | none => left; simp [Connect, hs]
  | some r0 =>
    cases hl : s.m_bThreadLoop with
    | false => left; simp [Connect, hs, hl]
    | true => right; simp [Connect, hs, hl]

/-- One operation keeps the invariant "a closed session has its loop flag clear". -/
theorem step_closed_flag (c : Consts) (w : World) (op : Op)
    (h : w.rdp.m_State = State.STATE_CLOSED → w.rdp.m_bThreadLoop = false) :
    (step c w op).1.rdp.m_State = State.STATE_CLOSED →
    (step c w op).1.rdp.m_bThreadLoop = false := by
  cases op with
  | Connect host user domain pass params =>
    rcases Connect_cases c w.rdp host user domain pass params with h1 | ⟨h1, _⟩
    · simpa [step, h1] using h
    · simp [step, h1]
  | Disconnect e =>
    simp only [step, Disconnect]
    cases hl : w.rdp.m_bThreadLoop with
    | false => simp [hl]
    | true =>
      simp only [if_true]
      split <;> simp
  | OnWsMessage data => simpa [step, OnWsMessage_st] using h
  | Pointer_New now h0 p => simpa [step, Pointer_New] using h
  | Pointer_Free h0 =>
    simp only [step, Pointer_Free]
    split <;> simpa using h
  | Pointer_Set h0 => simpa [step, Pointer_Set] using h
  | Pointer_SetNull => simpa [step, Pointer_SetNull] using h
  | Pointer_SetDefault => simpa [step, Pointer_SetDefault] using h
  | ThreadFunc_pass o =>
    simp only [step]
    cases hl : w.rdp.m_bThreadLoop with
    | false => simp [hl]
    | true =>
      simp only [if_true]
      intro hc
      have h2 := (ThreadFunc_body_closed_iff w.rdp o).1 hc
      rw [h h2] at hl
      exact absurd hl (by decide)

theorem run_closed_flag (c : Consts) (ops : List Op) (w : World)
    (h : w.rdp.m_State = State.STATE_CLOSED → w.rdp.m_bThreadLoop = false) :
    (run c w ops).1.rdp.m_State = State.STATE_CLOSED →
    (run c w ops).1.rdp.m_bThreadLoop = false := by
  induction ops generalizing w with
  | nil => simpa [run] using h
  | cons op rest ih =>
    simp only [run]
    exact ih (step c w op).1 (step_closed_flag c w op h)

theorem run_closed (c : Consts) (ops : List Op) (w : World)
    (h1 : w.rdp.m_State = State.STATE_CLOSED) (h2 : w.rdp.m_bThreadLoop = false) :
    (run c w ops).1.rdp.m_State = State.STATE_CLOSED ∧
    (run c w ops).1.rdp.m_bThreadLoop = false := by
  induction ops generalizing w with
  | nil => exact ⟨h1, h2⟩
  | cons op rest ih =>
    simp only [run]
    exact ih (step c w op).1 (step_closed c w op h1 h2).1 (step_closed c w op h1 h2).2

theorem RDP_new_State (inst : freerdp) (threadCreated : Bool) (s0 : RDP)
    (h : RDP.new (some inst) threadCreated = some s0) : s0.m_State = State.STATE_INITIAL := by
  simp only [RDP.new, ContextNew, Option.some.injEq] at h
  rw [← h]

/-- C4: in a session built by the constructor, once a sequence of operations has
brought the state to `STATE_CLOSED`, every further sequence of `Connect`,
`Disconnect`, inbound messages, pointer callbacks and worker-loop passes leaves the
state `STATE_CLOSED`, and a `Connect` in any such later state throws and leaves the
state `STATE_CLOSED`. -/
theorem Closed_terminal (c : Consts) (inst : freerdp) (threadCreated : Bool) (s0 : RDP)
    (ptrs : Nat → MyPointer) (ops1 ops2 : List Op)
    (hnew : RDP.new (some inst) threadCreated = some s0)
    (hclosed : (run c ⟨s0, ptrs⟩ ops1).1.rdp.m_State = State.STATE_CLOSED) :
    (run c (run c ⟨s0, ptrs⟩ ops1).1 ops2).1.rdp.m_State = State.STATE_CLOSED ∧
    ∀ (host user domain pass : String) (params : WsRdpParams),
      (∃ msg, (Connect c (run c (run c ⟨s0, ptrs⟩ ops1).1 ops2).1.rdp
          host user domain pass params).out = Outcome.throw msg) ∧
      (Connect c (run c (run c ⟨s0, ptrs⟩ ops1).1 ops2).1.rdp
          host user domain pass params).st.m_State = State.STATE_CLOSED := by
  have hinit : s0.m_State = State.STATE_CLOSED → s0.m_bThreadLoop = false := by
    intro h
    rw [RDP_new_State inst threadCreated s0 hnew] at h
    exact absurd h (by decide)
  have hflag := run_closed_flag c ops1 ⟨s0, ptrs⟩ hinit hclosed
  have h2 := run_closed c ops2 (run c ⟨s0, ptrs⟩ ops1).1 hclosed hflag
  refine ⟨h2.1, ?_⟩
  intro host user domain pass params
  have hst := Connect_throw_st c _ host user domain pass params (Or.inr h2.2)
  refine ⟨?_, by rw [hst]; exact h2.1⟩
  generalize (run c (run c ⟨s0, ptrs⟩ ops1).1 ops2).1.rdp = s at h2
  cases hs : s.m_rdpSettings with
  | none => exact ⟨"m_rdpSettings is NULL", by simp [Connect, hs]⟩
  | some r0 => exact ⟨"worker thread has terminated", by simp [Connect, hs, h2.2]⟩

/-- The operations that bring a fresh session to `STATE_CLOSED`. -/
theorem Closed_terminal_witness :
    (run sampleConsts ⟨freshSession, fun _ => zeroPointer⟩
        [Op.Connect "h" "u" "" "" zeroParams, Op.ThreadFunc_pass ⟨0, false, true⟩,
          Op.Disconnect 1]).1.rdp.m_State = State.STATE_CLOSED ∧
    (run sampleConsts
        (run sampleConsts ⟨freshSession, fun _ => zeroPointer⟩
          [Op.Connect "h" "u" "" "" zeroParams, Op.ThreadFunc_pass ⟨0, false, true⟩,
            Op.Disconnect 1]).1
        [Op.Connect "h" "u" "" "" zeroParams, Op.ThreadFunc_pass ⟨0, false, true⟩,
          Op.OnWsMessage (kpressMsg 0 0x0D)]).1.rdp.m_State = State.STATE_CLOSED :=
  ⟨by decide,
    (Closed_terminal sampleConsts ⟨true, some zeroSettings⟩ true freshSession
      (fun _ => zeroPointer)
      [Op.Connect "h" "u" "" "" zeroParams, Op.ThreadFunc_pass ⟨0, false, true⟩,
        Op.Disconnect 1]
      [Op.Connect "h" "u" "" "" zeroParams, Op.ThreadFunc_pass ⟨0, false, true⟩,
        Op.OnWsMessage (kpressMsg 0 0x0D)]
      (by decide) (by decide)).1⟩

/-! ### Pointer ids -/

theorem addError_ptr (s : RDP) (msg : String) :
    (addError s msg).m_ptrId = s.m_ptrId ∧ (addError s msg).m_cursorMap = s.m_cursorMap :=
  ⟨rfl, rfl⟩

theorem classifyError_ptr (s : RDP) (e : Nat) :
    (classifyError s e).m_ptrId = s.m_ptrId ∧
    (classifyError s e).m_cursorMap = s.m_cursorMap := by
  unfold classifyError
  repeat' split
  all_goals exact ⟨rfl, rfl⟩

theorem ThreadFunc_body_ptr (s : RDP) (o : LoopObs) :
    (ThreadFunc_body s o).1.m_ptrId = s.m_ptrId ∧
    (ThreadFunc_body s o).1.m_cursorMap = s.m_cursorMap := by
  have hc := classifyError_ptr s o.error_info
  unfold ThreadFunc_body
  simp only
  repeat' split
  all_goals simp_all [addError]

theorem Connect_ptr (c : Consts) (s : RDP) (host user domain pass : String)
    (params : WsRdpParams) :
    (Connect c s host user domain pass params).st.m_ptrId = s.m_ptrId ∧
    (Connect c s host user domain pass params).st.m_cursorMap = s.m_cursorMap := by
  cases hs : s.m_rdpSettings with
  | none => simp [Connect, hs]
  | some r0 =>
    cases hl : s.m_bThreadLoop with
    | false => simp [Connect, hs, hl]
    | true => simp [Connect, hs, hl]

theorem Disconnect_ptr (s : RDP) (e : Nat) :
    (Disconnect s e).st.m_ptrId = s.m_ptrId ∧
    (Disconnect s e).st.m_cursorMap = s.m_cursorMap := by
  unfold Disconnect
  simp only
  repeat' split
  all_goals exact ⟨rfl, rfl⟩

/-- The counter after one operation: `Pointer_New` advances it modulo `2^32`, every
other operation leaves it. -/
theorem step_ptrId (c : Consts) (w : World) (op : Op) :
    (step c w op).1.rdp.m_ptrId =
      match op with
      | Op.Pointer_New _ _ _ => (w.rdp.m_ptrId + 1) % 4294967296
      | _ => w.rdp.m_ptrId := by
  cases op with
  | Connect host user domain pass params => simp [step, (Connect_ptr _ _ _ _ _ _ _).1]
  | Disconnect e => simp [step, (Disconnect_ptr _ _).1]
  | OnWsMessage data => simp [step, OnWsMessage_st]
  | Pointer_New now h p => simp [step, Pointer_New]
  | Pointer_Free h =>
    simp only [step, Pointer_Free]
    split <;> rfl
  | Pointer_Set h => simp [step, Pointer_Set]
  | Pointer_SetNull => simp [step, Pointer_SetNull]
  | Pointer_SetDefault => simp [step, Pointer_SetDefault]
  | ThreadFunc_pass o =>
    simp only [step]
    split
    · exact (ThreadFunc_body_ptr _ _).1
    · rfl

theorem step_new_id (c : Consts) (w : World) (now h : Nat) (p : rdpPointer) :
    ((step c w (Op.Pointer_New now h p)).1.ptrs h).id = w.rdp.m_ptrId := by
  simp [step, Pointer_New, setPtr, ptrAfter]

/-- The ids assigned by a sequence, from the value of the counter at its start. -/
theorem assignedIds_eq (c : Consts) (ops : List Op) (w : World)
    (hm : w.rdp.m_ptrId < 4294967296) :
    assignedIds c w ops =
      (List.range (countNew ops)).map (fun k => (w.rdp.m_ptrId + k) % 4294967296) := by
  induction ops generalizing w with
  | nil => simp [assignedIds, countNew]
  | cons op rest ih =>
    have hstep := step_ptrId c w op
    cases op with
    | Pointer_New now h p =>
      simp only at hstep
      have hlt : (step c w (Op.Pointer_New now h p)).1.rdp.m_ptrId < 4294967296 := by
        rw [hstep]; exact Nat.mod_lt _ (by decide)
      simp only [assignedIds, countNew, step_new_id, ih _ hlt, hstep, List.range_succ_eq_map,
        List.map_cons, List.map_map, Nat.add_zero, Nat.mod_eq_of_lt hm]
      congr 1
      apply List.map_congr_left
      intro k _
      simp only [Function.comp, Nat.succ_eq_add_one]
      omega
    | Connect host user domain pass params =>
      simp only at hstep
      simp only [assignedIds, countNew]
      rw [ih _ (by rw [hstep]; exact hm), hstep]
    | Disconnect e =>
      simp only at hstep
      simp only [assignedIds, countNew]
      rw [ih _ (by rw [hstep]; exact hm), hstep]
    | OnWsMessage data =>
      simp only at hstep
      simp only [assignedIds, countNew]
      rw [ih _ (by rw [hstep]; exact hm), hstep]
    | Pointer_Free h =>
      simp only at hstep
      simp only [assignedIds, countNew]
      rw [ih _ (by rw [hstep]; exact hm), hstep]
    | Pointer_Set h =>
      simp only at hstep
      simp only [assignedIds, countNew]
      rw [ih _ (by rw [hstep]; exact hm), hstep]
    | Pointer_SetNull =>
      simp only at hstep
      simp only [assignedIds, countNew]
      rw [ih _ (by rw [hstep]; exact hm), hstep]
    | Pointer_SetDefault =>
      simp only at hstep
      simp only [assignedIds, countNew]
      rw [ih _ (by rw [hstep]; exact hm), hstep]
    | ThreadFunc_pass o =>
      simp only at hstep
      simp only [assignedIds, countNew]
      rw [ih _ (by rw [hstep]; exact hm), hstep]

theorem countNew_replicate (n now h : Nat) (p : rdpPointer) :
    countNew (List.replicate n (Op.Pointer_New now h p)) = n := by
  induction n with
  | zero => rfl
  | succ k ih => simp only [List.replicate_succ, countNew, ih]

theorem not_pairwise_map_range (N : Nat) (f : Nat → Nat)
    (h : ¬ f 0 < f (N - 1)) (h1 : 1 < N) :
    ¬ (List.map f (List.range N)).Pairwise (· < ·) := by
  intro hp
  rw [List.pairwise_map, List.pairwise_iff_getElem] at hp
  have hlen : (List.range N).length = N := List.length_range N
  have := hp 0 (N - 1) (by omega) (by omega) (by omega)
  simp only [List.getElem_range] at this
  exact h this

theorem RDP_new_ptr (inst : freerdp) (threadCreated : Bool) (s0 : RDP)
    (h : RDP.new (some inst) threadCreated = some s0) :
    s0.m_ptrId = 1 ∧ s0.m_cursorMap = [] := by
  simp only [RDP.new, ContextNew, Option.some.injEq] at h
  rw [← h]
  exact ⟨rfl, rfl⟩

/-- C5, the claim refuted: the ids written by `2^32` successive `Pointer_New`
callbacks of one session are not strictly increasing (the counter is a `uint32_t`:
the last of them is assigned 0, below the 1 of the first). -/
theorem pointer_ids_wrap :
    ¬ (assignedIds sampleConsts (World.start freshSession)
        (List.replicate 4294967296 (Op.Pointer_New 0 0 zeroPointer.pointer))).Pairwise
          (· < ·) := by
  rw [assignedIds_eq _ _ _ (by decide), countNew_replicate]
  exact not_pairwise_map_range 4294967296 _ (by
    show ¬ ((1 + 0) % 4294967296 < (1 + (4294967296 - 1)) % 4294967296)
    norm_num) (by norm_num)

/-- C5 as amended: in a session built by the constructor, for every sequence of
operations with fewer than `2^32` `Pointer_New` callbacks, the ids assigned by the
successive `Pointer_New` callbacks are 1, 2, 3, ... in this order: they are
strictly increasing and the first one is 1. -/
theorem pointer_ids_increasing (c : Consts) (inst : freerdp) (threadCreated : Bool)
    (s0 : RDP) (ops : List Op)
    (hnew : RDP.new (some inst) threadCreated = some s0)
    (hn : countNew ops < 4294967296) :
    assignedIds c (World.start s0) ops = List.range' 1 (countNew ops) ∧
    (assignedIds c (World.start s0) ops).Pairwise (· < ·) ∧
    ∀ i, (assignedIds c (World.start s0) ops).head? = some i → i = 1 := by
  have hp : (World.start s0).rdp.m_ptrId = 1 := (RDP_new_ptr inst threadCreated s0 hnew).1
  have heq : assignedIds c (World.start s0) ops = List.range' 1 (countNew ops) := by
    rw [assignedIds_eq c ops _ (by rw [hp]; decide), hp, List.range'_eq_map_range]
    apply List.map_congr_left
    intro k hk
    have := List.mem_range.1 hk
    show (1 + k) % 4294967296 = 1 + k
    omega
  refine ⟨heq, ?_, ?_⟩
  · rw [heq]
    exact List.pairwise_lt_range' 1 (countNew ops)
  · intro i hi
    rw [heq, List.head?_range'] at hi
    split at hi
    · exact absurd hi (by simp)
    · exact (Option.some.inj hi).symm

/-- Witness of C5 as amended: three `Pointer_New` callbacks among other operations
are assigned 1, 2, 3. -/
theorem pointer_ids_increasing_witness :
    assignedIds sampleConsts (World.start freshSession)
      [Op.Pointer_New 5 0 zeroPointer.pointer, Op.Pointer_Set 0,
        Op.Pointer_New 6 1 zeroPointer.pointer, Op.Pointer_Free 0,
        Op.Pointer_New 7 0 zeroPointer.pointer] = [1, 2, 3] :=
  (pointer_ids_increasing sampleConsts ⟨true, some zeroSettings⟩ true freshSession
    [Op.Pointer_New 5 0 zeroPointer.pointer, Op.Pointer_Set 0,
      Op.Pointer_New 6 1 zeroPointer.pointer, Op.Pointer_Free 0,
      Op.Pointer_New 7 0 zeroPointer.pointer] (by decide) (by decide)).1

/-! ### Wire words and the cursor map -/

theorem le32_length (w : Nat) : (le32 w).length = 4 := rfl

theorem le32_inj_mod (a b : Nat) (h : le32 a = le32 b) :
    a % 4294967296 = b % 4294967296 := by
  simp only [le32, List.cons.injEq, Fin.mk.injEq, and_true] at h
  omega

theorem le32_inj (a b : Nat) (ha : a < 4294967296) (hb : b < 4294967296)
    (h : le32 a = le32 b) : a = b := by
  have := le32_inj_mod a b h
  omega

theorem msgPtrFree_inj (c : Consts) (a b : Nat) (h : msgPtrFree c a = msgPtrFree c b) :
    le32 a = le32 b := by
  simp only [msgPtrFree, Effect.send_binary.injEq] at h
  exact List.append_cancel_left h

theorem msgPtrNew_ne_free (c : Consts) (id hx hy k : Nat) :
    msgPtrNew c id hx hy ≠ msgPtrFree c k := by
  intro h
  simp only [msgPtrNew, msgPtrFree, Effect.send_binary.injEq] at h
  have := congrArg List.length h
  simp [le32_length] at this

theorem msgPtrNew_congr (c : Consts) (a b hx hy : Nat) (h : le32 a = le32 b) :
    msgPtrNew c a hx hy = msgPtrNew c b hx hy := by
  simp only [msgPtrNew, h]

theorem set_msg_ne_free (c : Consts) (id k : Nat)
    (hdist : c.WSOP_SC_PTR_SET % 4294967296 ≠ c.WSOP_SC_PTR_FREE % 4294967296) :
    Effect.send_binary (le32 c.WSOP_SC_PTR_SET ++ le32 id) ≠ msgPtrFree c k := by
  intro h
  simp only [msgPtrFree, Effect.send_binary.injEq] at h
  have h1 := (List.append_inj h (by simp [le32_length])).1
  exact hdist (le32_inj_mod _ _ h1)

theorem word_msg_ne_free (c : Consts) (w k : Nat) :
    Effect.send_binary (le32 w) ≠ msgPtrFree c k := by
  intro h
  simp only [msgPtrFree, Effect.send_binary.injEq] at h
  have := congrArg List.length h
  simp [le32_length] at this

theorem find_erase_self (m : CursorMap) (k : Nat) :
    CursorMap.find (CursorMap.erase m k) k = none := by
  induction m with
  | nil => rfl
  | cons e rest ih =>
    obtain ⟨k0, v⟩ := e
    by_cases hk : k0 = k
    · simpa [CursorMap.erase, List.filter_cons, hk] using ih
    · simp only [CursorMap.erase, List.filter_cons, ne_eq, hk, not_false_eq_true,
        decide_True, if_true, CursorMap.find, if_false]
      exact ih

theorem find_erase_ne (m : CursorMap) (j k : Nat) (h : k ≠ j) :
    CursorMap.find (CursorMap.erase m j) k = CursorMap.find m k := by
  induction m with
  | nil => rfl
  | cons e rest ih =>
    obtain ⟨k0, v⟩ := e
    by_cases hk : k0 = j
    · have hne : ¬ k0 = k := fun e => h (e ▸ hk)
      simp only [CursorMap.erase, List.filter_cons, ne_eq, hk, not_true_eq_false,
        decide_False, CursorMap.find]
      rw [← hk] at ih ⊢
      simpa [hne, CursorMap.erase] using ih
    · simp only [CursorMap.erase, List.filter_cons, ne_eq, hk, not_false_eq_true,
        decide_True, if_true, CursorMap.find]
      split
      · rfl
      · exact ih

theorem find_set_self (m : CursorMap) (k : Nat) (v : cursor) :
    CursorMap.find (CursorMap.set m k v) k = some v := by
  simp [CursorMap.set, CursorMap.find]

theorem find_set_ne (m : CursorMap) (j k : Nat) (v : cursor) (h : k ≠ j) :
    CursorMap.find (CursorMap.set m j v) k = CursorMap.find m k := by
  have hne : ¬ j = k := fun e => h e.symm
  simp only [CursorMap.set, CursorMap.find, hne, if_false]
  exact find_erase_ne m j k h

/-! ### Which operations send binary messages -/

theorem andThen_eff_mem {α β : Type} (r : Res α) (f : RDP → α → Res β) (e : Effect)
    (h : e ∈ (r.andThen f).eff) : e ∈ r.eff ∨ ∃ a, e ∈ (f r.st a).eff := by
  unfold Res.andThen at h
  split at h
  · rcases List.mem_append.1 h with h | h
    · exact Or.inl h
    · exact Or.inr ⟨_, h⟩
  · exact Or.inl h
  · exact Or.inl h
  · exact Or.inl h

theorem SendInputKeyboardEvent_eff (s : RDP) (flags code : Nat) (b : Bytes) :
    Effect.send_binary b ∉ (SendInputKeyboardEvent s flags code).eff := by
  unfold SendInputKeyboardEvent
  split <;> simp

theorem SendInputUnicodeKeyboardEvent_eff (s : RDP) (flags code : Nat) (b : Bytes) :
    Effect.send_binary b ∉ (SendInputUnicodeKeyboardEvent s flags code).eff := by
  unfold SendInputUnicodeKeyboardEvent
  split <;> simp

theorem onKPress_eff (c : Consts) (s : RDP) (data b : Bytes) :
    Effect.send_binary b ∉ (onKPress c s data).eff := by
  unfold onKPress
  split
  · simp only
    repeat' split
    all_goals first
      | (intro h
         rcases andThen_eff_mem _ _ _ h with h | ⟨_, h⟩
         · first
           | exact SendInputKeyboardEvent_eff _ _ _ _ h
           | exact SendInputUnicodeKeyboardEvent_eff _ _ _ _ h
         · first
           | exact SendInputKeyboardEvent_eff _ _ _ _ h
           | exact SendInputUnicodeKeyboardEvent_eff _ _ _ _ h)
      | simp
  · simp

theorem onKUpDown_eff (c : Consts) (s : RDP) (data b : Bytes) :
    Effect.send_binary b ∉ (onKUpDown c s data).eff := by
  unfold onKUpDown
  split
  · simp only
    split
    · exact SendInputKeyboardEvent_eff _ _ _ _
    · simp
  · simp

theorem onMouse_eff (s : RDP) (data b : Bytes) :
    Effect.send_binary b ∉ (onMouse s data).eff := by
  unfold onMouse
  split
  · split <;> simp
  · simp

theorem OnWsMessage_eff (c : Consts) (s : RDP) (data b : Bytes) :
    Effect.send_binary b ∉ (OnWsMessage c s data).eff := by
  unfold OnWsMessage
  repeat' split
  all_goals first
    | exact onMouse_eff _ _ _
    | exact onKUpDown_eff _ _ _ _
    | exact onKPress_eff _ _ _ _
    | simp

theorem Connect_eff (c : Consts) (s : RDP) (host user domain pass : String)
    (params : WsRdpParams) : (Connect c s host user domain pass params).eff = [] := by
  cases hs : s.m_rdpSettings with
  | none => simp [Connect, hs]
  | some r0 =>
    cases hl : s.m_bThreadLoop with
    | false => simp [Connect, hs, hl]
    | true => simp [Connect, hs, hl]

theorem Disconnect_eff (s : RDP) (e : Nat) (b : Bytes) :
    Effect.send_binary b ∉ (Disconnect s e).eff := by
  unfold Disconnect
  simp only
  repeat' split
  all_goals simp

theorem ThreadFunc_body_eff (s : RDP) (o : LoopObs) (b : Bytes) :
    Effect.send_binary b ∉ (ThreadFunc_body s o).2.1 := by
  unfold ThreadFunc_body
  simp only
  repeat' split
  all_goals simp

theorem setPtr_same (ptrs : Nat → MyPointer) (h : Nat) (v : MyPointer) :
    setPtr ptrs h v h = v := by
  simp [setPtr]

theorem setPtr_other (ptrs : Nat → MyPointer) (h k : Nat) (v : MyPointer) (hk : k ≠ h) :
    setPtr ptrs h v k = ptrs k := by
  simp [setPtr, hk]

/-- Operations other than `Pointer_New` and a `Pointer_Free` on a non-zero id leave
the counter, the cursor map and the pointer objects alone. -/
theorem step_frame (c : Consts) (w : World) (op : Op) (hop : leavesPointers w op) :
    (step c w op).1.rdp.m_ptrId = w.rdp.m_ptrId ∧
    (step c w op).1.rdp.m_cursorMap = w.rdp.m_cursorMap ∧
    (∀ h, (step c w op).1.ptrs h = w.ptrs h) := by
  cases op with
  | Connect host user domain pass params =>
    exact ⟨(Connect_ptr _ _ _ _ _ _ _).1, (Connect_ptr _ _ _ _ _ _ _).2, fun _ => rfl⟩
  | Disconnect e =>
    exact ⟨(Disconnect_ptr _ _).1, (Disconnect_ptr _ _).2, fun _ => rfl⟩
  | OnWsMessage data =>
    have hst : (step c w (Op.OnWsMessage data)).1.rdp = w.rdp := OnWsMessage_st _ _ _
    exact ⟨by rw [hst], by rw [hst], fun _ => rfl⟩
  | Pointer_New now h p => exact absurd hop id
  | Pointer_Free h =>
    simp only [leavesPointers] at hop
    have hr : Pointer_Free c w.rdp (w.ptrs h) =
        { st := w.rdp, eff := [], out := Outcome.ret (w.ptrs h) } := by
      simp [Pointer_Free, hop]
    simp only [step, hr, ptrAfter, true_and]
    intro k
    by_cases hk : k = h
    · rw [hk, setPtr_same]
    · rw [setPtr_other _ _ _ _ hk]
  | Pointer_Set h =>
    refine ⟨rfl, rfl, ?_⟩
    intro k
    simp only [step, Pointer_Set, ptrAfter]
    by_cases hk : k = h
    · rw [hk, setPtr_same]
    · rw [setPtr_other _ _ _ _ hk]
  | Pointer_SetNull => exact ⟨rfl, rfl, fun _ => rfl⟩
  | Pointer_SetDefault => exact ⟨rfl, rfl, fun _ => rfl⟩
  | ThreadFunc_pass o =>
    simp only [step]
    split
    · exact ⟨(ThreadFunc_body_ptr _ _).1, (ThreadFunc_body_ptr _ _).2, fun _ => rfl⟩
    · exact ⟨rfl, rfl, fun _ => rfl⟩

/-- Those operations send no `PTR_FREE` message, the opcodes of `PTR_SET` and
`PTR_FREE` being different. -/
theorem step_frame_eff (c : Consts) (w : World) (op : Op)
    (hdist : c.WSOP_SC_PTR_SET % 4294967296 ≠ c.WSOP_SC_PTR_FREE % 4294967296)
    (hop : leavesPointers w op) : ∀ k, msgPtrFree c k ∉ (step c w op).2 := by
  cases op with
  | Connect host user domain pass params =>
    intro k hk
    have : (step c w (Op.Connect host user domain pass params)).2 = [] :=
      Connect_eff _ _ _ _ _ _ _
    rw [this] at hk
    exact absurd hk (List.not_mem_nil _)
  | Disconnect e => exact fun k => Disconnect_eff _ _ _
  | OnWsMessage data => exact fun k => OnWsMessage_eff _ _ _ _
  | Pointer_New now h p => exact absurd hop id
  | Pointer_Free h =>
    simp only [leavesPointers] at hop
    have hr : Pointer_Free c w.rdp (w.ptrs h) =
        { st := w.rdp, eff := [], out := Outcome.ret (w.ptrs h) } := by
      simp [Pointer_Free, hop]
    simp [step, hr]
  | Pointer_Set h =>
    intro k hk
    simp only [step, Pointer_Set, List.mem_singleton] at hk
    exact set_msg_ne_free c _ k hdist hk.symm
  | Pointer_SetNull =>
    intro k hk
    simp only [step, Pointer_SetNull, List.mem_singleton] at hk
    exact word_msg_ne_free c _ k hk.symm
  | Pointer_SetDefault =>
    intro k hk
    simp only [step, Pointer_SetDefault, List.mem_singleton] at hk
    exact word_msg_ne_free c _ k hk.symm
  | ThreadFunc_pass o =>
    simp only [step]
    split
    · exact fun k => ThreadFunc_body_eff _ _ _
    · exact fun k => List.not_mem_nil _

/-- What `Pointer_New` does to the counter, the cursor map and the pointer objects,
and the message it sends. -/
theorem step_new (c : Consts) (w : World) (now h : Nat) (p : rdpPointer) :
    (step c w (Op.Pointer_New now h p)).1.rdp.m_ptrId = (w.rdp.m_ptrId + 1) % 4294967296 ∧
    (∃ v, (step c w (Op.Pointer_New now h p)).1.rdp.m_cursorMap =
      CursorMap.set w.rdp.m_cursorMap w.rdp.m_ptrId v) ∧
    ((step c w (Op.Pointer_New now h p)).1.ptrs h).id = w.rdp.m_ptrId ∧
    (∀ k, k ≠ h → (step c w (Op.Pointer_New now h p)).1.ptrs k = w.ptrs k) ∧
    (step c w (Op.Pointer_New now h p)).2 = [msgPtrNew c w.rdp.m_ptrId p.xPos p.yPos] := by
  refine ⟨by simp [step, Pointer_New], ⟨_, rfl⟩,
    step_new_id c w now h p, ?_, by simp [step, Pointer_New, msgPtrNew]⟩
  intro k hk
  simp only [step]
  exact setPtr_other _ _ _ _ hk

/-- What `Pointer_Free` does on a pointer object with a non-zero id. -/
theorem step_free (c : Consts) (w : World) (h : Nat) (hid : (w.ptrs h).id ≠ 0) :
    (step c w (Op.Pointer_Free h)).1.rdp.m_ptrId = w.rdp.m_ptrId ∧
    (step c w (Op.Pointer_Free h)).1.rdp.m_cursorMap =
      CursorMap.erase w.rdp.m_cursorMap (w.ptrs h).id ∧
    ((step c w (Op.Pointer_Free h)).1.ptrs h).id = 0 ∧
    (∀ k, k ≠ h → (step c w (Op.Pointer_Free h)).1.ptrs k = w.ptrs k) ∧
    (step c w (Op.Pointer_Free h)).2 = [msgPtrFree c (w.ptrs h).id] := by
  simp only [step, Pointer_Free, hid, ne_eq, not_false_eq_true, if_true, ptrAfter,
    setPtr_same, msgPtrFree, true_and, and_true]
  intro k hk
  exact setPtr_other _ _ _ _ hk

/-! ### The invariant of the pointer bookkeeping -/

theorem FreeAfterNew_append_single (c : Consts) (tr : List Effect) (m : Effect)
    (h : FreeAfterNew c tr)
    (hm : ∀ k, m = msgPtrFree c k → ∃ hx hy, msgPtrNew c k hx hy ∈ tr) :
    FreeAfterNew c (tr ++ [m]) := by
  intro pre post k heq
  rcases List.eq_nil_or_concat post with hp | ⟨post1, x, hp⟩
  · subst hp
    have h2 : tr ++ [m] = pre ++ [msgPtrFree c k] := heq
    have h3 := List.append_inj' h2 rfl
    have h4 : m = msgPtrFree c k := by simpa using h3.2
    rw [← h3.1]
    exact hm k h4
  · subst hp
    have h2 : tr ++ [m] = (pre ++ msgPtrFree c k :: post1) ++ [x] := by
      rw [heq]; simp
    have h3 := List.append_inj' h2 rfl
    exact h pre post1 k h3.1

theorem FreeAfterNew_append (c : Consts) (es tr : List Effect)
    (h : FreeAfterNew c tr) (hes : ∀ k, msgPtrFree c k ∉ es) :
    FreeAfterNew c (tr ++ es) := by
  induction es generalizing tr with
  | nil => simpa using h
  | cons e rest ih =>
    have h1 : FreeAfterNew c (tr ++ [e]) :=
      FreeAfterNew_append_single c tr e h (fun k hk =>
        absurd (hk ▸ List.mem_cons_self e rest) (hes k))
    have h2 := ih (tr ++ [e]) h1 (fun k hk => hes k (List.mem_cons_of_mem _ hk))
    simpa using h2

theorem pinv_frame (w w1 : World) (fr : List Nat) (n : Nat) (inv : PtrInv w fr n)
    (h1 : w1.rdp.m_ptrId = w.rdp.m_ptrId)
    (h2 : w1.rdp.m_cursorMap = w.rdp.m_cursorMap)
    (h3 : ∀ h, w1.ptrs h = w.ptrs h) : PtrInv w1 fr n where
  counter := by rw [h1]; exact inv.counter
  pos := inv.pos
  bound := inv.bound
  idLt := fun h => by rw [h3]; exact inv.idLt h
  idInj := fun a b => by rw [h3, h3]; exact inv.idInj a b
  freed := fun k hk => by
    obtain ⟨a, b, d, e⟩ := inv.freed k hk
    exact ⟨a, b, fun h => by rw [h3]; exact d h, by rw [h2]; exact e⟩

theorem pinv_new (w w1 : World) (fr : List Nat) (n h : Nat) (v : cursor)
    (inv : PtrInv w fr n) (hn : n < 4294967296)
    (h1 : w1.rdp.m_ptrId = (w.rdp.m_ptrId + 1) % 4294967296)
    (h2 : w1.rdp.m_cursorMap = CursorMap.set w.rdp.m_cursorMap w.rdp.m_ptrId v)
    (h3 : (w1.ptrs h).id = w.rdp.m_ptrId)
    (h4 : ∀ k, k ≠ h → w1.ptrs k = w.ptrs k) : PtrInv w1 fr (n + 1) := by
  have hc : w.rdp.m_ptrId = n := by rw [inv.counter]; exact Nat.mod_eq_of_lt hn
  have hid : ∀ k, (w1.ptrs k).id = if k = h then n else (w.ptrs k).id := by
    intro k
    by_cases hk : k = h
    · rw [hk, h3, hc]; simp
    · rw [h4 k hk]; simp [hk]
  refine ⟨by rw [h1, hc], by omega, by omega, ?_, ?_, ?_⟩
  · intro k
    rw [hid]
    split
    · omega
    · have := inv.idLt k
      omega
  · intro a b hab hne
    rw [hid a, hid b] at hab
    rw [hid a] at hne
    by_cases ha : a = h <;> by_cases hb : b = h
    · rw [ha, hb]
    · simp only [ha, hb, if_true, if_false] at hab
      have := inv.idLt b
      omega
    · simp only [ha, hb, if_true, if_false] at hab
      have := inv.idLt a
      omega
    · simp only [ha, hb, if_false] at hab hne
      exact inv.idInj a b hab hne
  · intro k hk
    obtain ⟨a, b, d, e⟩ := inv.freed k hk
    refine ⟨a, by omega, ?_, ?_⟩
    · intro j
      rw [hid]
      split
      · omega
      · exact d j
    · rw [h2, hc, find_set_ne _ _ _ _ (by omega)]
      exact e

theorem pinv_free (w w1 : World) (fr : List Nat) (n h : Nat)
    (inv : PtrInv w fr n) (hid0 : (w.ptrs h).id ≠ 0)
    (h1 : w1.rdp.m_ptrId = w.rdp.m_ptrId)
    (h2 : w1.rdp.m_cursorMap = CursorMap.erase w.rdp.m_cursorMap (w.ptrs h).id)
    (h3 : (w1.ptrs h).id = 0)
    (h4 : ∀ k, k ≠ h → w1.ptrs k = w.ptrs k) :
    PtrInv w1 (fr ++ [(w.ptrs h).id]) n := by
  have hjn : (w.ptrs h).id < n := inv.idLt h
  refine ⟨by rw [h1]; exact inv.counter, inv.pos, inv.bound, ?_, ?_, ?_⟩
  · intro k
    by_cases hk : k = h
    · rw [hk, h3]; exact inv.pos
    · rw [h4 k hk]; exact inv.idLt k
  · intro a b hab hne
    have ha : a ≠ h := fun e => hne (by rw [e, h3])
    have hb : b ≠ h := fun e => hne (by rw [hab, e, h3])
    rw [h4 a ha, h4 b hb] at hab
    rw [h4 a ha] at hne
    exact inv.idInj a b hab hne
  · intro k hmem
    rcases List.mem_append.1 hmem with hm | hm
    · obtain ⟨a, b, d, e⟩ := inv.freed k hm
      refine ⟨a, b, ?_, ?_⟩
      · intro x
        by_cases hx : x = h
        · rw [hx, h3]; exact fun e => a e.symm
        · rw [h4 x hx]; exact d x
      · rw [h2]
        by_cases hkj : k = (w.ptrs h).id
        · rw [hkj]; exact find_erase_self _ _
        · rw [find_erase_ne _ _ _ hkj]; exact e
    · have hkj : k = (w.ptrs h).id := List.mem_singleton.1 hm
      refine ⟨by rw [hkj]; exact hid0, by rw [hkj]; exact hjn, ?_, ?_⟩
      · intro x
        by_cases hx : x = h
        · rw [hx, h3, hkj]; exact fun e => hid0 e.symm
        · rw [h4 x hx, hkj]
          intro e
          exact hx (inv.idInj x h e (by rw [e]; exact hid0))
      · rw [h2, hkj]; exact find_erase_self _ _

theorem countNew_cons (op : Op) (rest : List Op) :
    countNew (op :: rest) = countNew [op] + countNew rest := by
  cases op <;> simp [countNew]
  omega

theorem freedIds_cons (c : Consts) (w : World) (op : Op) (rest : List Op) :
    freedIds c w (op :: rest) = freedIds c w [op] ++ freedIds c (step c w op).1 rest := by
  cases op <;> simp only [freedIds, List.nil_append]
  split <;> simp

theorem freedIds_frame (c : Consts) (w : World) (op : Op) (hop : leavesPointers w op) :
    freedIds c w [op] = [] ∧ countNew [op] = 0 := by
  cases op <;> simp_all [freedIds, countNew, leavesPointers]

/-- One operation keeps the invariant of the bookkeeping, provided the counter has
not yet reached `2^32` when the operation is a `Pointer_New`. -/
theorem step_ptrInv (c : Consts) (w : World) (fr : List Nat) (n : Nat) (op : Op)
    (inv : PtrInv w fr n) (hroom : n + countNew [op] ≤ 4294967296) :
    PtrInv (step c w op).1 (fr ++ freedIds c w [op]) (n + countNew [op]) := by
  have frame : ∀ (o : Op), leavesPointers w o →
      PtrInv (step c w o).1 (fr ++ freedIds c w [o]) (n + countNew [o]) := by
    intro o ho
    obtain ⟨a, b, d⟩ := step_frame c w o ho
    rw [(freedIds_frame c w o ho).1, (freedIds_frame c w o ho).2, List.append_nil]
    exact pinv_frame w _ fr n inv a b d
  cases op with
  | Pointer_New now h p =>
    obtain ⟨a, ⟨v, b⟩, d, e, _⟩ := step_new c w now h p
    have hn : n < 4294967296 := by
      simp only [countNew] at hroom
      omega
    have hf : freedIds c w [Op.Pointer_New now h p] = [] := rfl
    rw [hf, List.append_nil]
    exact pinv_new w _ fr n h v inv hn a b d e
  | Pointer_Free h =>
    by_cases hid : (w.ptrs h).id = 0
    · exact frame _ hid
    · obtain ⟨a, b, d, e, _⟩ := step_free c w h hid
      have hf : freedIds c w [Op.Pointer_Free h] = [(w.ptrs h).id] := by
        simp [freedIds, hid]
      rw [hf]
      exact pinv_free w _ fr n h inv hid a b d e
  | Connect host user domain pass params => exact frame _ trivial
  | Disconnect e => exact frame _ trivial
  | OnWsMessage data => exact frame _ trivial
  | Pointer_Set h => exact frame _ trivial
  | Pointer_SetNull => exact frame _ trivial
  | Pointer_SetDefault => exact frame _ trivial
  | ThreadFunc_pass o => exact frame _ trivial

/-- A sequence of operations keeps the invariant of the bookkeeping while fewer than
`2^32` pointers have been created. -/
theorem run_ptrInv (c : Consts) (ops : List Op) (w : World) (fr : List Nat) (n : Nat)
    (inv : PtrInv w fr n) (hroom : n + countNew ops ≤ 4294967296) :
    PtrInv (run c w ops).1 (fr ++ freedIds c w ops) (n + countNew ops) := by
  induction ops generalizing w fr n with
  | nil => simpa [run, countNew, freedIds] using inv
  | cons op rest ih =>
    rw [countNew_cons] at hroom ⊢
    have h1 := step_ptrInv c w fr n op inv (by omega)
    have h2 := ih (step c w op).1 (fr ++ freedIds c w [op]) (n + countNew [op]) h1 (by omega)
    simp only [run]
    rw [freedIds_cons, ← List.append_assoc, ← Nat.add_assoc]
    exact h2

/-- The invariant of the bookkeeping holds at the start of a session. -/
theorem start_ptrInv (s0 : RDP) (h1 : s0.m_ptrId = 1) : PtrInv (World.start s0) [] 1 where
  counter := h1
  pos := Nat.le_refl 1
  bound := by decide
  idLt := fun _ => Nat.zero_lt_one
  idInj := fun _ _ _ hne => absurd rfl hne
  freed := fun _ hm => absurd hm (List.not_mem_nil _)

theorem run_ptrId_lt (c : Consts) (ops : List Op) (w : World)
    (h : w.rdp.m_ptrId < 4294967296) : (run c w ops).1.rdp.m_ptrId < 4294967296 := by
  induction ops generalizing w with
  | nil => simpa [run] using h
  | cons op rest ih =>
    simp only [run]
    apply ih
    have hs := step_ptrId c w op
    cases op <;> simp only at hs <;> rw [hs] <;> omega

theorem run_single (c : Consts) (w : World) (op : Op) :
    (run c w [op]).1 = (step c w op).1 := rfl

theorem run_append (c : Consts) (a b : List Op) (w : World) :
    run c w (a ++ b) = ((run c (run c w a).1 b).1, (run c w a).2 ++ (run c (run c w a).1 b).2) := by
  induction a generalizing w with
  | nil => simp [run]
  | cons op rest ih => simp [run, ih, List.append_assoc]

theorem freedIds_append (c : Consts) (a b : List Op) (w : World) :
    freedIds c w (a ++ b) = freedIds c w a ++ freedIds c (run c w a).1 b := by
  induction a generalizing w with
  | nil => simp [run, freedIds]
  | cons op rest ih =>
    rw [List.cons_append, freedIds_cons, ih, freedIds_cons c w op rest, List.append_assoc]
    rfl

theorem countNew_append (a b : List Op) : countNew (a ++ b) = countNew a + countNew b := by
  induction a with
  | nil => simp [countNew]
  | cons op rest ih =>
    rw [List.cons_append, countNew_cons, ih, countNew_cons op rest, Nat.add_assoc]

/-- The counter after a sequence of operations. -/
theorem run_ptrId (c : Consts) (ops : List Op) (w : World) :
    (run c w ops).1.rdp.m_ptrId % 4294967296 =
      (w.rdp.m_ptrId + countNew ops) % 4294967296 := by
  induction ops generalizing w with
  | nil => simp [run, countNew]
  | cons op rest ih =>
    have hs := step_ptrId c w op
    simp only [run]
    rw [ih, countNew_cons]
    cases op <;> simp only [countNew] at hs ⊢ <;> rw [hs] <;> omega

theorem step_new_cursor (c : Consts) (w : World) (now h : Nat) (p : rdpPointer) :
    (GetCursor (step c w (Op.Pointer_New now h p)).1.rdp w.rdp.m_ptrId).1 = now := by
  simp [step, Pointer_New, GetCursor, find_set_self]

/-- C6, the claim refuted: id 1 is assigned, freed, and after `2^32` further
`Pointer_New` callbacks assigned again (the counter is a `uint32_t`), so that the
cache holds an entry for the freed id 1. -/
theorem freed_id_cached_again :
    1 ∈ freedIds sampleConsts (World.start freshSession)
      ([Op.Pointer_New 7 0 zeroPointer.pointer, Op.Pointer_Free 0] ++
        (List.replicate 4294967295 (Op.Pointer_New 7 1 zeroPointer.pointer) ++
          [Op.Pointer_New 7 1 zeroPointer.pointer])) ∧
    GetCursor (run sampleConsts (World.start freshSession)
      ([Op.Pointer_New 7 0 zeroPointer.pointer, Op.Pointer_Free 0] ++
        (List.replicate 4294967295 (Op.Pointer_New 7 1 zeroPointer.pointer) ++
          [Op.Pointer_New 7 1 zeroPointer.pointer]))).1.rdp 1 ≠ (0, []) := by
  constructor
  · rw [freedIds_append]
    exact List.mem_append_left _ (by decide)
  · rw [← List.append_assoc, run_append]
    have hid : (run sampleConsts (World.start freshSession)
        ([Op.Pointer_New 7 0 zeroPointer.pointer, Op.Pointer_Free 0] ++
          List.replicate 4294967295 (Op.Pointer_New 7 1 zeroPointer.pointer))).1.rdp.m_ptrId
        = 1 := by
      have h1 := run_ptrId sampleConsts
        ([Op.Pointer_New 7 0 zeroPointer.pointer, Op.Pointer_Free 0] ++
          List.replicate 4294967295 (Op.Pointer_New 7 1 zeroPointer.pointer))
        (World.start freshSession)
      rw [countNew_append, countNew_replicate] at h1
      have h2 : (World.start freshSession).rdp.m_ptrId = 1 := rfl
      have h3 : countNew [Op.Pointer_New 7 0 zeroPointer.pointer, Op.Pointer_Free 0] = 1 := rfl
      rw [h2, h3] at h1
      have h4 := run_ptrId_lt sampleConsts
        ([Op.Pointer_New 7 0 zeroPointer.pointer, Op.Pointer_Free 0] ++
          List.replicate 4294967295 (Op.Pointer_New 7 1 zeroPointer.pointer))
        (World.start freshSession) (by decide)
      omega
    intro hc
    have h5 := step_new_cursor sampleConsts (run sampleConsts (World.start freshSession)
        ([Op.Pointer_New 7 0 zeroPointer.pointer, Op.Pointer_Free 0] ++
          List.replicate 4294967295 (Op.Pointer_New 7 1 zeroPointer.pointer))).1
      7 1 zeroPointer.pointer
    rw [hid] at h5
    rw [run_single] at hc
    rw [hc] at h5
    exact absurd h5 (by decide)

/-- C6 as amended: in a session built by the constructor, for every sequence of
operations with fewer than `2^32` `Pointer_New` callbacks, every id for which a
`Pointer_Free` has been processed is absent from the cursor cache afterwards
(`GetCursor` returns the empty result for it); and a `Pointer_Free` on a pointer
object whose id is zero changes nothing and sends nothing. -/
theorem freed_ids_not_cached (c : Consts) (inst : freerdp) (threadCreated : Bool)
    (s0 : RDP) (ops : List Op)
    (hnew : RDP.new (some inst) threadCreated = some s0)
    (hn : countNew ops < 4294967296) :
    (∀ k, k ∈ freedIds c (World.start s0) ops →
      CursorMap.find (run c (World.start s0) ops).1.rdp.m_cursorMap k = none ∧
      GetCursor (run c (World.start s0) ops).1.rdp k = (0, [])) ∧
    (∀ (s : RDP) (p : MyPointer), p.id = 0 →
      (Pointer_Free c s p).st = s ∧ (Pointer_Free c s p).eff = [] ∧
      (Pointer_Free c s p).out = Outcome.ret p) := by
  constructor
  · intro k hk
    have inv := run_ptrInv c ops (World.start s0) [] 1
      (start_ptrInv s0 (RDP_new_ptr inst threadCreated s0 hnew).1) (by omega)
    have hf := (inv.freed k (by simpa using hk)).2.2.2
    exact ⟨hf, by simp [GetCursor, hf]⟩
  · intro s p hp
    simp [Pointer_Free, hp]

/-- Witness of C6 as amended: after New, New, Free of the first pointer and a
further New, the freed id 1 is not in the cache. -/
theorem freed_ids_not_cached_witness :
    GetCursor (run sampleConsts (World.start freshSession)
      [Op.Pointer_New 5 0 zeroPointer.pointer, Op.Pointer_New 6 1 zeroPointer.pointer,
        Op.Pointer_Free 0, Op.Pointer_New 7 0 zeroPointer.pointer]).1.rdp 1 = (0, []) :=
  ((freed_ids_not_cached sampleConsts ⟨true, some zeroSettings⟩ true freshSession
    [Op.Pointer_New 5 0 zeroPointer.pointer, Op.Pointer_New 6 1 zeroPointer.pointer,
      Op.Pointer_Free 0, Op.Pointer_New 7 0 zeroPointer.pointer]
    (by decide) (by decide)).1 1 (by decide)).2

/-! ### The trace of pointer messages -/

/-- One operation keeps the order invariant of the trace. -/
theorem step_orderInv (c : Consts) (w : World) (tr : List Effect) (op : Op)
    (hdist : c.WSOP_SC_PTR_SET % 4294967296 ≠ c.WSOP_SC_PTR_FREE % 4294967296)
    (inv : OrderInv c w tr) : OrderInv c (step c w op).1 (tr ++ (step c w op).2) := by
  have frame : ∀ (o : Op), leavesPointers w o →
      OrderInv c (step c w o).1 (tr ++ (step c w o).2) := by
    intro o ho
    obtain ⟨_, _, d⟩ := step_frame c w o ho
    refine ⟨?_, FreeAfterNew_append c _ tr inv.order (step_frame_eff c w o hdist ho)⟩
    intro h hid
    rw [d] at hid ⊢
    obtain ⟨hx, hy, hm⟩ := inv.held h hid
    exact ⟨hx, hy, List.mem_append_left _ hm⟩
  cases op with
  | Pointer_New now h p =>
    obtain ⟨_, _, d, e, f⟩ := step_new c w now h p
    rw [f]
    have hnf : ∀ k, msgPtrFree c k ∉ [msgPtrNew c w.rdp.m_ptrId p.xPos p.yPos] := by
      intro k hk
      exact msgPtrNew_ne_free c _ _ _ k (List.mem_singleton.1 hk).symm
    refine ⟨?_, FreeAfterNew_append c _ tr inv.order hnf⟩
    intro j hj
    by_cases hjh : j = h
    · rw [hjh, d]
      exact ⟨_, _, List.mem_append_right _ (List.mem_singleton.2 rfl)⟩
    · rw [e j hjh] at hj ⊢
      obtain ⟨x, y, hm⟩ := inv.held j hj
      exact ⟨x, y, List.mem_append_left _ hm⟩
  | Pointer_Free h =>
    by_cases hid : (w.ptrs h).id = 0
    · exact frame _ hid
    · obtain ⟨_, _, d, e, f⟩ := step_free c w h hid
      rw [f]
      constructor
      · intro x hx
        have hxh : x ≠ h := fun e => hx (by rw [e, d])
        rw [e x hxh] at hx ⊢
        obtain ⟨a, b, hm⟩ := inv.held x hx
        exact ⟨a, b, List.mem_append_left _ hm⟩
      · apply FreeAfterNew_append_single c tr _ inv.order
        intro k hk
        obtain ⟨a, b, hm⟩ := inv.held h hid
        exact ⟨a, b, by rw [← msgPtrNew_congr c _ _ a b (msgPtrFree_inj c _ _ hk)]; exact hm⟩
  | Connect host user domain pass params => exact frame _ trivial
  | Disconnect e => exact frame _ trivial
  | OnWsMessage data => exact frame _ trivial
  | Pointer_Set h => exact frame _ trivial
  | Pointer_SetNull => exact frame _ trivial
  | Pointer_SetDefault => exact frame _ trivial
  | ThreadFunc_pass o => exact frame _ trivial

theorem run_orderInv (c : Consts) (ops : List Op) (w : World) (tr : List Effect)
    (hdist : c.WSOP_SC_PTR_SET % 4294967296 ≠ c.WSOP_SC_PTR_FREE % 4294967296)
    (inv : OrderInv c w tr) : OrderInv c (run c w ops).1 (tr ++ (run c w ops).2) := by
  induction ops generalizing w tr with
  | nil => simpa [run] using inv
  | cons op rest ih =>
    have h2 := ih (step c w op).1 (tr ++ (step c w op).2) (step_orderInv c w tr op hdist inv)
    simp only [run]
    rw [← List.append_assoc]
    exact h2

/-- One operation keeps the invariant "no `PTR_FREE` message twice". -/
theorem step_onceInv (c : Consts) (w : World) (tr : List Effect) (fr : List Nat)
    (n : Nat) (op : Op)
    (hdist : c.WSOP_SC_PTR_SET % 4294967296 ≠ c.WSOP_SC_PTR_FREE % 4294967296)
    (pinv : PtrInv w fr n) (inv : OnceInv c tr fr) :
    OnceInv c (tr ++ (step c w op).2) (fr ++ freedIds c w [op]) := by
  have nofree : ∀ (es : List Effect) (fs : List Nat), (∀ k, msgPtrFree c k ∉ es) →
      OnceInv c (tr ++ es) (fr ++ fs) := by
    intro es fs hes
    constructor
    · intro k hk hmem
      rcases List.mem_append.1 hmem with hm | hm
      · exact List.mem_append_left _ (inv.sound k hk hm)
      · exact absurd hm (hes k)
    · intro k
      rw [List.count_append, List.count_eq_zero.2 (hes k)]
      exact inv.freeOnce k
  have frame : ∀ (o : Op), leavesPointers w o →
      OnceInv c (tr ++ (step c w o).2) (fr ++ freedIds c w [o]) :=
    fun o ho => nofree _ _ (step_frame_eff c w o hdist ho)
  cases op with
  | Pointer_New now h p =>
    rw [(step_new c w now h p).2.2.2.2]
    apply nofree
    intro k hk
    exact msgPtrNew_ne_free c _ _ _ k (List.mem_singleton.1 hk).symm
  | Pointer_Free h =>
    by_cases hid : (w.ptrs h).id = 0
    · exact frame _ hid
    · have hf : freedIds c w [Op.Pointer_Free h] = [(w.ptrs h).id] := by
        simp [freedIds, hid]
      rw [(step_free c w h hid).2.2.2.2, hf]
      have hjn : (w.ptrs h).id < n := pinv.idLt h
      have hnb := pinv.bound
      have hnot : msgPtrFree c (w.ptrs h).id ∉ tr := by
        intro hm
        exact (pinv.freed _ (inv.sound _ (by omega) hm)).2.2.1 h rfl
      constructor
      · intro k hk hmem
        rcases List.mem_append.1 hmem with hm | hm
        · exact List.mem_append_left _ (inv.sound k hk hm)
        · have hkj : k = (w.ptrs h).id :=
            le32_inj _ _ hk (by omega) (msgPtrFree_inj c _ _ (List.mem_singleton.1 hm))
          exact List.mem_append_right _ (List.mem_singleton.2 hkj)
      · intro k
        rw [List.count_append]
        by_cases hk : msgPtrFree c (w.ptrs h).id = msgPtrFree c k
        · rw [← hk, List.count_eq_zero.2 hnot]
          simp
        · have : List.count (msgPtrFree c k) [msgPtrFree c (w.ptrs h).id] = 0 :=
            List.count_eq_zero.2 (fun hm => hk (List.mem_singleton.1 hm).symm)
          rw [this]
          exact inv.freeOnce k
  | Connect host user domain pass params => exact frame _ trivial
  | Disconnect e => exact frame _ trivial
  | OnWsMessage data => exact frame _ trivial
  | Pointer_Set h => exact frame _ trivial
  | Pointer_SetNull => exact frame _ trivial
  | Pointer_SetDefault => exact frame _ trivial
  | ThreadFunc_pass o => exact frame _ trivial

theorem run_onceInv (c : Consts) (ops : List Op) (w : World) (tr : List Effect)
    (fr : List Nat) (n : Nat)
    (hdist : c.WSOP_SC_PTR_SET % 4294967296 ≠ c.WSOP_SC_PTR_FREE % 4294967296)
    (pinv : PtrInv w fr n) (inv : OnceInv c tr fr)
    (hroom : n + countNew ops ≤ 4294967296) :
    OnceInv c (tr ++ (run c w ops).2) (fr ++ freedIds c w ops) := by
  induction ops generalizing w tr fr n with
  | nil => simpa [run, freedIds] using inv
  | cons op rest ih =>
    rw [countNew_cons] at hroom
    have h1 := step_ptrInv c w fr n op pinv (by omega)
    have h2 := step_onceInv c w tr fr n op hdist pinv inv
    have h3 := ih (step c w op).1 (tr ++ (step c w op).2) (fr ++ freedIds c w [op])
      (n + countNew [op]) h1 h2 (by omega)
    simp only [run]
    rw [freedIds_cons, ← List.append_assoc, ← List.append_assoc]
    exact h3

theorem start_orderInv (c : Consts) (s0 : RDP) : OrderInv c (World.start s0) [] where
  held := fun _ hne => absurd rfl hne
  order := fun pre post k h => by
    have := congrArg List.length h
    simp at this
    omega

theorem start_onceInv (c : Consts) : OnceInv c [] [] where
  sound := fun _ _ hm => absurd hm (List.not_mem_nil _)
  freeOnce := fun _ => Nat.zero_le 1

/-- The messages of a `Pointer_New` followed by a `Pointer_Free` on the same pointer
object, when the counter is not zero. -/
theorem run_new_free (c : Consts) (w : World) (now h : Nat) (p : rdpPointer)
    (hz : w.rdp.m_ptrId ≠ 0) :
    (run c w [Op.Pointer_New now h p, Op.Pointer_Free h]).2 =
      [msgPtrNew c w.rdp.m_ptrId p.xPos p.yPos, msgPtrFree c w.rdp.m_ptrId] := by
  obtain ⟨_, _, d, _, f⟩ := step_new c w now h p
  have hid : ((step c w (Op.Pointer_New now h p)).1.ptrs h).id ≠ 0 := by rw [d]; exact hz
  have g := (step_free c (step c w (Op.Pointer_New now h p)).1 h hid).2.2.2.2
  simp only [run, f, g, d, List.append_nil, List.singleton_append]

/-- C7, the claim refuted: id 1 is assigned and freed, `2^32 - 1` further
`Pointer_New` callbacks bring the `uint32_t` counter back to 1, and the next
pointer is assigned id 1 and freed: two `PTR_FREE` messages carry id 1. -/
theorem ptr_free_sent_twice :
    2 ≤ (run sampleConsts (World.start freshSession)
      (([Op.Pointer_New 7 0 zeroPointer.pointer, Op.Pointer_Free 0] ++
        List.replicate 4294967295 (Op.Pointer_New 7 1 zeroPointer.pointer)) ++
          [Op.Pointer_New 7 2 zeroPointer.pointer, Op.Pointer_Free 2])).2.count
        (msgPtrFree sampleConsts 1) := by
  have hid : (run sampleConsts (World.start freshSession)
      ([Op.Pointer_New 7 0 zeroPointer.pointer, Op.Pointer_Free 0] ++
        List.replicate 4294967295 (Op.Pointer_New 7 1 zeroPointer.pointer))).1.rdp.m_ptrId
      = 1 := by
    have h1 := run_ptrId sampleConsts
      ([Op.Pointer_New 7 0 zeroPointer.pointer, Op.Pointer_Free 0] ++
        List.replicate 4294967295 (Op.Pointer_New 7 1 zeroPointer.pointer))
      (World.start freshSession)
    rw [countNew_append, countNew_replicate] at h1
    have h2 : (World.start freshSession).rdp.m_ptrId = 1 := rfl
    have h3 : countNew [Op.Pointer_New 7 0 zeroPointer.pointer, Op.Pointer_Free 0] = 1 := rfl
    rw [h2, h3] at h1
    have h4 := run_ptrId_lt sampleConsts
      ([Op.Pointer_New 7 0 zeroPointer.pointer, Op.Pointer_Free 0] ++
        List.replicate 4294967295 (Op.Pointer_New 7 1 zeroPointer.pointer))
      (World.start freshSession) (by decide)
    omega
  rw [run_append]
  simp only
  rw [run_new_free _ _ _ _ _ (by rw [hid]; decide), hid, run_append]
  simp only
  rw [List.count_append, List.count_append]
  have ha : List.count (msgPtrFree sampleConsts 1)
      (run sampleConsts (World.start freshSession)
        [Op.Pointer_New 7 0 zeroPointer.pointer, Op.Pointer_Free 0]).2 = 1 := by decide
  have hb : List.count (msgPtrFree sampleConsts 1)
      [msgPtrNew sampleConsts 1 zeroPointer.pointer.xPos zeroPointer.pointer.yPos,
        msgPtrFree sampleConsts 1] = 1 := by decide
  rw [ha, hb]
  omega

/-- C7 as amended: in the outbound trace of every sequence of operations of a
session built by the constructor, every `PTR_FREE` message comes after a `PTR_NEW`
message carrying the same id; and when the sequence has fewer than `2^32`
`Pointer_New` callbacks, no `PTR_FREE` message occurs twice in the trace (at most
one `PTR_FREE` per id). The opcodes of `PTR_SET` and `PTR_FREE` are different. -/
theorem ptr_free_after_new_once (c : Consts) (inst : freerdp) (threadCreated : Bool)
    (s0 : RDP) (ops : List Op)
    (hnew : RDP.new (some inst) threadCreated = some s0)
    (hdist : c.WSOP_SC_PTR_SET % 4294967296 ≠ c.WSOP_SC_PTR_FREE % 4294967296) :
    FreeAfterNew c (run c (World.start s0) ops).2 ∧
    (countNew ops < 4294967296 →
      ∀ id, (run c (World.start s0) ops).2.count (msgPtrFree c id) ≤ 1) := by
  constructor
  · have h := (run_orderInv c ops (World.start s0) [] hdist (start_orderInv c s0)).order
    simpa using h
  · intro hn id
    have h := (run_onceInv c ops (World.start s0) [] [] 1 hdist
      (start_ptrInv s0 (RDP_new_ptr inst threadCreated s0 hnew).1) (start_onceInv c)
      (by omega)).freeOnce id
    simpa using h

/-- Witness of C7 as amended: in the trace of New, Set, Free, Free on one pointer
object the `PTR_FREE` message for id 1 occurs once. -/
theorem ptr_free_after_new_once_witness :
    (run sampleConsts (World.start freshSession)
      [Op.Pointer_New 5 0 zeroPointer.pointer, Op.Pointer_Set 0, Op.Pointer_Free 0,
        Op.Pointer_Free 0]).2.count (msgPtrFree sampleConsts 1) ≤ 1 :=
  (ptr_free_after_new_once sampleConsts ⟨true, some zeroSettings⟩ true freshSession
    [Op.Pointer_New 5 0 zeroPointer.pointer, Op.Pointer_Set 0, Op.Pointer_Free 0,
      Op.Pointer_Free 0] (by decide) (by decide)).2 (by decide) 1

/-! ### Key presses -/

/-- The dispatch of `OnWsMessage` for a `WSOP_CS_KPRESS` message on a connected
session. -/
theorem OnWsMessage_kpress (c : Consts) (s : RDP) (data : Bytes)
    (hconn : s.m_State = State.STATE_CONNECTED)
    (hop : readU32 data 0 = some c.WSOP_CS_KPRESS) :
    OnWsMessage c s data = onKPress c s data := by
  have hlen : data.length ≥ 4 := by
    unfold readU32 at hop
    split at hop
    · rename_i b0 b1 b2 b3 rest heq
      rw [List.drop_zero] at heq
      rw [heq]
      simp
    · exact absurd hop (by simp)
  have h1 : c.WSOP_CS_KPRESS ≠ c.WSOP_CS_MOUSE := fun e => c.cs_distinct.2.1 e.symm
  have h2 : c.WSOP_CS_KPRESS ≠ c.WSOP_CS_KUPDOWN := fun e => c.cs_distinct.2.2 e.symm
  simp [OnWsMessage, hconn, hlen, hop, h1, h2]

/-- The effects of two keyboard events in a row on a session with the input
pointer bound. -/
theorem keyboard_tap (s : RDP) (f1 f2 code : Nat) (hin : s.m_rdpInput = true) :
    ((SendInputKeyboardEvent s f1 code).andThen fun s1 _ =>
      SendInputKeyboardEvent s1 f2 code) =
    { st := s,
      eff := [Effect.keyboard_event (f1 % 65536) (code % 65536),
        Effect.keyboard_event (f2 % 65536) (code % 65536)],
      out := Outcome.ret () } := by
  simp [Res.andThen, SendInputKeyboardEvent, hin]

theorem unicode_tap (s : RDP) (f1 f2 code : Nat) (hin : s.m_rdpInput = true) :
    ((SendInputUnicodeKeyboardEvent s f1 code).andThen fun s1 _ =>
      SendInputUnicodeKeyboardEvent s1 f2 code) =
    { st := s,
      eff := [Effect.unicode_keyboard_event (f1 % 65536) (code % 65536),
        Effect.unicode_keyboard_event (f2 % 65536) (code % 65536)],
      out := Outcome.ret () } := by
  simp [Res.andThen, SendInputUnicodeKeyboardEvent, hin]

/-- The inner switch of the `else` branch leaves `tcode` zero for a code that is at
most 0x20 and none of 0x09, 0x0D, 0x13, 0x1B, 0x20. -/
theorem kpressTcode_zero (c : Consts) (code : Nat) (hle : code ≤ 0x20)
    (h1 : code ≠ 0x09) (h2 : code ≠ 0x0D) (h3 : code ≠ 0x13) (h4 : code ≠ 0x1B)
    (h5 : code ≠ 0x20) : kpressTcode c code = 0 := by
  unfold kpressTcode
  rw [if_neg h1, if_neg h2, if_neg h3, if_neg h4, if_neg h5,
    if_neg (show ¬ code = 0x21 by omega), if_neg (show ¬ code = 0x22 by omega),
    if_neg (show ¬ code = 0x23 by omega), if_neg (show ¬ code = 0x24 by omega),
    if_neg (show ¬ code = 0x25 by omega), if_neg (show ¬ code = 0x26 by omega),
    if_neg (show ¬ code = 0x27 by omega), if_neg (show ¬ code = 0x28 by omega),
    if_neg (show ¬ code = 0x2C by omega), if_neg (show ¬ code = 0x2D by omega),
    if_neg (show ¬ code = 0x2E by omega)]

/-- The `else` branch of the `WSOP_CS_KPRESS` case (`code <= 0x20`) when the inner
switch leaves a non-zero `tcode`. -/
theorem onKPress_low_pos (c : Consts) (s : RDP) (data : Bytes) (ss code sc : Nat)
    (hin : s.m_rdpInput = true)
    (hss : readU32 data 4 = some ss) (hcode : readU32 data 8 = some code)
    (hle : code ≤ 0x20) (ht : kpressTcode c code = sc) (hpos : 0 < sc) :
    onKPress c s data =
      { st := s,
        eff := [Effect.keyboard_event
            ((c.KBD_FLAGS_DOWN |||
              (if c.RDP_SCANCODE_EXTENDED sc then c.KBD_FLAGS_EXTENDED else 0)) % 65536)
            (c.RDP_SCANCODE_CODE sc % 65536),
          Effect.keyboard_event
            ((c.KBD_FLAGS_RELEASE |||
              (if c.RDP_SCANCODE_EXTENDED sc then c.KBD_FLAGS_EXTENDED else 0)) % 65536)
            (c.RDP_SCANCODE_CODE sc % 65536)],
        out := Outcome.ret () } := by
  have hn : ¬ 0x20 < code := by omega
  simp only [onKPress, hss, hcode, hn, if_false, ht, hpos, if_true]
  exact keyboard_tap s _ _ _ hin

/-- The `else` branch of the `WSOP_CS_KPRESS` case (`code <= 0x20`) when the inner
switch leaves `tcode` zero. -/
theorem onKPress_low_zero (c : Consts) (s : RDP) (data : Bytes) (ss code : Nat)
    (hss : readU32 data 4 = some ss) (hcode : readU32 data 8 = some code)
    (hle : code ≤ 0x20) (ht : kpressTcode c code = 0) :
    onKPress c s data = { st := s, eff := [], out := Outcome.ret () } := by
  have hn : ¬ 0x20 < code := by omega
  simp only [onKPress, hss, hcode, hn, if_false, ht, Nat.lt_irrefl]

/-- C8: a `KEY_PRESS` message with `code <= 0x20` on a connected session (input
pointer bound), for any shift state. For the codes 0x09, 0x0D, 0x13, 0x1B, 0x20, whose
scancode constant `sc` is Tab, Return, Pause, Escape, Space (a non-zero constant),
exactly two scancode keyboard events are made, a down then a release, both with the
code part of `sc` and both with the extended flag exactly when `sc` is marked
extended; so for 0x0D with Return not marked extended the pair is a plain down and
release of the Return code. For every other code nothing is emitted. In all cases
the call returns normally and leaves the object unchanged. -/
theorem kpress_control_keys (c : Consts) (s : RDP) (data : Bytes) (ss code : Nat)
    (hconn : s.m_State = State.STATE_CONNECTED) (hin : s.m_rdpInput = true)
    (hop : readU32 data 0 = some c.WSOP_CS_KPRESS)
    (hss : readU32 data 4 = some ss) (hcode : readU32 data 8 = some code)
    (hle : code ≤ 0x20) :
    (∀ sc, (code = 0x09 ∧ sc = c.RDP_SCANCODE_TAB ∨ code = 0x0D ∧ sc = c.RDP_SCANCODE_RETURN ∨
        code = 0x13 ∧ sc = c.RDP_SCANCODE_PAUSE ∨ code = 0x1B ∧ sc = c.RDP_SCANCODE_ESCAPE ∨
        code = 0x20 ∧ sc = c.RDP_SCANCODE_SPACE) → 0 < sc →
      (OnWsMessage c s data).eff =
        [Effect.keyboard_event
            ((c.KBD_FLAGS_DOWN |||
              (if c.RDP_SCANCODE_EXTENDED sc then c.KBD_FLAGS_EXTENDED else 0)) % 65536)
            (c.RDP_SCANCODE_CODE sc % 65536),
          Effect.keyboard_event
            ((c.KBD_FLAGS_RELEASE |||
              (if c.RDP_SCANCODE_EXTENDED sc then c.KBD_FLAGS_EXTENDED else 0)) % 65536)
            (c.RDP_SCANCODE_CODE sc % 65536)]) ∧
    (code = 0x0D → 0 < c.RDP_SCANCODE_RETURN →
      c.RDP_SCANCODE_EXTENDED c.RDP_SCANCODE_RETURN = false →
      (OnWsMessage c s data).eff =
        [Effect.keyboard_event (c.KBD_FLAGS_DOWN % 65536)
            (c.RDP_SCANCODE_CODE c.RDP_SCANCODE_RETURN % 65536),
          Effect.keyboard_event (c.KBD_FLAGS_RELEASE % 65536)
            (c.RDP_SCANCODE_CODE c.RDP_SCANCODE_RETURN % 65536)]) ∧
    (code ≠ 0x09 ∧ code ≠ 0x0D ∧ code ≠ 0x13 ∧ code ≠ 0x1B ∧ code ≠ 0x20 →
      (OnWsMessage c s data).eff = []) ∧
    (OnWsMessage c s data).out = Outcome.ret () ∧
    (OnWsMessage c s data).st = s := by
  rw [OnWsMessage_kpress c s data hconn hop]
  refine ⟨?_, ?_, ?_, ?_, ?_⟩
  · intro sc hsc hpos
    have ht : kpressTcode c code = sc := by
      rcases hsc with ⟨h, e⟩ | ⟨h, e⟩ | ⟨h, e⟩ | ⟨h, e⟩ | ⟨h, e⟩ <;>
        (subst h; subst e; rfl)
    rw [onKPress_low_pos c s data ss code sc hin hss hcode hle ht hpos]
  · intro h hpos hext
    have ht : kpressTcode c code = c.RDP_SCANCODE_RETURN := by subst h; rfl
    rw [onKPress_low_pos c s data ss code _ hin hss hcode hle ht hpos, hext]
    simp only [Bool.false_eq_true, if_false, Nat.or_zero]
  · intro ⟨h1, h2, h3, h4, h5⟩
    rw [onKPress_low_zero c s data ss code hss hcode hle
      (kpressTcode_zero c code hle h1 h2 h3 h4 h5)]
  · by_cases h : 0 < kpressTcode c code
    · rw [onKPress_low_pos c s data ss code _ hin hss hcode hle rfl h]
    · rw [onKPress_low_zero c s data ss code hss hcode hle (by omega)]
  · by_cases h : 0 < kpressTcode c code
    · rw [onKPress_low_pos c s data ss code _ hin hss hcode hle rfl h]
    · rw [onKPress_low_zero c s data ss code hss hcode hle (by omega)]

/-- Witness of C8: code 0x0D with shift state 0 gives a plain down and release of
the Return code 0x1C. -/
theorem kpress_control_keys_witness :
    (OnWsMessage sampleConsts connectedSession (kpressMsg 0 0x0D)).eff =
      [Effect.keyboard_event 0x4000 0x1C, Effect.keyboard_event 0x8000 0x1C] :=
  (kpress_control_keys sampleConsts connectedSession (kpressMsg 0 0x0D) 0 0x0D
    (by decide) (by decide) (by decide) (by decide) (by decide) (by decide)).2.1
    (by decide) (by decide) (by decide)

/-- C9: a `KEY_PRESS` message with `0x20 < code <= 0xFFFF` and shift state 0 or 1 on
a connected session (input pointer bound) makes exactly two calls, both unicode
keyboard events: a down then a release, both carrying the code unchanged; no
scancode keyboard event is made, the call returns normally and the object is
unchanged. -/
theorem kpress_printable_unicode (c : Consts) (s : RDP) (data : Bytes) (ss code : Nat)
    (hconn : s.m_State = State.STATE_CONNECTED) (hin : s.m_rdpInput = true)
    (hop : readU32 data 0 = some c.WSOP_CS_KPRESS)
    (hss : readU32 data 4 = some ss) (hcode : readU32 data 8 = some code)
    (hlo : 0x20 < code) (hhi : code ≤ 0xFFFF) (hshift : ss = 0 ∨ ss = 1) :
    (OnWsMessage c s data).eff =
      [Effect.unicode_keyboard_event (c.KBD_FLAGS_DOWN % 65536) code,
        Effect.unicode_keyboard_event (c.KBD_FLAGS_RELEASE % 65536) code] ∧
    (∀ flags k, Effect.keyboard_event flags k ∉ (OnWsMessage c s data).eff) ∧
    (OnWsMessage c s data).out = Outcome.ret () ∧
    (OnWsMessage c s data).st = s := by
  have h6 : ss &&& 6 = 0 := by
    rcases hshift with h | h <;> subst h <;> decide
  have hpos : 0 < code := by omega
  have hmod : code % 65536 = code := Nat.mod_eq_of_lt (by omega)
  have hE : OnWsMessage c s data =
      { st := s,
        eff := [Effect.unicode_keyboard_event (c.KBD_FLAGS_DOWN % 65536) code,
          Effect.unicode_keyboard_event (c.KBD_FLAGS_RELEASE % 65536) code],
        out := Outcome.ret () } := by
    rw [OnWsMessage_kpress c s data hconn hop]
    simp only [onKPress, hss, hcode, hlo, if_true, h6, ne_eq, not_true_eq_false, if_false,
      hpos]
    rw [unicode_tap s _ _ _ hin, hmod]
  rw [hE]
  exact ⟨rfl, by simp, rfl, rfl⟩

/-- Witness of C9: code 0x41 with the shift bit set is sent as a unicode down and
release carrying 0x41. -/
theorem kpress_printable_unicode_witness :
    (OnWsMessage sampleConsts connectedSession (kpressMsg 1 0x41)).eff =
      [Effect.unicode_keyboard_event 0x4000 0x41,
        Effect.unicode_keyboard_event 0x8000 0x41] :=
  (kpress_printable_unicode sampleConsts connectedSession (kpressMsg 1 0x41) 1 0x41
    (by decide) (by decide) (by decide) (by decide) (by decide) (by decide) (by decide)
    (by decide)).1

/-- C10, the claim refuted: for the upper-case letter `A` (0x41) with Ctrl/Alt held
and the shift bit clear, the value handed to the scancode resolution is 0x21, not a
letter; and for the lower-case letter `a` (0x61) with Ctrl/Alt held and the shift
bit set it is 0x61, not the upper-case 0x41. With the sample resolution, which
knows 0x21 as Page Up (0x149), the press of `A` is emitted as a Page Up tap. -/
theorem ctrl_letter_not_upper :
    kpressVirtualKey 2 0x41 = 0x21 ∧ kpressVirtualKey 3 0x61 = 0x61 ∧
    (OnWsMessage sampleConsts connectedSession (kpressMsg 2 0x41)).eff =
      [Effect.keyboard_event 0x4000 0x149, Effect.keyboard_event 0x8000 0x149] := by
  decide

/-- C10 as amended: a `KEY_PRESS` message whose code is a letter (A-Z or a-z) with
Ctrl/Alt held (`shiftState & 6` non-zero) on a connected session (input pointer
bound). The value handed to the scancode resolution is the code itself when the
shift bit is set and the code minus 32 when it is clear; this is the upper-case
form of the letter, in 0x41..0x5A, for a lower-case letter with the shift bit clear
and for an upper-case letter with the shift bit set. When the resolved scancode
is non-zero exactly two calls are made, a scancode down event and a scancode
release event carrying it (as `uint16_t`), without the extended flag, and no
unicode event; when it is zero no call is made. -/
theorem kpress_ctrl_letter (c : Consts) (s : RDP) (data : Bytes) (ss code : Nat)
    (hconn : s.m_State = State.STATE_CONNECTED) (hin : s.m_rdpInput = true)
    (hop : readU32 data 0 = some c.WSOP_CS_KPRESS)
    (hss : readU32 data 4 = some ss) (hcode : readU32 data 8 = some code)
    (hletter : (64 < code ∧ code < 91) ∨ (96 < code ∧ code < 123))
    (hctrl : ss &&& 6 ≠ 0) :
    kpressVirtualKey ss code = (if ss &&& 1 ≠ 0 then code else code - 32) ∧
    (96 < code → ss &&& 1 = 0 →
      kpressVirtualKey ss code = code - 32 ∧
      0x41 ≤ kpressVirtualKey ss code ∧ kpressVirtualKey ss code ≤ 0x5A) ∧
    (code < 91 → ss &&& 1 ≠ 0 →
      kpressVirtualKey ss code = code ∧
      0x41 ≤ kpressVirtualKey ss code ∧ kpressVirtualKey ss code ≤ 0x5A) ∧
    (∀ sc, sc = c.freerdp_keyboard_get_rdp_scancode_from_virtual_key_code
        (kpressVirtualKey ss code) % 4294967296 →
      (0 < sc →
        (OnWsMessage c s data).eff =
          [Effect.keyboard_event (c.KBD_FLAGS_DOWN % 65536) (sc % 65536),
            Effect.keyboard_event (c.KBD_FLAGS_RELEASE % 65536) (sc % 65536)]) ∧
      (sc = 0 → (OnWsMessage c s data).eff = [])) := by
  have hvk : kpressVirtualKey ss code = (if ss &&& 1 ≠ 0 then code else code - 32) := by
    unfold kpressVirtualKey
    split
    · exact Nat.mod_eq_of_lt (by omega)
    · exact Nat.mod_eq_of_lt (by omega)
  refine ⟨hvk, ?_, ?_, ?_⟩
  · intro h1 h2
    rw [hvk, if_neg (fun h => h h2)]
    omega
  · intro h1 h2
    rw [hvk, if_pos h2]
    omega
  · intro sc hsc
    have hlo : 0x20 < code := by omega
    have hl : (64 < code ∧ 91 > code) ∨ (96 < code ∧ 123 > code) := hletter
    rw [OnWsMessage_kpress c s data hconn hop]
    simp only [onKPress, hss, hcode, hlo, if_true, hctrl, ne_eq, not_false_eq_true, hl,
      ← hsc]
    constructor
    · intro hpos
      rw [if_pos hpos, keyboard_tap s _ _ _ hin]
    · intro hz
      rw [if_neg (by omega)]

/-- Witness of C10 as amended: `a` (0x61) with Ctrl held and the shift bit clear is
resolved as 0x41 and emitted as a scancode down and release of 0x1E. -/
theorem kpress_ctrl_letter_witness :
    (OnWsMessage sampleConsts connectedSession (kpressMsg 2 0x61)).eff =
      [Effect.keyboard_event 0x4000 0x1E, Effect.keyboard_event 0x8000 0x1E] :=
  ((kpress_ctrl_letter sampleConsts connectedSession (kpressMsg 2 0x61) 2 0x61
    (by decide) (by decide) (by decide) (by decide) (by decide) (by decide)
    (by decide)).2.2.2 0x1E (by decide)).1 (by decide)

/-! ### The input pointer -/

theorem classifyError_rdpInput (s : RDP) (e : Nat) :
    (classifyError s e).m_rdpInput = s.m_rdpInput := by
  unfold classifyError
  repeat' split
  all_goals rfl

theorem ThreadFunc_body_rdpInput (s : RDP) (o : LoopObs) :
    (ThreadFunc_body s o).1.m_rdpInput = s.m_rdpInput := by
  have hc := classifyError_rdpInput s o.error_info
  unfold ThreadFunc_body
  simp only
  repeat' split
  all_goals simp_all [addError]

/-- No operation changes `m_rdpInput`: it stays as `ContextNew` bound it in the
constructor. -/
theorem step_rdpInput (c : Consts) (w : World) (op : Op) :
    (step c w op).1.rdp.m_rdpInput = w.rdp.m_rdpInput := by
  cases op with
  | Connect host user domain pass params =>
    simp only [step]
    cases hs : w.rdp.m_rdpSettings with
    | none => simp [Connect, hs]
    | some r0 =>
      cases hl : w.rdp.m_bThreadLoop with
      | false => simp [Connect, hs, hl]
      | true => simp [Connect, hs, hl]
  | Disconnect e =>
    simp only [step, Disconnect]
    repeat' split
    all_goals rfl
  | OnWsMessage data => simp [step, OnWsMessage_st]
  | Pointer_New now h p => simp [step, Pointer_New]
  | Pointer_Free h =>
    simp only [step, Pointer_Free]
    split <;> rfl
  | Pointer_Set h => simp [step, Pointer_Set]
  | Pointer_SetNull => simp [step, Pointer_SetNull]
  | Pointer_SetDefault => simp [step, Pointer_SetDefault]
  | ThreadFunc_pass o =>
    simp only [step]
    split
    · exact ThreadFunc_body_rdpInput _ _
    · rfl

/-- In a session built by the constructor on an engine instance with a non-null
input, `m_rdpInput` is bound after every sequence of operations. -/
theorem run_rdpInput (c : Consts) (inst : freerdp) (threadCreated : Bool) (s0 : RDP)
    (ptrs : Nat → MyPointer) (ops : List Op)
    (hnew : RDP.new (some inst) threadCreated = some s0) (hinput : inst.input = true) :
    (run c ⟨s0, ptrs⟩ ops).1.rdp.m_rdpInput = true := by
  have h0 : s0.m_rdpInput = true := by
    simp only [RDP.new, ContextNew, Option.some.injEq] at hnew
    rw [← hnew]
    exact hinput
  have key : ∀ (ops : List Op) (w : World), w.rdp.m_rdpInput = true →
      (run c w ops).1.rdp.m_rdpInput = true := by
    intro ops
    induction ops with
    | nil => exact fun w h => h
    | cons op rest ih =>
      intro w h
      simp only [run]
      exact ih _ (by rw [step_rdpInput]; exact h)
  exact key ops _ h0

/-! ### The navigation keys of the key-press table -/

theorem kpress_navigation_each :
    ∀ code ∈ ([0x21, 0x22, 0x23, 0x24, 0x25, 0x26, 0x27, 0x28, 0x2C, 0x2D, 0x2E] : List Byte),
      (OnWsMessage sampleConsts connectedSession (kpressMsg 0 code)).eff =
        [Effect.unicode_keyboard_event 0x4000 code.val,
          Effect.unicode_keyboard_event 0x8000 code.val] := by
  intro code h
  simp only [List.mem_cons, List.mem_singleton, List.not_mem_nil, or_false] at h
  rcases h with h | h | h | h | h | h | h | h | h | h | h <;> subst h <;> decide

/-- C11, the claim refuted: a `KEY_PRESS` message with shift state 0 carrying one of
the codes 0x21 .. 0x28, 0x2C, 0x2D, 0x2E (Page Up .. Delete) on a connected session
is not resolved through the table: the test `0x20 < m->code` sends it to the
printable branch, and it is emitted as a unicode down and release carrying the
code itself, with no scancode event. -/
theorem kpress_navigation_keys_unicode :
    ([0x21, 0x22, 0x23, 0x24, 0x25, 0x26, 0x27, 0x28, 0x2C, 0x2D, 0x2E] : List Byte).map
      (fun code => (OnWsMessage sampleConsts connectedSession (kpressMsg 0 code)).eff) =
    ([0x21, 0x22, 0x23, 0x24, 0x25, 0x26, 0x27, 0x28, 0x2C, 0x2D, 0x2E] : List Byte).map
      (fun code => [Effect.unicode_keyboard_event 0x4000 code.val,
        Effect.unicode_keyboard_event 0x8000 code.val]) :=
  List.map_congr_left kpress_navigation_each

/-- C11 as amended: a `KEY_PRESS` message with shift state 0 carrying the code of one
of the sixteen keys of the table, on a connected session (input pointer bound). The
table is consulted only for `code <= 0x20`. For the five keys 0x09, 0x0D, 0x13,
0x1B, 0x20, whose scancode constant `sc` is Tab, Return, Pause, Escape, Space (a
non-zero constant), exactly two scancode keyboard events are made, a down then a
release, both with the code part of `sc` and with the extended flag exactly when
`sc` is marked extended. For the eleven keys 0x21 .. 0x28, 0x2C, 0x2D, 0x2E (Page
Up .. Delete) the table is not reached: exactly two unicode keyboard events are
made, a down then a release carrying the code itself, and no scancode event. -/
theorem kpress_table_keys (c : Consts) (s : RDP) (data : Bytes) (code : Nat)
    (hconn : s.m_State = State.STATE_CONNECTED) (hin : s.m_rdpInput = true)
    (hop : readU32 data 0 = some c.WSOP_CS_KPRESS)
    (hss : readU32 data 4 = some 0) (hcode : readU32 data 8 = some code) :
    (∀ sc, (code = 0x09 ∧ sc = c.RDP_SCANCODE_TAB ∨ code = 0x0D ∧ sc = c.RDP_SCANCODE_RETURN ∨
        code = 0x13 ∧ sc = c.RDP_SCANCODE_PAUSE ∨ code = 0x1B ∧ sc = c.RDP_SCANCODE_ESCAPE ∨
        code = 0x20 ∧ sc = c.RDP_SCANCODE_SPACE) → 0 < sc →
      (OnWsMessage c s data).eff =
        [Effect.keyboard_event
            ((c.KBD_FLAGS_DOWN |||
              (if c.RDP_SCANCODE_EXTENDED sc then c.KBD_FLAGS_EXTENDED else 0)) % 65536)
            (c.RDP_SCANCODE_CODE sc % 65536),
          Effect.keyboard_event
            ((c.KBD_FLAGS_RELEASE |||
              (if c.RDP_SCANCODE_EXTENDED sc then c.KBD_FLAGS_EXTENDED else 0)) % 65536)
            (c.RDP_SCANCODE_CODE sc % 65536)]) ∧
    ((code = 0x21 ∨ code = 0x22 ∨ code = 0x23 ∨ code = 0x24 ∨ code = 0x25 ∨ code = 0x26 ∨
        code = 0x27 ∨ code = 0x28 ∨ code = 0x2C ∨ code = 0x2D ∨ code = 0x2E) →
      (OnWsMessage c s data).eff =
        [Effect.unicode_keyboard_event (c.KBD_FLAGS_DOWN % 65536) code,
          Effect.unicode_keyboard_event (c.KBD_FLAGS_RELEASE % 65536) code] ∧
      ∀ flags k, Effect.keyboard_event flags k ∉ (OnWsMessage c s data).eff) := by
  rw [OnWsMessage_kpress c s data hconn hop]
  constructor
  · intro sc hsc hpos
    have hle : code ≤ 0x20 := by
      rcases hsc with ⟨h, _⟩ | ⟨h, _⟩ | ⟨h, _⟩ | ⟨h, _⟩ | ⟨h, _⟩ <;> omega
    have ht : kpressTcode c code = sc := by
      rcases hsc with ⟨h, e⟩ | ⟨h, e⟩ | ⟨h, e⟩ | ⟨h, e⟩ | ⟨h, e⟩ <;>
        (subst h; subst e; rfl)
    rw [onKPress_low_pos c s data 0 code sc hin hss hcode hle ht hpos]
  · intro hnav
    have hlo : 0x20 < code := by omega
    have hpos : 0 < code := by omega
    have hmod : code % 65536 = code := Nat.mod_eq_of_lt (by omega)
    have h6 : (0 : Nat) &&& 6 = 0 := by decide
    have hE : onKPress c s data =
        { st := s,
          eff := [Effect.unicode_keyboard_event (c.KBD_FLAGS_DOWN % 65536) code,
            Effect.unicode_keyboard_event (c.KBD_FLAGS_RELEASE % 65536) code],
          out := Outcome.ret () } := by
      simp only [onKPress, hss, hcode, hlo, if_true, h6, ne_eq, not_true_eq_false, if_false,
        hpos]
      rw [unicode_tap s _ _ _ hin, hmod]
    rw [hE]
    exact ⟨rfl, by simp⟩

/-- Witness of C11 as amended: Tab (0x09) is sent as a scancode down and release of
0x0F; Delete (0x2E) is sent as a unicode down and release carrying 0x2E. -/
theorem kpress_table_keys_witness :
    (OnWsMessage sampleConsts connectedSession (kpressMsg 0 0x09)).eff =
      [Effect.keyboard_event 0x4000 0x0F, Effect.keyboard_event 0x8000 0x0F] ∧
    (OnWsMessage sampleConsts connectedSession (kpressMsg 0 0x2E)).eff =
      [Effect.unicode_keyboard_event 0x4000 0x2E,
        Effect.unicode_keyboard_event 0x8000 0x2E] :=
  ⟨(kpress_table_keys sampleConsts connectedSession (kpressMsg 0 0x09) 0x09
      (by decide) (by decide) (by decide) (by decide) (by decide)).1 0x0F
      (by decide) (by decide),
    ((kpress_table_keys sampleConsts connectedSession (kpressMsg 0 0x2E) 0x2E
      (by decide) (by decide) (by decide) (by decide) (by decide)).2 (by decide)).1⟩

/-- The table entries of the navigation keys exist in the inner switch (here Page Up
and Delete of the sample table), but the switch is only reached with
`code <= 0x20`. -/
theorem kpressTcode_navigation_entries :
    kpressTcode sampleConsts 0x21 = sampleConsts.RDP_SCANCODE_PRIOR ∧
    kpressTcode sampleConsts 0x2E = sampleConsts.RDP_SCANCODE_DELETE := by
  decide

/-! ### Key up/down and mouse messages -/

theorem readU32_length (data : Bytes) (off v : Nat) (h : readU32 data off = some v) :
    off + 4 ≤ data.length := by
  unfold readU32 at h
  split at h
  · rename_i b0 b1 b2 b3 rest heq
    have := congrArg List.length heq
    simp only [List.length_drop, List.length_cons] at this
    omega
  · exact absurd h (by simp)

theorem OnWsMessage_kupdown (c : Consts) (s : RDP) (data : Bytes)
    (hconn : s.m_State = State.STATE_CONNECTED)
    (hop : readU32 data 0 = some c.WSOP_CS_KUPDOWN) :
    OnWsMessage c s data = onKUpDown c s data := by
  have hlen : data.length ≥ 4 := by
    have := readU32_length data 0 _ hop
    omega
  have h1 : c.WSOP_CS_KUPDOWN ≠ c.WSOP_CS_MOUSE := fun e => c.cs_distinct.1 e.symm
  simp [OnWsMessage, hconn, hlen, hop, h1]

theorem OnWsMessage_mouse (c : Consts) (s : RDP) (data : Bytes)
    (hconn : s.m_State = State.STATE_CONNECTED)
    (hop : readU32 data 0 = some c.WSOP_CS_MOUSE) :
    OnWsMessage c s data = onMouse s data := by
  have hlen : data.length ≥ 4 := by
    have := readU32_length data 0 _ hop
    omega
  simp [OnWsMessage, hconn, hlen, hop]

/-- C12: a `KEY_UPDOWN` message on a connected session (input pointer bound). For the
codes 8, 16, 17, 18, 93, whose scancode constant `sc` is Backspace, Left-Shift,
Left-Control, Left-Alt, Left-Windows (a non-zero constant), exactly one call is
made, a scancode keyboard event with the code part of `sc`, flagged down when the
down field is non-zero and release when it is zero, with the extended flag exactly
when `sc` is marked extended. For every other code (20, 144 and 145 included) no
call is made. In all cases the call returns normally and leaves the object
unchanged. -/
theorem kupdown_modifier_keys (c : Consts) (s : RDP) (data : Bytes) (down code : Nat)
    (hconn : s.m_State = State.STATE_CONNECTED) (hin : s.m_rdpInput = true)
    (hop : readU32 data 0 = some c.WSOP_CS_KUPDOWN)
    (hdown : readU32 data 4 = some down) (hcode : readU32 data 8 = some code) :
    (∀ sc, (code = 8 ∧ sc = c.RDP_SCANCODE_BACKSPACE ∨ code = 16 ∧ sc = c.RDP_SCANCODE_LSHIFT ∨
        code = 17 ∧ sc = c.RDP_SCANCODE_LCONTROL ∨ code = 18 ∧ sc = c.RDP_SCANCODE_LMENU ∨
        code = 93 ∧ sc = c.RDP_SCANCODE_LWIN) → 0 < sc →
      (OnWsMessage c s data).eff =
        [Effect.keyboard_event
            (((if down ≠ 0 then c.KBD_FLAGS_DOWN else c.KBD_FLAGS_RELEASE) |||
              (if c.RDP_SCANCODE_EXTENDED sc then c.KBD_FLAGS_EXTENDED else 0)) % 65536)
            (c.RDP_SCANCODE_CODE sc % 65536)]) ∧
    (code ≠ 8 ∧ code ≠ 16 ∧ code ≠ 17 ∧ code ≠ 18 ∧ code ≠ 93 →
      (OnWsMessage c s data).eff = []) ∧
    (OnWsMessage c s data).out = Outcome.ret () ∧
    (OnWsMessage c s data).st = s := by
  rw [OnWsMessage_kupdown c s data hconn hop]
  have hE : onKUpDown c s data =
      if 0 < kupdownTcode c code then
        { st := s,
          eff := [Effect.keyboard_event
            (((if down ≠ 0 then c.KBD_FLAGS_DOWN else c.KBD_FLAGS_RELEASE) |||
              (if c.RDP_SCANCODE_EXTENDED (kupdownTcode c code) then c.KBD_FLAGS_EXTENDED
                else 0)) % 65536)
            (c.RDP_SCANCODE_CODE (kupdownTcode c code) % 65536)],
          out := Outcome.ret () }
      else { st := s, eff := [], out := Outcome.ret () } := by
    simp only [onKUpDown, hdown, hcode, SendInputKeyboardEvent, hin, Bool.true_eq_false,
      if_false]
  rw [hE]
  refine ⟨?_, ?_, ?_, ?_⟩
  · intro sc hsc hpos
    have ht : kupdownTcode c code = sc := by
      rcases hsc with ⟨h, e⟩ | ⟨h, e⟩ | ⟨h, e⟩ | ⟨h, e⟩ | ⟨h, e⟩ <;>
        (subst h; subst e; rfl)
    rw [ht, if_pos hpos]
  · intro ⟨h1, h2, h3, h4, h5⟩
    have ht : kupdownTcode c code = 0 := by
      unfold kupdownTcode
      rw [if_neg h1, if_neg h2, if_neg h3, if_neg h4]
      split_ifs <;> rfl
    rw [ht, if_neg (Nat.lt_irrefl 0)]
  · by_cases h : 0 < kupdownTcode c code
    · rw [if_pos h]
    · rw [if_neg h]
  · by_cases h : 0 < kupdownTcode c code
    · rw [if_pos h]
    · rw [if_neg h]

/-- Witness of C12: Left-Shift (16) pressed gives one down event of scancode 0x2A;
Left-Windows (93) released gives one release event of code 0x5B with the extended
flag. -/
theorem kupdown_modifier_keys_witness :
    (OnWsMessage sampleConsts connectedSession (kupdownMsg 1 16)).eff =
      [Effect.keyboard_event 0x4000 0x2A] ∧
    (OnWsMessage sampleConsts connectedSession (kupdownMsg 0 93)).eff =
      [Effect.keyboard_event 0x8100 0x5B] :=
  ⟨(kupdown_modifier_keys sampleConsts connectedSession (kupdownMsg 1 16) 1 16
      (by decide) (by decide) (by decide) (by decide) (by decide)).1 0x2A
      (by decide) (by decide),
    (kupdown_modifier_keys sampleConsts connectedSession (kupdownMsg 0 93) 0 93
      (by decide) (by decide) (by decide) (by decide) (by decide)).1 0x15B
      (by decide) (by decide)⟩

/-- C13: a `MOUSE` message on a connected session, with its fields flags, x, y (the
little-endian 32-bit words at offsets 4, 8 and 12, which every message of 16 bytes
has), makes exactly one call, the mouse event of the engine, whose x and y
arguments are the x and y fields reduced modulo `2^16`; the flags are narrowed in
the same way. The call returns normally and leaves the object unchanged. The input
pointer is bound (`hin`): the case calls through it without a test. -/
theorem mouse_narrowed (c : Consts) (s : RDP) (data : Bytes) (flags x y : Nat)
    (hconn : s.m_State = State.STATE_CONNECTED) (hin : s.m_rdpInput = true)
    (hop : readU32 data 0 = some c.WSOP_CS_MOUSE)
    (hflags : readU32 data 4 = some flags)
    (hx : readU32 data 8 = some x) (hy : readU32 data 12 = some y) :
    (OnWsMessage c s data).eff =
      [Effect.MouseEvent (flags % 65536) (x % 65536) (y % 65536)] ∧
    (OnWsMessage c s data).out = Outcome.ret () ∧
    (OnWsMessage c s data).st = s := by
  rw [OnWsMessage_mouse c s data hconn hop]
  simp only [onMouse, hflags, hx, hy, hin, Bool.true_eq_false, if_false, and_self]

/-- Every message of 16 bytes has the three payload fields of the `MOUSE` layout. -/
theorem mouse_fields (data : Bytes) (hlen : data.length = 16) :
    ∃ flags x y, readU32 data 4 = some flags ∧ readU32 data 8 = some x ∧
      readU32 data 12 = some y := by
  match data, hlen with
  | [b0, b1, b2, b3, b4, b5, b6, b7, b8, b9, b10, b11, b12, b13, b14, b15], _ =>
    exact ⟨_, _, _, rfl, rfl, rfl⟩

/-- The `MOUSE` case on a session whose input pointer is null: no call is made and
the message is not handled to the end. -/
theorem mouse_unbound :
    (OnWsMessage sampleConsts { connectedSession with m_rdpInput := false } mouseMsg).eff =
      [] ∧
    (OnWsMessage sampleConsts { connectedSession with m_rdpInput := false } mouseMsg).out =
      Outcome.nullptr := by
  decide

/-- Witness of C13: x = 0x00012345 is passed as 0x2345 (no clamping), y = 0xFFFF
unchanged. -/
theorem mouse_narrowed_witness :
    (OnWsMessage sampleConsts connectedSession mouseMsg).eff =
      [Effect.MouseEvent 0x8000 0x2345 0xFFFF] :=
  (mouse_narrowed sampleConsts connectedSession mouseMsg 0x8000 0x12345 0xFFFF
    (by decide) (by decide) (by decide) (by decide) (by decide) (by decide)).1

/-! ### Pointer New and the cursor cache -/

/-- C14: a `Pointer_New` callback assigns the id `s.m_ptrId`; afterwards `GetCursor`
of that id is the entry made of the time of the call and the image that the encoder
produces from the width, the height and the pixel buffer: the buffer converted by
the engine from the XOR and AND masks when both are present, the all-zero buffer
(of `width * height * 4` bytes, as a `uint32_t`) when one of them is absent. Every
other cache entry is as before. Exactly one call is made: the binary message of
the four little-endian 32-bit words `PTR_NEW`, id, hotspot x, hotspot y. -/
theorem Pointer_New_spec (c : Consts) (now : Nat) (s : RDP) (p : MyPointer) :
    (Pointer_New c now s p).out = Outcome.ret { p with id := s.m_ptrId } ∧
    (∀ andMask xorMask, p.pointer.andMaskData = some andMask →
      p.pointer.xorMaskData = some xorMask →
      GetCursor (Pointer_New c now s p).st s.m_ptrId =
        (now, c.GenerateFromARGB p.pointer.width p.pointer.height
          (c.freerdp_alpha_cursor_convert
            (List.replicate (p.pointer.width * p.pointer.height * 4 % 4294967296) 0)
            xorMask andMask p.pointer.width p.pointer.height p.pointer.xorBpp))) ∧
    (p.pointer.andMaskData = none ∨ p.pointer.xorMaskData = none →
      GetCursor (Pointer_New c now s p).st s.m_ptrId =
        (now, c.GenerateFromARGB p.pointer.width p.pointer.height
          (List.replicate (p.pointer.width * p.pointer.height * 4 % 4294967296) 0))) ∧
    (∀ k, k ≠ s.m_ptrId →
      CursorMap.find (Pointer_New c now s p).st.m_cursorMap k =
        CursorMap.find s.m_cursorMap k ∧
      GetCursor (Pointer_New c now s p).st k = GetCursor s k) ∧
    (Pointer_New c now s p).eff =
      [Effect.send_binary (le32 c.WSOP_SC_PTR_NEW ++ le32 s.m_ptrId ++
        le32 p.pointer.xPos ++ le32 p.pointer.yPos)] := by
  refine ⟨rfl, ?_, ?_, ?_, rfl⟩
  · intro andMask xorMask ha hx
    simp only [Pointer_New, GetCursor, find_set_self, ha, hx]
  · intro h
    have hpix : (match p.pointer.andMaskData, p.pointer.xorMaskData with
        | some andMask, some xorMask =>
          c.freerdp_alpha_cursor_convert
            (List.replicate (p.pointer.width * p.pointer.height * 4 % 4294967296) 0)
            xorMask andMask p.pointer.width p.pointer.height p.pointer.xorBpp
        | _, _ => List.replicate (p.pointer.width * p.pointer.height * 4 % 4294967296) 0) =
        List.replicate (p.pointer.width * p.pointer.height * 4 % 4294967296) 0 := by
      rcases h with h | h
      · rw [h]
      · rw [h]
        cases p.pointer.andMaskData <;> rfl
    simp only [Pointer_New, GetCursor, find_set_self, hpix]
  · intro k hk
    have hf : CursorMap.find (Pointer_New c now s p).st.m_cursorMap k =
        CursorMap.find s.m_cursorMap k := by
      simp only [Pointer_New]
      exact find_set_ne _ _ _ _ hk
    exact ⟨hf, by simp only [GetCursor, hf]⟩

/-- Witness of C14: a 1 x 1 pointer without masks on a fresh session gets id 1, the
entry of id 1 is the image of the four zero bytes, and the message is
`PTR_NEW, 1, 3, 4`. -/
theorem Pointer_New_spec_witness :
    GetCursor (Pointer_New sampleConsts 9 freshSession
        { pointer := ⟨3, 4, 1, 1, 32, none, none⟩, id := 0 }).st 1 =
      (9, sampleConsts.GenerateFromARGB 1 1 [0, 0, 0, 0]) ∧
    (Pointer_New sampleConsts 9 freshSession
        { pointer := ⟨3, 4, 1, 1, 32, none, none⟩, id := 0 }).eff =
      [Effect.send_binary [8, 0, 0, 0, 1, 0, 0, 0, 3, 0, 0, 0, 4, 0, 0, 0]] :=
  ⟨(Pointer_New_spec sampleConsts 9 freshSession
      { pointer := ⟨3, 4, 1, 1, 32, none, none⟩, id := 0 }).2.2.1 (Or.inl rfl),
    (Pointer_New_spec sampleConsts 9 freshSession
      { pointer := ⟨3, 4, 1, 1, 32, none, none⟩, id := 0 }).2.2.2.2⟩

/-- C15: `GetCursor` returns the entry that the cursor map holds for the id when
there is one, and the empty result (time 0, no bytes) when there is none. It reads
the map with `find` and writes no member: the cache it was called on is the cache
afterwards. -/
theorem GetCursor_spec (s : RDP) (cid : Nat) :
    (∀ v, CursorMap.find s.m_cursorMap cid = some v → GetCursor s cid = v) ∧
    (CursorMap.find s.m_cursorMap cid = none → GetCursor s cid = (0, [])) ∧
    (∀ (m : CursorMap) (k : Nat) (v : cursor),
      GetCursor { s with m_cursorMap := CursorMap.set m k v } k = v ∧
      GetCursor { s with m_cursorMap := CursorMap.erase m k } k = (0, [])) := by
  refine ⟨?_, ?_, ?_⟩
  · intro v h
    simp only [GetCursor, h]
  · intro h
    simp only [GetCursor, h]
  · intro m k v
    simp only [GetCursor, find_set_self, find_erase_self, and_self]

/-- Witness of C15: on the session with the single entry of id 1, `GetCursor 1`
is that entry and `GetCursor 2` is empty. -/
theorem GetCursor_spec_witness :
    GetCursor { freshSession with m_cursorMap := [(1, (9, [7]))] } 1 = (9, [7]) ∧
    GetCursor { freshSession with m_cursorMap := [(1, (9, [7]))] } 2 = (0, []) :=
  ⟨(GetCursor_spec { freshSession with m_cursorMap := [(1, (9, [7]))] } 1).1 (9, [7])
      (by decide),
    (GetCursor_spec { freshSession with m_cursorMap := [(1, (9, [7]))] } 2).2.1
      (by decide)⟩

/-! ### The error classification of the worker loop -/

theorem ThreadFunc_body_lastError (s : RDP) (o : LoopObs) :
    (ThreadFunc_body s o).1.m_lastError = (classifyError s o.error_info).m_lastError ∧
    (ThreadFunc_body s o).1.m_bThreadLoop = (classifyError s o.error_info).m_bThreadLoop := by
  unfold ThreadFunc_body
  simp only
  repeat' split
  all_goals exact ⟨rfl, rfl⟩

/-- C18: the error classification at the head of one pass of the loop, for the
polled code `e`. When `e` is non-zero and differs from `m_lastError`:
`m_lastError` becomes `e`; for `e` in 1, 2, 7, 9 the loop flag is cleared and the
pending error text is left as it was; for `e = 5` the forced-disconnection text is
added with `addError`; for every other `e` the text "Server reported error 0x"
followed by `e` in lower-case hexadecimal is added with `addError`. When `e` is 0
or equals `m_lastError` the object is unchanged. The rest of the pass changes
neither `m_lastError` nor the loop flag. -/
theorem classifyError_spec (s : RDP) (e : Nat) :
    (e ≠ 0 → e ≠ s.m_lastError →
      (classifyError s e).m_lastError = e ∧
      (e = 1 ∨ e = 2 ∨ e = 7 ∨ e = 9 →
        classifyError s e = { s with m_lastError := e, m_bThreadLoop := false } ∧
        (classifyError s e).m_errMsg = s.m_errMsg) ∧
      (e = 5 →
        classifyError s e = addError { s with m_lastError := e }
          "Another user connected to the server,\nforcing the disconnection of the current connection.") ∧
      (e ≠ 1 ∧ e ≠ 2 ∧ e ≠ 7 ∧ e ≠ 9 ∧ e ≠ 5 →
        classifyError s e = addError { s with m_lastError := e }
          ("Server reported error 0x" ++ hexText e))) ∧
    (e = 0 ∨ e = s.m_lastError → classifyError s e = s) ∧
    (∀ o : LoopObs, o.error_info = e →
      (ThreadFunc_body s o).1.m_lastError = (classifyError s e).m_lastError ∧
      (ThreadFunc_body s o).1.m_bThreadLoop = (classifyError s e).m_bThreadLoop) := by
  refine ⟨?_, ?_, ?_⟩
  · intro h0 hl
    have h0' : 0 ≠ e := fun h => h0 h.symm
    have hl' : s.m_lastError ≠ e := fun h => hl h.symm
    refine ⟨?_, ?_, ?_, ?_⟩
    · unfold classifyError
      rw [if_pos h0', if_pos hl']
      simp only
      split
      · rfl
      · split <;> rfl
    · intro hb
      unfold classifyError
      rw [if_pos h0', if_pos hl']
      simp only [hb, if_true, and_self]
    · intro h5
      unfold classifyError
      rw [if_pos h0', if_pos hl']
      have hb : ¬ (e = 1 ∨ e = 2 ∨ e = 7 ∨ e = 9) := by omega
      simp only
      rw [if_neg hb, if_pos h5]
    · intro ⟨h1, h2, h7, h9, h5⟩
      unfold classifyError
      rw [if_pos h0', if_pos hl']
      have hb : ¬ (e = 1 ∨ e = 2 ∨ e = 7 ∨ e = 9) := by omega
      simp only [hb, if_false, h5]
  · intro h
    unfold classifyError
    rcases h with h | h
    · rw [if_neg (fun h0 => h0 h.symm)]
    · split
      · rw [if_neg (fun hl => hl h.symm)]
      · rfl
  · intro o ho
    rw [← ho]
    exact ThreadFunc_body_lastError s o

/-- Witness of C18: code 0x1AF on a fresh session is recorded and adds the text
"E:Server reported error 0x1af"; code 7 clears the loop flag and adds nothing. -/
theorem classifyError_spec_witness :
    classifyError freshSession 0x1AF =
      { freshSession with m_lastError := 0x1AF, m_errMsg := "E:Server reported error 0x1af" } ∧
    classifyError freshSession 7 =
      { freshSession with m_lastError := 7, m_bThreadLoop := false } :=
  ⟨by
      rw [((classifyError_spec freshSession 0x1AF).1 (by decide) (by decide)).2.2.2
        (by decide)]
      decide,
    (((classifyError_spec freshSession 7).1 (by decide) (by decide)).2.1 (by decide)).1⟩

/-! ### Disconnect without an active connection -/

theorem ThreadFunc_stopped (s : RDP) (script : List LoopObs) (h : s.m_bThreadLoop = false) :
    ThreadFunc s script = (s, ThreadFunc_epilogue s, true) := by
  cases script <;> simp [ThreadFunc, h]

/-- The error classification never sets the loop flag. -/
theorem classifyError_flag_clear (s : RDP) (e : Nat) (h : s.m_bThreadLoop = false) :
    (classifyError s e).m_bThreadLoop = false := by
  unfold classifyError
  repeat' split
  all_goals first
    | exact h
    | rfl

/-- A pass of the loop never sets the loop flag: after a pass that was in flight
when the flag was cleared, the loop condition is false. -/
theorem ThreadFunc_body_flag_clear (s : RDP) (o : LoopObs) (h : s.m_bThreadLoop = false) :
    (ThreadFunc_body s o).1.m_bThreadLoop = false := by
  have hc := classifyError_flag_clear s o.error_info h
  unfold ThreadFunc_body
  simp only
  generalize classifyError s o.error_info = s1 at hc ⊢
  repeat' split
  all_goals exact hc

/-- The rest of the worker function agrees with the loop: entered with the flag
clear, the loop returns at its first test after the statements that follow it, and
so it does after a pass that was in flight, whatever the engine would answer
next. -/
theorem ThreadFunc_rest_loop (s : RDP) (o : LoopObs) (script : List LoopObs)
    (h : s.m_bThreadLoop = false) :
    ThreadFunc s script =
      ((ThreadFunc_rest s WorkerAt.atTest).1, (ThreadFunc_rest s WorkerAt.atTest).2, true) ∧
    ((ThreadFunc (ThreadFunc_body s o).1 script).2.2 = true ∧
      (ThreadFunc_rest s (WorkerAt.inPass o)).1 =
        (ThreadFunc (ThreadFunc_body s o).1 script).1 ∧
      (ThreadFunc_rest s (WorkerAt.inPass o)).2 =
        (ThreadFunc_body s o).2.1 ++ (ThreadFunc (ThreadFunc_body s o).1 script).2.1) := by
  constructor
  · rw [ThreadFunc_stopped s script h]
    rfl
  · rw [ThreadFunc_stopped _ script (ThreadFunc_body_flag_clear s o h)]
    exact ⟨rfl, rfl, rfl⟩

/-- The state after one pass of the loop: only a pass in state `STATE_CONNECT` that
attempts the connect writes `m_State`. -/
theorem ThreadFunc_body_State (s : RDP) (o : LoopObs) :
    (ThreadFunc_body s o).1.m_State =
      if s.m_State = State.STATE_CONNECT ∧ o.shall_disconnect = false then
        (if o.connect then State.STATE_CONNECTED else State.STATE_INITIAL)
      else s.m_State := by
  have hc := classifyError_State s o.error_info
  unfold ThreadFunc_body
  simp only
  generalize classifyError s o.error_info = s1 at hc ⊢
  cases hd : o.shall_disconnect <;> cases hcn : o.connect <;>
    cases hst : s.m_State <;> rw [hst] at hc <;>
    by_cases hm : s1.m_errMsg = "" <;> simp [hm, hc, addError]

/-- One pass from a connected session that polls a new code among 1, 2, 7, 9. -/
theorem ThreadFunc_body_benign (s : RDP) (o : LoopObs)
    (hs : s.m_State = State.STATE_CONNECTED)
    (hb : o.error_info = 1 ∨ o.error_info = 2 ∨ o.error_info = 7 ∨ o.error_info = 9)
    (hnew : o.error_info ≠ s.m_lastError) :
    ThreadFunc_body s o =
      ({ s with m_lastError := o.error_info, m_bThreadLoop := false, m_errMsg := "" },
        (if s.m_errMsg ≠ "" then [Effect.send_text s.m_errMsg] else []) ++
          (if o.shall_disconnect then []
            else [Effect.freerdp_check_fds, Effect.usleep 100]),
        if o.shall_disconnect then LoopExit.broken else LoopExit.next) := by
  have h0 : 0 ≠ o.error_info := by omega
  have hl' : s.m_lastError ≠ o.error_info := fun h => hnew h.symm
  have hc : classifyError s o.error_info =
      { s with m_lastError := o.error_info, m_bThreadLoop := false } := by
    unfold classifyError
    rw [if_pos h0, if_pos hl']
    simp only [hb, if_true]
  unfold ThreadFunc_body
  rw [hc]
  by_cases hm : s.m_errMsg = ""
  · cases hd : o.shall_disconnect
    · simp [hm, hs]
    · simp [hm]
  · cases hd : o.shall_disconnect
    · simp [hm, hs]
    · simp [hm]

/-- The run of the loop from a connected session whose first polled code is a new
code among 1, 2, 7, 9: pending text is flushed, the pass is completed (or left by
`break`), the loop condition is false, and the epilogue sends "T:". -/
theorem ThreadFunc_benign (s : RDP) (o : LoopObs) (rest : List LoopObs)
    (hs : s.m_State = State.STATE_CONNECTED) (hl : s.m_bThreadLoop = true)
    (hb : o.error_info = 1 ∨ o.error_info = 2 ∨ o.error_info = 7 ∨ o.error_info = 9)
    (hnew : o.error_info ≠ s.m_lastError) :
    ThreadFunc s (o :: rest) =
      ({ s with m_lastError := o.error_info, m_bThreadLoop := false, m_errMsg := "" },
        (if s.m_errMsg ≠ "" then [Effect.send_text s.m_errMsg] else []) ++
          (if o.shall_disconnect then []
            else [Effect.freerdp_check_fds, Effect.usleep 100]) ++
          [Effect.send_text "T:"],
        true) := by
  have hep : ThreadFunc_epilogue
      { s with m_lastError := o.error_info, m_bThreadLoop := false, m_errMsg := "" } =
      [Effect.send_text "T:"] := by
    simp only [ThreadFunc_epilogue, hs, if_true]
  rw [ThreadFunc, if_pos hl]
  simp only [ThreadFunc_body_benign s o hs hb hnew]
  cases hd : o.shall_disconnect
  · simp only [Bool.false_eq_true, if_false]
    rw [ThreadFunc_stopped _ rest rfl, hep]
  · simp only [if_true, hep]

/-- When the loop has returned, its trace ends with the statements after the loop,
run on the object it leaves. -/
theorem ThreadFunc_returned_trace (script : List LoopObs) :
    ∀ s, (ThreadFunc s script).2.2 = true →
      ∃ pre, (ThreadFunc s script).2.1 =
        pre ++ ThreadFunc_epilogue (ThreadFunc s script).1 := by
  induction script with
  | nil =>
    intro s h
    cases hl : s.m_bThreadLoop with
    | false =>
      rw [ThreadFunc_stopped s [] hl]
      exact ⟨[], rfl⟩
    | true =>
      rw [ThreadFunc, if_pos hl] at h
      exact absurd h (by simp)
  | cons o rest ih =>
    intro s h
    cases hl : s.m_bThreadLoop with
    | false =>
      rw [ThreadFunc_stopped s (o :: rest) hl]
      exact ⟨[], rfl⟩
    | true =>
      rw [ThreadFunc, if_pos hl] at h ⊢
      simp only at h ⊢
      cases hx : (ThreadFunc_body s o).2.2 with
      | broken =>
        simp only [hx]
        exact ⟨_, rfl⟩
      | next =>
        simp only [hx] at h ⊢
        obtain ⟨pre, hp⟩ := ih _ h
        exact ⟨(ThreadFunc_body s o).2.1 ++ pre, by rw [hp, List.append_assoc]⟩
      | continued =>
        simp only [hx] at h ⊢
        obtain ⟨pre, hp⟩ := ih _ h
        exact ⟨(ThreadFunc_body s o).2.1 ++ pre, by rw [hp, List.append_assoc]⟩

/-- A pass in which the engine asks to disconnect leaves the loop through `break`. -/
theorem ThreadFunc_body_break (s : RDP) (o : LoopObs) (hd : o.shall_disconnect = true) :
    (ThreadFunc_body s o).2.2 = LoopExit.broken := by
  unfold ThreadFunc_body
  simp only [hd, if_true]

/-- The loop returns at a pass in which the engine asks to disconnect. -/
theorem ThreadFunc_break (s : RDP) (o : LoopObs) (rest : List LoopObs)
    (hl : s.m_bThreadLoop = true) (hd : o.shall_disconnect = true) :
    ThreadFunc s (o :: rest) =
      ((ThreadFunc_body s o).1,
        (ThreadFunc_body s o).2.1 ++ ThreadFunc_epilogue (ThreadFunc_body s o).1, true) := by
  rw [ThreadFunc, if_pos hl]
  simp only [ThreadFunc_body_break s o hd]

/-- C16, the claim refuted: after `Disconnect` on a connected session the state is
`STATE_CLOSED`, and the worker loop, finding the flag clear, returns without sending
"T:" (it sends nothing at all). -/
theorem no_terminal_notice_after_Disconnect :
    connectedSession.m_State = State.STATE_CONNECTED ∧
    (ThreadFunc (Disconnect connectedSession 1).st [⟨0, false, false⟩]).2.2 = true ∧
    Effect.send_text "T:" ∉
      (Disconnect connectedSession 1).eff ++
        (ThreadFunc (Disconnect connectedSession 1).st [⟨0, false, false⟩]).2.1 := by
  decide

/-- C16 as amended. Whenever the loop has returned and the state it leaves is
`STATE_CONNECTED`, the last message it sent is the terminal notice "T:", from
whatever object and after whatever passes. On a connected session with the loop
flag set the loop does return in that state when a pass polls a new code among 1,
2, 7, 9 and when the engine asks to disconnect (`break`). After `Disconnect` on
such a session, whose loop has not returned yet, the state is `STATE_CLOSED`: the
loop, finding the flag clear, returns without sending anything, and a pass that
was in flight is followed by no message either, so no "T:" is emitted on that
path. -/
theorem terminal_notice (s : RDP) :
    (∀ script, (ThreadFunc s script).2.2 = true →
      (ThreadFunc s script).1.m_State = State.STATE_CONNECTED →
      ∃ pre, (ThreadFunc s script).2.1 = pre ++ [Effect.send_text "T:"]) ∧
    (s.m_State = State.STATE_CONNECTED → s.m_bThreadLoop = true →
      (∀ (o : LoopObs) (rest : List LoopObs),
        (o.error_info = 1 ∨ o.error_info = 2 ∨ o.error_info = 7 ∨ o.error_info = 9) →
        o.error_info ≠ s.m_lastError →
        (ThreadFunc s (o :: rest)).2.2 = true ∧
        (ThreadFunc s (o :: rest)).1.m_State = State.STATE_CONNECTED ∧
        ∃ pre, (ThreadFunc s (o :: rest)).2.1 = pre ++ [Effect.send_text "T:"]) ∧
      (∀ (o : LoopObs) (rest : List LoopObs), o.shall_disconnect = true →
        (ThreadFunc s (o :: rest)).2.2 = true ∧
        (ThreadFunc s (o :: rest)).1.m_State = State.STATE_CONNECTED ∧
        ∃ pre, (ThreadFunc s (o :: rest)).2.1 = pre ++ [Effect.send_text "T:"]) ∧
      (∀ (engineRet : Nat),
        (Disconnect s engineRet).eff = [Effect.freerdp_disconnect] ∧
        (Disconnect s engineRet).st.m_State = State.STATE_CLOSED ∧
        (∀ script, ThreadFunc (Disconnect s engineRet).st script =
          ((Disconnect s engineRet).st, [], true)) ∧
        (∀ o, (ThreadFunc_rest (Disconnect s engineRet).st (WorkerAt.inPass o)).1.m_State =
            State.STATE_CLOSED ∧
          (ThreadFunc_rest (Disconnect s engineRet).st (WorkerAt.inPass o)).2 =
            (ThreadFunc_body (Disconnect s engineRet).st o).2.1))) := by
  have gen : ∀ (s0 : RDP) (script : List LoopObs), (ThreadFunc s0 script).2.2 = true →
      (ThreadFunc s0 script).1.m_State = State.STATE_CONNECTED →
      ∃ pre, (ThreadFunc s0 script).2.1 = pre ++ [Effect.send_text "T:"] := by
    intro s0 script hret hst
    obtain ⟨pre, hp⟩ := ThreadFunc_returned_trace script s0 hret
    refine ⟨pre, ?_⟩
    rw [hp]
    simp only [ThreadFunc_epilogue, hst, if_true]
  refine ⟨gen s, ?_⟩
  intro hs hl
  refine ⟨?_, ?_, ?_⟩
  · intro o rest hb hnew
    have hE := ThreadFunc_benign s o rest hs hl hb hnew
    have hret : (ThreadFunc s (o :: rest)).2.2 = true := by rw [hE]
    have hst : (ThreadFunc s (o :: rest)).1.m_State = State.STATE_CONNECTED := by
      rw [hE]
      exact hs
    exact ⟨hret, hst, gen s _ hret hst⟩
  · intro o rest hd
    have hE := ThreadFunc_break s o rest hl hd
    have hret : (ThreadFunc s (o :: rest)).2.2 = true := by rw [hE]
    have hst : (ThreadFunc s (o :: rest)).1.m_State = State.STATE_CONNECTED := by
      rw [hE]
      show (ThreadFunc_body s o).1.m_State = State.STATE_CONNECTED
      rw [ThreadFunc_body_State, hs]
      simp
    exact ⟨hret, hst, gen s _ hret hst⟩
  · intro engineRet
    have hE : Disconnect s engineRet =
        { st := { s with m_bThreadLoop := false, m_State := State.STATE_CLOSED },
          eff := [Effect.freerdp_disconnect],
          out := Outcome.ret (decide (engineRet ≠ 0)) } := by
      simp only [Disconnect, hl, if_true, hs]
    rw [hE]
    refine ⟨rfl, rfl, ?_, ?_⟩
    · intro script
      rw [ThreadFunc_stopped _ script rfl]
      rfl
    · intro o
      have hcl : (ThreadFunc_body
          { s with m_bThreadLoop := false, m_State := State.STATE_CLOSED } o).1.m_State =
          State.STATE_CLOSED := by
        rw [ThreadFunc_body_State]
        simp
      refine ⟨hcl, ?_⟩
      show (ThreadFunc_body _ o).2.1 ++ ThreadFunc_epilogue (ThreadFunc_body _ o).1 = _
      simp only [ThreadFunc_epilogue, hcl]
      simp

/-- Witness of C16 as amended: code 2 polled on a connected session, and the engine
asking to disconnect on a connected session. -/
theorem terminal_notice_witness :
    ((ThreadFunc connectedSession [⟨2, false, false⟩]).2.2 = true ∧
      (ThreadFunc connectedSession [⟨2, false, false⟩]).1.m_State = State.STATE_CONNECTED ∧
      ∃ pre, (ThreadFunc connectedSession [⟨2, false, false⟩]).2.1 =
        pre ++ [Effect.send_text "T:"]) ∧
    (∃ pre, (ThreadFunc connectedSession [⟨0, true, false⟩]).2.1 =
      pre ++ [Effect.send_text "T:"]) ∧
    (ThreadFunc connectedSession [⟨2, false, false⟩]).2.1 =
      [Effect.freerdp_check_fds, Effect.usleep 100, Effect.send_text "T:"] ∧
    (ThreadFunc connectedSession [⟨0, true, false⟩]).2.1 = [Effect.send_text "T:"] :=
  ⟨((terminal_notice connectedSession).2 (by decide) (by decide)).1
      ⟨2, false, false⟩ [] (by decide) (by decide),
    (terminal_notice connectedSession).1 [⟨0, true, false⟩] (by decide) (by decide),
    by decide, by decide⟩

/-- C20, the claim refuted: a pass in state `STATE_CONNECTED` that polls the new code
1 ends the loop, and the state at the end is `STATE_CONNECTED`, not `STATE_CLOSED`. -/
theorem benign_code_not_closed :
    (ThreadFunc connectedSession [⟨1, false, false⟩]).2.2 = true ∧
    (ThreadFunc connectedSession [⟨1, false, false⟩]).1.m_State = State.STATE_CONNECTED ∧
    (ThreadFunc connectedSession [⟨1, false, false⟩]).1.m_State ≠ State.STATE_CLOSED := by
  decide

/-- C20 as amended: when a pass in state `STATE_CONNECTED` polls a new code among 1,
2, 7, 9, the classification adds no error text, the loop flag is cleared and the
loop ends after this pass (whatever the engine would answer next); the state stays
`STATE_CONNECTED`, and the terminal notice "T:" is sent at loop exit: the trace is
the flush of text that was already pending, the rest of the pass, and then "T:" as
the last message, which is the only text sent besides the pending one. -/
theorem benign_code_ends_loop (s : RDP) (o : LoopObs) (rest : List LoopObs)
    (hs : s.m_State = State.STATE_CONNECTED) (hl : s.m_bThreadLoop = true)
    (hb : o.error_info = 1 ∨ o.error_info = 2 ∨ o.error_info = 7 ∨ o.error_info = 9)
    (hnew : o.error_info ≠ s.m_lastError) :
    (classifyError s o.error_info).m_errMsg = s.m_errMsg ∧
    (ThreadFunc s (o :: rest)).2.2 = true ∧
    (ThreadFunc s (o :: rest)).1.m_bThreadLoop = false ∧
    (ThreadFunc s (o :: rest)).1.m_State = State.STATE_CONNECTED ∧
    (ThreadFunc s (o :: rest)).1.m_errMsg = "" ∧
    (ThreadFunc s (o :: rest)).2.1 =
      (if s.m_errMsg ≠ "" then [Effect.send_text s.m_errMsg] else []) ++
        (if o.shall_disconnect then []
          else [Effect.freerdp_check_fds, Effect.usleep 100]) ++
        [Effect.send_text "T:"] ∧
    Effect.send_text "T:" ∈ (ThreadFunc s (o :: rest)).2.1 ∧
    (∀ t, Effect.send_text t ∈ (ThreadFunc s (o :: rest)).2.1 →
      t = "T:" ∨ (t = s.m_errMsg ∧ s.m_errMsg ≠ "")) := by
  have h0 : 0 ≠ o.error_info := by omega
  have hl' : s.m_lastError ≠ o.error_info := fun h => hnew h.symm
  have hc : (classifyError s o.error_info).m_errMsg = s.m_errMsg := by
    unfold classifyError
    rw [if_pos h0, if_pos hl']
    simp only [hb, if_true]
  rw [ThreadFunc_benign s o rest hs hl hb hnew]
  refine ⟨hc, rfl, rfl, hs, rfl, rfl, ?_, ?_⟩
  · exact List.mem_append_right _ (List.mem_singleton.2 rfl)
  intro t ht
  simp only [List.mem_append, List.mem_singleton, Effect.send_text.injEq] at ht
  rcases ht with (ht | ht) | ht
  · split at ht
    · rename_i hm
      exact Or.inr ⟨(by simpa using ht), hm⟩
    · exact absurd ht (List.not_mem_nil _)
  · split at ht
    · exact absurd ht (List.not_mem_nil _)
    · simp at ht
  · exact Or.inl ht

/-- Witness of C20 as amended: code 9 polled on a connected session. -/
theorem benign_code_ends_loop_witness :
    (ThreadFunc connectedSession [⟨9, false, false⟩, ⟨0, false, false⟩]).2.2 = true ∧
    (ThreadFunc connectedSession [⟨9, false, false⟩, ⟨0, false, false⟩]).1.m_State =
      State.STATE_CONNECTED ∧
    Effect.send_text "T:" ∈
      (ThreadFunc connectedSession [⟨9, false, false⟩, ⟨0, false, false⟩]).2.1 ∧
    (ThreadFunc connectedSession [⟨9, false, false⟩, ⟨0, false, false⟩]).2.1 =
      [Effect.freerdp_check_fds, Effect.usleep 100, Effect.send_text "T:"] :=
  ⟨(benign_code_ends_loop connectedSession ⟨9, false, false⟩ [⟨0, false, false⟩]
      (by decide) (by decide) (by decide) (by decide)).2.1,
    (benign_code_ends_loop connectedSession ⟨9, false, false⟩ [⟨0, false, false⟩]
      (by decide) (by decide) (by decide) (by decide)).2.2.2.1,
    (benign_code_ends_loop connectedSession ⟨9, false, false⟩ [⟨0, false, false⟩]
      (by decide) (by decide) (by decide) (by decide)).2.2.2.2.2.2.1,
    by decide⟩

/-! ### The lines of the error texts -/

theorem textLines_ne_nil (t : List Char) : textLines t ≠ [] := by
  cases t with
  | nil => simp [textLines]
  | cons ch cs =>
    simp only [textLines]
    split
    · simp
    · split <;> simp

theorem textLines_cons_newline (cs : List Char) :
    textLines ('\n' :: cs) = [] :: textLines cs := by
  simp only [textLines, if_true]

theorem textLines_cons_other (ch : Char) (cs : List Char) (h : ch ≠ '\n') :
    textLines (ch :: cs) =
      match textLines cs with
      | [] => [[ch]]
      | l :: ls => (ch :: l) :: ls := by
  simp only [textLines, h, if_false]

theorem textLines_append_newline (a b : List Char) :
    textLines (a ++ '\n' :: b) = textLines a ++ textLines b := by
  induction a with
  | nil => rw [List.nil_append, textLines_cons_newline]; rfl
  | cons ch cs ih =>
    rw [List.cons_append]
    by_cases hc : ch = '\n'
    · subst hc
      rw [textLines_cons_newline, textLines_cons_newline, ih]
      rfl
    · rw [textLines_cons_other ch _ hc, textLines_cons_other ch cs hc, ih]
      cases h : textLines cs with
      | nil => exact absurd h (textLines_ne_nil cs)
      | cons l ls => rfl

theorem textLines_no_newline (t : List Char) (h : ∀ ch ∈ t, ch ≠ '\n') :
    textLines t = [t] := by
  induction t with
  | nil => rfl
  | cons ch cs ih =>
    have h1 : ch ≠ '\n' := h ch (List.mem_cons_self _ _)
    simp only [textLines, h1, if_false, ih (fun x hx => h x (List.mem_cons_of_mem _ hx))]

theorem digitChar_ne_newline (k : Nat) (h : k < 16) : Nat.digitChar k ≠ '\n' := by
  interval_cases k <;> decide

theorem toDigitsCore_no_newline (fuel n : Nat) (ds : List Char)
    (h : ∀ ch ∈ ds, ch ≠ '\n') : ∀ ch ∈ Nat.toDigitsCore 16 fuel n ds, ch ≠ '\n' := by
  induction fuel generalizing n ds with
  | zero => simpa [Nat.toDigitsCore] using h
  | succ f ih =>
    have hd : ∀ ch ∈ Nat.digitChar (n % 16) :: ds, ch ≠ '\n' := by
      intro ch hch
      rcases List.mem_cons.1 hch with e | e
      · rw [e]; exact digitChar_ne_newline _ (Nat.mod_lt _ (by decide))
      · exact h ch e
    simp only [Nat.toDigitsCore]
    split
    · exact hd
    · exact ih _ _ hd

theorem hexText_no_newline (e : Nat) : ∀ ch ∈ (hexText e).data, ch ≠ '\n' := by
  simp only [hexText, Nat.toDigits]
  exact toDigitsCore_no_newline _ _ [] (fun _ h => absurd h (List.not_mem_nil _))

/-- The entry for the connect failure is one line beginning with `E:`. -/
theorem connect_entry_ok (allow : Prop) :
    LinesOK allow ("E:".data ++ "Could not connect to RDP backend.".data) := by
  intro l hl
  have h : textLines ("E:".data ++ "Could not connect to RDP backend.".data) =
      ["E:Could not connect to RDP backend.".data] := by decide
  rw [h] at hl
  rw [List.mem_singleton.1 hl]
  exact Or.inl (by decide)

/-- The entry for a server-reported error is one line beginning with `E:`. -/
theorem hex_entry_ok (allow : Prop) (e : Nat) :
    LinesOK allow ("E:".data ++ ("Server reported error 0x" ++ hexText e).data) := by
  intro l hl
  rw [String.data_append] at hl
  rw [textLines_no_newline] at hl
  · rw [List.mem_singleton.1 hl]
    exact Or.inl rfl
  · intro ch hch
    rcases List.mem_append.1 hch with h | h
    · intro e1
      rw [e1] at h
      exact absurd h (by decide)
    · rcases List.mem_append.1 h with h | h
      · intro e1
        rw [e1] at h
        exact absurd h (by decide)
      · exact hexText_no_newline e ch h

/-- The entry for error code 5 has two lines: the first begins with `E:`, the second
is `forcedSecondLine`. -/
theorem forced_entry_ok :
    LinesOK True ("E:".data ++
      "Another user connected to the server,\nforcing the disconnection of the current connection.".data) := by
  intro l hl
  have h : textLines ("E:".data ++
      "Another user connected to the server,\nforcing the disconnection of the current connection.".data) =
      ["E:Another user connected to the server,".data, forcedSecondLine] := by decide
  rw [h] at hl
  simp only [List.mem_cons, List.mem_singleton, List.not_mem_nil, or_false] at hl
  rcases hl with e | e
  · rw [e]; exact Or.inl (by decide)
  · exact Or.inr ⟨trivial, e⟩

/-- `addError` keeps the pending text empty or well-formed, for a well-formed
entry. -/
theorem addError_ok (allow : Prop) (s : RDP) (msg : String)
    (hp : s.m_errMsg = "" ∨ LinesOK allow s.m_errMsg.data)
    (hm : LinesOK allow ("E:".data ++ msg.data)) :
    LinesOK allow (addError s msg).m_errMsg.data := by
  unfold addError
  simp only
  by_cases he : s.m_errMsg = ""
  · rw [if_neg (fun h => h he), he]
    simp only [String.data_append]
    exact hm
  · have hp1 : LinesOK allow s.m_errMsg.data := by
      rcases hp with h | h
      · exact absurd h he
      · exact h
    rw [if_pos he]
    simp only [String.data_append]
    have hn : s.m_errMsg.data ++ "\n".data ++ "E:".data ++ msg.data =
        s.m_errMsg.data ++ '\n' :: ("E:".data ++ msg.data) := by
      simp [List.append_assoc]
    rw [hn]
    intro l hl
    rw [textLines_append_newline] at hl
    rcases List.mem_append.1 hl with h | h
    · exact hp1 l h
    · exact hm l h

theorem LinesOK_of_true (allow : Prop) (t : List Char) (h : LinesOK True t) (ha : allow) :
    LinesOK allow t := by
  intro l hl
  rcases h l hl with h1 | ⟨_, h2⟩
  · exact Or.inl h1
  · exact Or.inr ⟨ha, h2⟩

/-- The classification keeps the pending text empty or well-formed; the
continuation line is only needed when code 5 is polled. -/
theorem classifyError_ok (allow : Prop) (s : RDP) (e : Nat)
    (hp : s.m_errMsg = "" ∨ LinesOK allow s.m_errMsg.data) (ha : e = 5 → allow) :
    (classifyError s e).m_errMsg = "" ∨ LinesOK allow (classifyError s e).m_errMsg.data := by
  unfold classifyError
  split
  · split
    · simp only
      split
      · exact hp
      · split
        · rename_i h5
          exact Or.inr (addError_ok allow _ _ hp
            (LinesOK_of_true allow _ forced_entry_ok (ha h5)))
        · exact Or.inr (addError_ok allow _ _ hp (hex_entry_ok allow e))
    · exact hp
  · exact hp

/-- After a pass the pending text is empty or the single connect-failure entry. -/
theorem ThreadFunc_body_pending (s : RDP) (o : LoopObs) :
    (ThreadFunc_body s o).1.m_errMsg = "" ∨
    (ThreadFunc_body s o).1.m_errMsg = "E:Could not connect to RDP backend." := by
  unfold ThreadFunc_body
  simp only
  generalize classifyError s o.error_info = s1
  by_cases hm : s1.m_errMsg = ""
  · simp only [hm, ne_eq, not_true_eq_false, if_false]
    repeat' split
    all_goals first
      | exact Or.inl hm
      | exact Or.inl rfl
      | (right; simp [addError, hm])
  · simp only [ne_eq, hm, not_false_eq_true, if_true]
    repeat' split
    all_goals first
      | exact Or.inl rfl
      | (right; simp [addError])

/-- The only text a pass sends is the pending text after the classification, when
it is not empty. -/
theorem ThreadFunc_body_sent (s : RDP) (o : LoopObs) (t : String)
    (h : Effect.send_text t ∈ (ThreadFunc_body s o).2.1) :
    t = (classifyError s o.error_info).m_errMsg ∧ t ≠ "" := by
  unfold ThreadFunc_body at h
  simp only at h
  generalize classifyError s o.error_info = s1 at h ⊢
  by_cases hm : s1.m_errMsg = ""
  · simp only [hm, ne_eq, not_true_eq_false, if_false] at h
    repeat' split at h
    all_goals simp at h
  · simp only [ne_eq, hm, not_false_eq_true, if_true] at h
    repeat' split at h
    all_goals
      simp at h
      exact ⟨h, by rw [h]; exact hm⟩

theorem Connect_errMsg (c : Consts) (s : RDP) (host user domain pass : String)
    (params : WsRdpParams) :
    (Connect c s host user domain pass params).st.m_errMsg = s.m_errMsg := by
  cases hs : s.m_rdpSettings with
  | none => simp [Connect, hs]
  | some r0 =>
    cases hl : s.m_bThreadLoop with
    | false => simp [Connect, hs, hl]
    | true => simp [Connect, hs, hl]

theorem Disconnect_errMsg (s : RDP) (e : Nat) :
    (Disconnect s e).st.m_errMsg = s.m_errMsg ∧
    ∀ t, Effect.send_text t ∉ (Disconnect s e).eff := by
  unfold Disconnect
  simp only
  repeat' split
  all_goals exact ⟨rfl, by simp⟩

theorem SendInputKeyboardEvent_text (s : RDP) (flags code : Nat) (t : String) :
    Effect.send_text t ∉ (SendInputKeyboardEvent s flags code).eff := by
  unfold SendInputKeyboardEvent
  split <;> simp

theorem SendInputUnicodeKeyboardEvent_text (s : RDP) (flags code : Nat) (t : String) :
    Effect.send_text t ∉ (SendInputUnicodeKeyboardEvent s flags code).eff := by
  unfold SendInputUnicodeKeyboardEvent
  split <;> simp

theorem onKPress_text (c : Consts) (s : RDP) (data : Bytes) (t : String) :
    Effect.send_text t ∉ (onKPress c s data).eff := by
  unfold onKPress
  split
  · simp only
    repeat' split
    all_goals first
      | (intro h
         rcases andThen_eff_mem _ _ _ h with h | ⟨_, h⟩
         · first
           | exact SendInputKeyboardEvent_text _ _ _ _ h
           | exact SendInputUnicodeKeyboardEvent_text _ _ _ _ h
         · first
           | exact SendInputKeyboardEvent_text _ _ _ _ h
           | exact SendInputUnicodeKeyboardEvent_text _ _ _ _ h)
      | simp
  · simp

theorem onMouse_text (s : RDP) (data : Bytes) (t : String) :
    Effect.send_text t ∉ (onMouse s data).eff := by
  unfold onMouse
  split
  · split <;> simp
  · simp

theorem OnWsMessage_text (c : Consts) (s : RDP) (data : Bytes) (t : String) :
    Effect.send_text t ∉ (OnWsMessage c s data).eff := by
  unfold OnWsMessage
  repeat' split
  all_goals first
    | exact onMouse_text _ _ _
    | (unfold onKUpDown
       split
       · simp only
         split
         · exact SendInputKeyboardEvent_text _ _ _ _
         · simp
       · simp)
    | exact onKPress_text _ _ _ _
    | simp

/-- One operation keeps the pending text empty or well-formed, and every text it
sends is well-formed. -/
theorem step_text (c : Consts) (allow : Prop) (w : World) (op : Op)
    (hp : w.rdp.m_errMsg = "" ∨ LinesOK allow w.rdp.m_errMsg.data)
    (ha : ∀ o, op = Op.ThreadFunc_pass o → o.error_info = 5 → allow) :
    ((step c w op).1.rdp.m_errMsg = "" ∨ LinesOK allow (step c w op).1.rdp.m_errMsg.data) ∧
    ∀ t, Effect.send_text t ∈ (step c w op).2 → LinesOK allow t.data := by
  cases op with
  | Connect host user domain pass params =>
    have he : (step c w (Op.Connect host user domain pass params)).2 = [] :=
      Connect_eff _ _ _ _ _ _ _
    have hm : (step c w (Op.Connect host user domain pass params)).1.rdp.m_errMsg =
        w.rdp.m_errMsg := Connect_errMsg _ _ _ _ _ _ _
    rw [he, hm]
    exact ⟨hp, fun t ht => absurd ht (List.not_mem_nil _)⟩
  | Disconnect e =>
    have hm : (step c w (Op.Disconnect e)).1.rdp.m_errMsg = w.rdp.m_errMsg :=
      (Disconnect_errMsg _ _).1
    rw [hm]
    exact ⟨hp, fun t ht => absurd ht ((Disconnect_errMsg w.rdp e).2 t)⟩
  | OnWsMessage data =>
    have hm : (step c w (Op.OnWsMessage data)).1.rdp = w.rdp := OnWsMessage_st _ _ _
    rw [hm]
    exact ⟨hp, fun t ht => absurd ht (OnWsMessage_text c w.rdp data t)⟩
  | Pointer_New now h p =>
    exact ⟨hp, fun t ht => by simp [step, Pointer_New] at ht⟩
  | Pointer_Free h =>
    constructor
    · simp only [step, Pointer_Free]
      split <;> exact hp
    · intro t ht
      simp only [step, Pointer_Free] at ht
      split at ht <;> simp at ht
  | Pointer_Set h => exact ⟨hp, fun t ht => by simp [step, Pointer_Set] at ht⟩
  | Pointer_SetNull => exact ⟨hp, fun t ht => by simp [step, Pointer_SetNull] at ht⟩
  | Pointer_SetDefault => exact ⟨hp, fun t ht => by simp [step, Pointer_SetDefault] at ht⟩
  | ThreadFunc_pass o =>
    simp only [step]
    split
    · constructor
      · rcases ThreadFunc_body_pending w.rdp o with h | h
        · exact Or.inl h
        · right
          rw [h]
          exact connect_entry_ok allow
      · intro t ht
        obtain ⟨h1, h2⟩ := ThreadFunc_body_sent w.rdp o t ht
        rcases classifyError_ok allow w.rdp o.error_info hp (ha o rfl) with h | h
        · exact absurd (h1.trans h) h2
        · rw [h1]; exact h
    · exact ⟨hp, fun t ht => absurd ht (List.not_mem_nil _)⟩

theorem run_text (c : Consts) (allow : Prop) (ops : List Op) (w : World)
    (hp : w.rdp.m_errMsg = "" ∨ LinesOK allow w.rdp.m_errMsg.data)
    (ha : ∀ o, Op.ThreadFunc_pass o ∈ ops → o.error_info = 5 → allow) :
    ∀ t, Effect.send_text t ∈ (run c w ops).2 → LinesOK allow t.data := by
  induction ops generalizing w with
  | nil => exact fun t ht => absurd ht (List.not_mem_nil _)
  | cons op rest ih =>
    have h1 := step_text c allow w op hp
      (fun o ho => ha o (ho ▸ List.mem_cons_self _ _))
    intro t ht
    simp only [run] at ht
    rcases List.mem_append.1 ht with h | h
    · exact h1.2 t h
    · exact ih (step c w op).1 h1.1 (fun o ho => ha o (List.mem_cons_of_mem _ ho)) t h

theorem RDP_new_errMsg (inst : freerdp) (threadCreated : Bool) (s0 : RDP)
    (h : RDP.new (some inst) threadCreated = some s0) : s0.m_errMsg = "" := by
  simp only [RDP.new, ContextNew, Option.some.injEq] at h
  rw [← h]

/-- C17, the claim refuted: a pass that polls error code 5 sends a text whose second
line, "forcing the disconnection of the current connection.", does not begin with
"E:". -/
theorem forced_text_second_line :
    Effect.send_text
        "E:Another user connected to the server,\nforcing the disconnection of the current connection." ∈
      (run sampleConsts (World.start freshSession) [Op.ThreadFunc_pass ⟨5, false, false⟩]).2 ∧
    forcedSecondLine ∈ textLines
      "E:Another user connected to the server,\nforcing the disconnection of the current connection.".data ∧
    beginsWithE forcedSecondLine = false := by
  decide

/-- C17 as amended: in a session built by the constructor, for every sequence of
operations (worker passes with any polled error codes and connect results among
them), every line of every text that the passes send begins with "E:", or is the
second line of the forced-disconnection text of error code 5; and when no pass
polls error code 5, every line of every such text begins with "E:". -/
theorem error_lines (c : Consts) (inst : freerdp) (threadCreated : Bool) (s0 : RDP)
    (ops : List Op) (hnew : RDP.new (some inst) threadCreated = some s0) :
    (∀ t, Effect.send_text t ∈ (run c (World.start s0) ops).2 →
      ∀ l, l ∈ textLines t.data → beginsWithE l = true ∨ l = forcedSecondLine) ∧
    ((∀ o, Op.ThreadFunc_pass o ∈ ops → o.error_info ≠ 5) →
      ∀ t, Effect.send_text t ∈ (run c (World.start s0) ops).2 →
        ∀ l, l ∈ textLines t.data → beginsWithE l = true) := by
  have h0 : (World.start s0).rdp.m_errMsg = "" := RDP_new_errMsg inst threadCreated s0 hnew
  constructor
  · intro t ht l hl
    rcases run_text c True ops (World.start s0) (Or.inl h0) (fun _ _ _ => trivial) t ht l hl
      with h | ⟨_, h⟩
    · exact Or.inl h
    · exact Or.inr h
  · intro h5 t ht l hl
    rcases run_text c False ops (World.start s0) (Or.inl h0)
      (fun o ho he => h5 o ho he) t ht l hl with h | ⟨hf, _⟩
    · exact h
    · exact absurd hf id

/-- Witness of C17 as amended: a failed connect and then the server error 0x1af
give two texts of one line each, both beginning with "E:". -/
theorem error_lines_witness :
    (run sampleConsts (World.start freshSession)
      [Op.Connect "h" "u" "" "" zeroParams, Op.ThreadFunc_pass ⟨0, false, false⟩,
        Op.ThreadFunc_pass ⟨0x1AF, false, false⟩]).2 =
      [Effect.freerdp_connect, Effect.usleep 100,
        Effect.send_text "E:Could not connect to RDP backend.\nE:Server reported error 0x1af",
        Effect.usleep 100] ∧
    ∀ l, l ∈ textLines
        "E:Could not connect to RDP backend.\nE:Server reported error 0x1af".data →
      beginsWithE l = true :=
  ⟨by decide,
    (error_lines sampleConsts ⟨true, some zeroSettings⟩ true freshSession
      [Op.Connect "h" "u" "" "" zeroParams, Op.ThreadFunc_pass ⟨0, false, false⟩,
        Op.ThreadFunc_pass ⟨0x1AF, false, false⟩] (by decide)).2
      (by
        intro o ho
        simp only [List.mem_cons, Op.ThreadFunc_pass.injEq, List.mem_singleton,
          List.not_mem_nil, or_false, false_or, reduceCtorEq] at ho
        rcases ho with h | h <;> rw [h] <;> decide)
      "E:Could not connect to RDP backend.\nE:Server reported error 0x1af" (by decide)⟩

/-! ### The performance flags set by Connect -/

/-- C23: a `Connect` that succeeds (settings present, loop flag set) with `perf` 0, 1
or 2 leaves in `PerformanceFlags` the preset of the profile (none; disable
wallpaper; disable wallpaper, full-window drag, menu animations and theming)
or-ed with the flag of each of the toggles `nowallp`, `nowdrag`, `nomani`,
`notheme` that is set; the value does not depend on the settings before the call. -/
theorem Connect_performance_flags (c : Consts) (s : RDP) (host user domain pass : String)
    (params : WsRdpParams) (r0 : rdpSettings)
    (hs : s.m_rdpSettings = some r0) (hl : s.m_bThreadLoop = true)
    (hperf : params.perf = 0 ∨ params.perf = 1 ∨ params.perf = 2) :
    (Connect c s host user domain pass params).out = Outcome.ret true ∧
    ∃ r, (Connect c s host user domain pass params).st.m_rdpSettings = some r ∧
      r.PerformanceFlags =
        (if params.perf = 0 then c.PERF_FLAG_NONE
          else if params.perf = 1 then c.PERF_DISABLE_WALLPAPER
          else c.PERF_DISABLE_WALLPAPER ||| c.PERF_DISABLE_FULLWINDOWDRAG |||
            c.PERF_DISABLE_MENUANIMATIONS ||| c.PERF_DISABLE_THEMING) |||
        (if params.nowallp ≠ 0 then c.PERF_DISABLE_WALLPAPER else 0) |||
        (if params.nowdrag ≠ 0 then c.PERF_DISABLE_FULLWINDOWDRAG else 0) |||
        (if params.nomani ≠ 0 then c.PERF_DISABLE_MENUANIMATIONS else 0) |||
        (if params.notheme ≠ 0 then c.PERF_DISABLE_THEMING else 0) := by
  refine ⟨by simp [Connect, hs, hl], ?_⟩
  simp only [Connect, hs, hl, Bool.true_eq_false, if_false]
  refine ⟨_, rfl, ?_⟩
  simp only [apply_ite rdpSettings.PerformanceFlags, ite_self]
  by_cases h1 : params.nowallp = 0 <;> by_cases h2 : params.nowdrag = 0 <;>
    by_cases h3 : params.nomani = 0 <;> by_cases h4 : params.notheme = 0 <;>
    rcases hperf with h | h | h <;>
    simp [h, h1, h2, h3, h4]

/-- Witness of C23: the Broadband profile with `nowdrag` and `notheme` set gives
`1 | 2 | 8 = 11`, whatever the flags were before. -/
theorem Connect_performance_flags_witness :
    ∃ r, (Connect sampleConsts
        { freshSession with m_rdpSettings := some { zeroSettings with PerformanceFlags := 4 } }
        "h" "u" "" "" { zeroParams with perf := 1, nowdrag := 1, notheme := 1 }).st.m_rdpSettings
        = some r ∧ r.PerformanceFlags = 11 :=
  (Connect_performance_flags sampleConsts
    { freshSession with m_rdpSettings := some { zeroSettings with PerformanceFlags := 4 } }
    "h" "u" "" "" { zeroParams with perf := 1, nowdrag := 1, notheme := 1 }
    { zeroSettings with PerformanceFlags := 4 } rfl rfl (Or.inr (Or.inl rfl))).2

/-! ### Reads of the payload fields -/

/-- C25, the code at the failing inputs: a 4-byte message carrying only the
operation code passes the guard on a connected session, and for each of the three
operation codes a payload field is then read outside the message (`fault`): the
`KEY_PRESS` and `KEY_UPDOWN` cases read offsets 4..11, the `MOUSE` case offsets
4..15. A 12-byte `MOUSE` message still lacks the `y` field. -/
theorem short_message_read_outside :
    (OnWsMessage sampleConsts connectedSession [2, 0, 0, 0]).out = Outcome.fault ∧
    (OnWsMessage sampleConsts connectedSession [1, 0, 0, 0]).out = Outcome.fault ∧
    (OnWsMessage sampleConsts connectedSession [0, 0, 0, 0]).out = Outcome.fault ∧
    (OnWsMessage sampleConsts connectedSession
      [0, 0, 0, 0, 0, 0, 0, 0, 5, 0, 0, 0]).out = Outcome.fault := by
  decide

/-- The reads of the three layouts stay inside the message exactly when it is long
enough: 12 bytes for `KEY_UPDOWN` and `KEY_PRESS`, 16 bytes for `MOUSE`. -/
theorem readU32_some_iff (data : Bytes) (off : Nat) :
    (∃ v, readU32 data off = some v) ↔ off + 4 ≤ data.length := by
  constructor
  · rintro ⟨v, h⟩
    exact readU32_length data off v h
  · intro h
    unfold readU32
    have hlen : 4 ≤ (data.drop off).length := by
      rw [List.length_drop]
      omega
    match hd : data.drop off, hlen with
    | b0 :: b1 :: b2 :: b3 :: rest, _ => exact ⟨_, rfl⟩

/-! ### Key presses come as a pair -/

/-- The two scancode events of a tap, or none when the input pointer is null. -/
theorem keyboard_tap_cases (s : RDP) (f1 f2 code : Nat) :
    ((SendInputKeyboardEvent s f1 code).andThen fun s1 _ =>
      SendInputKeyboardEvent s1 f2 code).eff = [] ∨
    ((SendInputKeyboardEvent s f1 code).andThen fun s1 _ =>
      SendInputKeyboardEvent s1 f2 code).eff =
      [Effect.keyboard_event (f1 % 65536) (code % 65536),
        Effect.keyboard_event (f2 % 65536) (code % 65536)] := by
  cases hin : s.m_rdpInput with
  | false => left; simp [Res.andThen, SendInputKeyboardEvent, hin]
  | true => right; rw [keyboard_tap s f1 f2 code hin]

theorem unicode_tap_cases (s : RDP) (f1 f2 code : Nat) :
    ((SendInputUnicodeKeyboardEvent s f1 code).andThen fun s1 _ =>
      SendInputUnicodeKeyboardEvent s1 f2 code).eff = [] ∨
    ((SendInputUnicodeKeyboardEvent s f1 code).andThen fun s1 _ =>
      SendInputUnicodeKeyboardEvent s1 f2 code).eff =
      [Effect.unicode_keyboard_event (f1 % 65536) (code % 65536),
        Effect.unicode_keyboard_event (f2 % 65536) (code % 65536)] := by
  cases hin : s.m_rdpInput with
  | false => left; simp [Res.andThen, SendInputUnicodeKeyboardEvent, hin]
  | true => right; rw [unicode_tap s f1 f2 code hin]

/-- C26: for every `KEY_PRESS` message on a connected session, whatever its code and
shift state (and whether or not the input pointer is bound), the calls made are
either none, or exactly two scancode keyboard events with the same code, the first
with the down flag and the second with the release flag (both with the same
extended mark `f`, which is 0 or the extended flag), or exactly two unicode
keyboard events with the same code, the first with the down flag and the second
with the release flag. -/
theorem kpress_pair (c : Consts) (s : RDP) (data : Bytes)
    (hconn : s.m_State = State.STATE_CONNECTED)
    (hop : readU32 data 0 = some c.WSOP_CS_KPRESS) :
    (OnWsMessage c s data).eff = [] ∨
    (∃ f code, (f = 0 ∨ f = c.KBD_FLAGS_EXTENDED) ∧
      (OnWsMessage c s data).eff =
        [Effect.keyboard_event ((c.KBD_FLAGS_DOWN ||| f) % 65536) code,
          Effect.keyboard_event ((c.KBD_FLAGS_RELEASE ||| f) % 65536) code]) ∨
    (∃ code, (OnWsMessage c s data).eff =
      [Effect.unicode_keyboard_event (c.KBD_FLAGS_DOWN % 65536) code,
        Effect.unicode_keyboard_event (c.KBD_FLAGS_RELEASE % 65536) code]) := by
  rw [OnWsMessage_kpress c s data hconn hop]
  unfold onKPress
  split
  · simp only
    split
    · split
      · split
        · split
          · rcases keyboard_tap_cases s c.KBD_FLAGS_DOWN c.KBD_FLAGS_RELEASE
              (c.freerdp_keyboard_get_rdp_scancode_from_virtual_key_code
                (kpressVirtualKey _ _) % 4294967296) with h | h
            · exact Or.inl h
            · exact Or.inr (Or.inl ⟨0, _, Or.inl rfl, by
                rw [h, Nat.or_zero, Nat.or_zero]⟩)
          · exact Or.inl rfl
        · exact Or.inl rfl
      · split
        · rcases unicode_tap_cases s c.KBD_FLAGS_DOWN c.KBD_FLAGS_RELEASE _ with h | h
          · exact Or.inl h
          · exact Or.inr (Or.inr ⟨_, h⟩)
        · exact Or.inl rfl
    · split
      · rcases keyboard_tap_cases s
            (c.KBD_FLAGS_DOWN |||
              (if c.RDP_SCANCODE_EXTENDED (kpressTcode c _) then c.KBD_FLAGS_EXTENDED else 0))
            (c.KBD_FLAGS_RELEASE |||
              (if c.RDP_SCANCODE_EXTENDED (kpressTcode c _) then c.KBD_FLAGS_EXTENDED else 0))
            (c.RDP_SCANCODE_CODE (kpressTcode c _)) with h | h
        · exact Or.inl h
        · refine Or.inr (Or.inl ⟨_, _, ?_, h⟩)
          split
          · exact Or.inr rfl
          · exact Or.inl rfl
      · exact Or.inl rfl
  · exact Or.inl rfl

/-- C26 needs no hypothesis on the input pointer: on a session whose input pointer is
null the first call throws and no event is made. -/
theorem kpress_pair_unbound :
    (OnWsMessage sampleConsts { connectedSession with m_rdpInput := false }
      (kpressMsg 0 0x41)).eff = [] ∧
    (OnWsMessage sampleConsts { connectedSession with m_rdpInput := false }
      (kpressMsg 0 0x41)).out = Outcome.throw "m_rdpInput is NULL" := by
  decide

/-- Witness of C26: Escape (0x1B) gives the scancode pair of code 0x01. -/
theorem kpress_pair_witness :
    (OnWsMessage sampleConsts connectedSession (kpressMsg 0 0x1B)).eff = [] ∨
    (∃ f code, (f = 0 ∨ f = sampleConsts.KBD_FLAGS_EXTENDED) ∧
      (OnWsMessage sampleConsts connectedSession (kpressMsg 0 0x1B)).eff =
        [Effect.keyboard_event ((sampleConsts.KBD_FLAGS_DOWN ||| f) % 65536) code,
          Effect.keyboard_event ((sampleConsts.KBD_FLAGS_RELEASE ||| f) % 65536) code]) ∨
    (∃ code, (OnWsMessage sampleConsts connectedSession (kpressMsg 0 0x1B)).eff =
      [Effect.unicode_keyboard_event (sampleConsts.KBD_FLAGS_DOWN % 65536) code,
        Effect.unicode_keyboard_event (sampleConsts.KBD_FLAGS_RELEASE % 65536) code]) :=
  kpress_pair sampleConsts connectedSession (kpressMsg 0 0x1B) (by decide) (by decide)

/-! ### The branch taken by a printable key press -/

theorem nat_or_eq_zero (x y : Nat) (h : x ||| y = 0) : x = 0 ∧ y = 0 := by
  have key : ∀ i, x.testBit i = false ∧ y.testBit i = false := by
    intro i
    have := congrArg (fun n => Nat.testBit n i) h
    simpa using this
  exact ⟨Nat.zero_of_testBit_eq_false (fun i => (key i).1),
    Nat.zero_of_testBit_eq_false (fun i => (key i).2)⟩

/-- The test `m->shiftstate & 6` is true exactly when bit 1 or bit 2 is set. -/
theorem and_six_iff (ss : Nat) : ss &&& 6 ≠ 0 ↔ (ss &&& 2 ≠ 0 ∨ ss &&& 4 ≠ 0) := by
  have h6 : (6 : Nat) = 2 ||| 4 := by decide
  rw [h6, Nat.and_or_distrib_left]
  constructor
  · intro h
    by_contra hc
    push_neg at hc
    rw [hc.1, hc.2] at h
    exact h rfl
  · intro h hz
    have := nat_or_eq_zero _ _ hz
    rcases h with h | h
    · exact h this.1
    · exact h this.2

/-- C24, the claim refuted: with shift state 4 (bit 1 clear, bit 2 set) the key press
of `a` (0x61) takes the scancode branch and is emitted as a scancode down and
release, not as a unicode pair. -/
theorem kpress_bit2_scancode_branch :
    (4 : Nat) &&& 2 = 0 ∧
    (OnWsMessage sampleConsts connectedSession (kpressMsg 4 0x61)).eff =
      [Effect.keyboard_event 0x4000 0x1E, Effect.keyboard_event 0x8000 0x1E] := by
  decide

/-- C24 as amended: for a `KEY_PRESS` message with a printable code (`> 0x20`) on a
connected session (input pointer bound), the scancode branch is taken exactly when
`shiftState & 6` is non-zero, that is when bit 1 or bit 2 of the shift state is
set. When both bits are clear, whatever the other bits, the key is sent as a
unicode down and release carrying the code (as `uint16_t`); when one of them is
set no unicode event is made: the calls are none, or the scancode down and release
of the resolved scancode. -/
theorem kpress_branch (c : Consts) (s : RDP) (data : Bytes) (ss code : Nat)
    (hconn : s.m_State = State.STATE_CONNECTED) (hin : s.m_rdpInput = true)
    (hop : readU32 data 0 = some c.WSOP_CS_KPRESS)
    (hss : readU32 data 4 = some ss) (hcode : readU32 data 8 = some code)
    (hlo : 0x20 < code) :
    (ss &&& 6 ≠ 0 ↔ (ss &&& 2 ≠ 0 ∨ ss &&& 4 ≠ 0)) ∧
    (ss &&& 6 = 0 →
      (OnWsMessage c s data).eff =
        [Effect.unicode_keyboard_event (c.KBD_FLAGS_DOWN % 65536) (code % 65536),
          Effect.unicode_keyboard_event (c.KBD_FLAGS_RELEASE % 65536) (code % 65536)]) ∧
    (ss &&& 6 ≠ 0 →
      (OnWsMessage c s data).eff = [] ∨
      (OnWsMessage c s data).eff =
        [Effect.keyboard_event (c.KBD_FLAGS_DOWN % 65536)
            (c.freerdp_keyboard_get_rdp_scancode_from_virtual_key_code
              (kpressVirtualKey ss code) % 4294967296 % 65536),
          Effect.keyboard_event (c.KBD_FLAGS_RELEASE % 65536)
            (c.freerdp_keyboard_get_rdp_scancode_from_virtual_key_code
              (kpressVirtualKey ss code) % 4294967296 % 65536)]) := by
  refine ⟨and_six_iff ss, ?_, ?_⟩
  · intro h6
    have hpos : 0 < code := by omega
    rw [OnWsMessage_kpress c s data hconn hop]
    simp only [onKPress, hss, hcode, hlo, if_true, h6, ne_eq, not_true_eq_false, if_false,
      hpos]
    rw [unicode_tap s _ _ _ hin]
  · intro h6
    rw [OnWsMessage_kpress c s data hconn hop]
    simp only [onKPress, hss, hcode, hlo, if_true, h6, ne_eq, not_false_eq_true]
    split
    · split
      · right
        rw [keyboard_tap s _ _ _ hin]
      · left; rfl
    · left; rfl

/-- Witness of C24 as amended: shift state 0x10 (bits 1 and 2 clear) with code 0x41
gives the unicode pair. -/
theorem kpress_branch_witness :
    (OnWsMessage sampleConsts connectedSession (kpressMsg 0x10 0x41)).eff =
      [Effect.unicode_keyboard_event 0x4000 0x41,
        Effect.unicode_keyboard_event 0x8000 0x41] :=
  (kpress_branch sampleConsts connectedSession (kpressMsg 0x10 0x41) 0x10 0x41
    (by decide) (by decide) (by decide) (by decide) (by decide) (by decide)).2.1
    (by decide)

/-! ### A pass in state Connecting -/

/-- One pass in state `STATE_CONNECT` in which the connect is attempted, in terms of
the object `s1` after the error classification. -/
theorem ThreadFunc_body_connect (s : RDP) (o : LoopObs)
    (hs : s.m_State = State.STATE_CONNECT) (hd : o.shall_disconnect = false) :
    ThreadFunc_body s o =
      if o.connect then
        ({ classifyError s o.error_info with
            m_errMsg := "", m_State := State.STATE_CONNECTED },
          (if (classifyError s o.error_info).m_errMsg ≠ "" then
              [Effect.send_text (classifyError s o.error_info).m_errMsg] else []) ++
            [Effect.freerdp_connect],
          LoopExit.continued)
      else
        ({ classifyError s o.error_info with
            m_errMsg := "E:Could not connect to RDP backend.",
            m_State := State.STATE_INITIAL },
          (if (classifyError s o.error_info).m_errMsg ≠ "" then
              [Effect.send_text (classifyError s o.error_info).m_errMsg] else []) ++
            [Effect.freerdp_connect, Effect.usleep 100],
          LoopExit.next) := by
  have hc := classifyError_State s o.error_info
  rw [hs] at hc
  unfold ThreadFunc_body
  simp only
  generalize classifyError s o.error_info = s1 at hc ⊢
  by_cases hm : s1.m_errMsg = ""
  · cases hcn : o.connect
    · simp [hm, hd, hc, addError]
    · simp [hm, hd, hc]
  · cases hcn : o.connect
    · simp [hm, hd, hc, addError]
    · simp [hm, hd, hc]

theorem classifyError_rdpSettings (s : RDP) (e : Nat) :
    (classifyError s e).m_rdpSettings = s.m_rdpSettings := by
  unfold classifyError
  repeat' split
  all_goals rfl

/-- The classification leaves the loop flag alone unless the polled code is a new
code among 1, 2, 7, 9. -/
theorem classifyError_flag_kept (s : RDP) (e : Nat)
    (h : e = 0 ∨ e = s.m_lastError ∨ ¬ (e = 1 ∨ e = 2 ∨ e = 7 ∨ e = 9)) :
    (classifyError s e).m_bThreadLoop = s.m_bThreadLoop := by
  unfold classifyError
  split
  · split
    · simp only
      split
      · rename_i h0 hl hb
        rcases h with h | h | h
        · exact absurd h.symm h0
        · exact absurd h.symm hl
        · exact absurd hb h
      · split <;> rfl
    · rfl
  · rfl

/-- C21, the claim refuted: a pass in state `STATE_CONNECT` whose connect attempt
fails and which polls the new error code 1 leaves the state `STATE_INITIAL` with
the loop flag clear, so that a later `Connect` throws. -/
theorem connect_failure_flag_cleared :
    (ThreadFunc_body { freshSession with m_State := State.STATE_CONNECT }
      ⟨1, false, false⟩).1.m_State = State.STATE_INITIAL ∧
    (ThreadFunc_body { freshSession with m_State := State.STATE_CONNECT }
      ⟨1, false, false⟩).1.m_bThreadLoop = false ∧
    (Connect sampleConsts
      (ThreadFunc_body { freshSession with m_State := State.STATE_CONNECT }
        ⟨1, false, false⟩).1 "h" "u" "" "" zeroParams).out =
      Outcome.throw "worker thread has terminated" := by
  decide

/-- C21 as amended: a pass in state `STATE_CONNECT` in which the connect is attempted
(the engine does not ask to disconnect). If the attempt succeeds the state becomes
`STATE_CONNECTED` and the pass ends through `continue`, without a sleep. If it
fails the state becomes `STATE_INITIAL`, the pending error text is the one line
"E:Could not connect to RDP backend.", and the pass ends after the sleep; the
failure does not touch the loop flag, which is the one left by the error
classification: unless the pass polled a new code among 1, 2, 7, 9 a set flag
stays set, and a later `Connect` (settings present) returns true and sets the state
to `STATE_CONNECT` again. -/
theorem connect_attempt (c : Consts) (s : RDP) (o : LoopObs)
    (hs : s.m_State = State.STATE_CONNECT) (hd : o.shall_disconnect = false) :
    (o.connect = true →
      (ThreadFunc_body s o).1.m_State = State.STATE_CONNECTED ∧
      (ThreadFunc_body s o).2.2 = LoopExit.continued ∧
      Effect.freerdp_connect ∈ (ThreadFunc_body s o).2.1 ∧
      ∀ us, Effect.usleep us ∉ (ThreadFunc_body s o).2.1) ∧
    (o.connect = false →
      (ThreadFunc_body s o).1.m_State = State.STATE_INITIAL ∧
      (ThreadFunc_body s o).1.m_errMsg = "E:Could not connect to RDP backend." ∧
      (ThreadFunc_body s o).2.2 = LoopExit.next ∧
      (ThreadFunc_body s o).1.m_bThreadLoop =
        (classifyError s o.error_info).m_bThreadLoop ∧
      ((o.error_info = 0 ∨ o.error_info = s.m_lastError ∨
          ¬ (o.error_info = 1 ∨ o.error_info = 2 ∨ o.error_info = 7 ∨ o.error_info = 9)) →
        s.m_bThreadLoop = true →
        (ThreadFunc_body s o).1.m_bThreadLoop = true ∧
        ∀ (r0 : rdpSettings) (host user domain pass : String) (params : WsRdpParams),
          s.m_rdpSettings = some r0 →
          (Connect c (ThreadFunc_body s o).1 host user domain pass params).out =
            Outcome.ret true ∧
          (Connect c (ThreadFunc_body s o).1 host user domain pass params).st.m_State =
            State.STATE_CONNECT)) := by
  rw [ThreadFunc_body_connect s o hs hd]
  constructor
  · intro hcn
    rw [if_pos hcn]
    refine ⟨rfl, rfl, by simp, ?_⟩
    intro us
    split <;> simp
  · intro hcn
    rw [if_neg (by simp [hcn])]
    refine ⟨rfl, rfl, rfl, rfl, ?_⟩
    intro hk hl
    have hf : (classifyError s o.error_info).m_bThreadLoop = true := by
      rw [classifyError_flag_kept s o.error_info hk]
      exact hl
    refine ⟨hf, ?_⟩
    intro r0 host user domain pass params hr
    have hset : (classifyError s o.error_info).m_rdpSettings = some r0 := by
      rw [classifyError_rdpSettings]
      exact hr
    simp [Connect, hset, hf]

/-- Witness of C21 as amended: a failed attempt on a session in state
`STATE_CONNECT`, and a successful one. -/
theorem connect_attempt_witness :
    ((ThreadFunc_body { freshSession with m_State := State.STATE_CONNECT }
        ⟨0, false, false⟩).1.m_State = State.STATE_INITIAL ∧
      (ThreadFunc_body { freshSession with m_State := State.STATE_CONNECT }
        ⟨0, false, false⟩).1.m_errMsg = "E:Could not connect to RDP backend.") ∧
    (ThreadFunc_body { freshSession with m_State := State.STATE_CONNECT }
      ⟨0, false, true⟩).1.m_State = State.STATE_CONNECTED :=
  ⟨⟨((connect_attempt sampleConsts { freshSession with m_State := State.STATE_CONNECT }
        ⟨0, false, false⟩ (by decide) (by decide)).2 (by decide)).1,
      ((connect_attempt sampleConsts { freshSession with m_State := State.STATE_CONNECT }
        ⟨0, false, false⟩ (by decide) (by decide)).2 (by decide)).2.1⟩,
    ((connect_attempt sampleConsts { freshSession with m_State := State.STATE_CONNECT }
      ⟨0, false, true⟩ (by decide) (by decide)).1 (by decide)).1⟩

/-! ### De-duplication of error codes -/

theorem addError_errMsg_ne (s : RDP) (msg : String) :
    (addError s msg).m_errMsg ≠ s.m_errMsg := by
  intro h
  have hl := congrArg (fun t : String => t.data.length) h
  unfold addError at hl
  simp only at hl
  split at hl
  · simp only [String.data_append, List.length_append, List.length_cons,
      List.length_nil] at hl
    omega
  · simp only [String.data_append, List.length_append, List.length_cons,
      List.length_nil] at hl
    omega

/-- The classification adds text exactly for a non-zero code that differs from
`m_lastError` and is none of 1, 2, 7, 9. -/
theorem classifyError_adds_iff (s : RDP) (e : Nat) :
    (classifyError s e).m_errMsg ≠ s.m_errMsg ↔
      (e ≠ 0 ∧ e ≠ s.m_lastError ∧ ¬ (e = 1 ∨ e = 2 ∨ e = 7 ∨ e = 9)) := by
  unfold classifyError
  by_cases h0 : 0 = e
  · rw [if_neg (fun h => h h0)]
    constructor
    · intro h; exact absurd rfl h
    · intro h; exact absurd h0.symm h.1
  · rw [if_pos h0]
    by_cases hl : s.m_lastError = e
    · rw [if_neg (fun h => h hl)]
      constructor
      · intro h; exact absurd rfl h
      · intro h; exact absurd hl.symm h.2.1
    · rw [if_pos hl]
      simp only
      by_cases hb : e = 1 ∨ e = 2 ∨ e = 7 ∨ e = 9
      · rw [if_pos hb]
        constructor
        · intro h; exact absurd rfl h
        · intro h; exact absurd hb h.2.2
      · rw [if_neg hb]
        constructor
        · intro _
          exact ⟨fun h => h0 h.symm, fun h => hl h.symm, hb⟩
        · intro _
          split
          · exact addError_errMsg_ne _ _
          · exact addError_errMsg_ne _ _

theorem classifyError_lastError (s : RDP) (e : Nat) :
    (classifyError s e).m_lastError = if e ≠ 0 then e else s.m_lastError := by
  unfold classifyError
  by_cases h0 : 0 = e
  · rw [if_neg (show ¬ 0 ≠ e from fun h => h h0),
      if_neg (show ¬ e ≠ 0 from fun h => h h0.symm)]
  · rw [if_pos (show 0 ≠ e from h0), if_pos (show e ≠ 0 from fun h => h0 h.symm)]
    by_cases hl : s.m_lastError = e
    · rw [if_neg (show ¬ s.m_lastError ≠ e from fun h => h hl)]
      exact hl
    · rw [if_pos (show s.m_lastError ≠ e from hl)]
      simp only
      split
      · rfl
      · split <;> rfl

theorem Connect_lastError (c : Consts) (s : RDP) (host user domain pass : String)
    (params : WsRdpParams) :
    (Connect c s host user domain pass params).st.m_lastError = s.m_lastError := by
  cases hs : s.m_rdpSettings with
  | none => simp [Connect, hs]
  | some r0 =>
    cases hl : s.m_bThreadLoop with
    | false => simp [Connect, hs, hl]
    | true => simp [Connect, hs, hl]

/-- `m_lastError` after one operation: a pass that polls a non-zero code records
it, everything else leaves it. -/
theorem step_lastError (c : Consts) (w : World) (op : Op) (e : Nat)
    (hw : w.rdp.m_lastError = e)
    (hop : ∀ o, op = Op.ThreadFunc_pass o → o.error_info = 0 ∨ o.error_info = e) :
    (step c w op).1.rdp.m_lastError = e := by
  cases op with
  | Connect host user domain pass params =>
    simp only [step]
    rw [Connect_lastError]; exact hw
  | Disconnect r =>
    simp only [step, Disconnect]
    repeat' split
    all_goals exact hw
  | OnWsMessage data => simp only [step, OnWsMessage_st]; exact hw
  | Pointer_New now h p => exact hw
  | Pointer_Free h =>
    simp only [step, Pointer_Free]
    split <;> exact hw
  | Pointer_Set h => exact hw
  | Pointer_SetNull => exact hw
  | Pointer_SetDefault => exact hw
  | ThreadFunc_pass o =>
    simp only [step]
    split
    · simp only
      rw [(ThreadFunc_body_lastError w.rdp o).1, classifyError_lastError]
      rcases hop o rfl with h | h
      · rw [if_neg (fun hn => hn h)]; exact hw
      · split
        · exact h
        · exact hw
    · exact hw

theorem run_lastError (c : Consts) (ops : List Op) (w : World) (e : Nat)
    (hw : w.rdp.m_lastError = e)
    (hops : ∀ o, Op.ThreadFunc_pass o ∈ ops → o.error_info = 0 ∨ o.error_info = e) :
    (run c w ops).1.rdp.m_lastError = e := by
  induction ops generalizing w with
  | nil => exact hw
  | cons op rest ih =>
    simp only [run]
    exact ih _ (step_lastError c w op e hw
        (fun o ho => hops o (ho ▸ List.mem_cons_self _ _)))
      (fun o ho => hops o (List.mem_cons_of_mem _ ho))

/-- C22, the claim refuted: the codes 3, 4, 3 polled in three passes of a connected
session surface the text for code 3 twice. -/
theorem code_surfaced_twice :
    (run sampleConsts (World.start connectedSession)
      [Op.ThreadFunc_pass ⟨3, false, false⟩, Op.ThreadFunc_pass ⟨4, false, false⟩,
        Op.ThreadFunc_pass ⟨3, false, false⟩]).2 =
      [Effect.send_text "E:Server reported error 0x3", Effect.freerdp_check_fds,
        Effect.usleep 100,
        Effect.send_text "E:Server reported error 0x4", Effect.freerdp_check_fds,
        Effect.usleep 100,
        Effect.send_text "E:Server reported error 0x3", Effect.freerdp_check_fds,
        Effect.usleep 100] := by
  decide

/-- C22 as amended: the error classification of a pass adds error text exactly when
the polled code is non-zero, differs from `m_lastError` and is none of 1, 2, 7, 9;
after a pass `m_lastError` is the polled code when it is non-zero and is unchanged
when it is zero. So `m_lastError` is the most recent non-zero code: after a code
`e` has been recorded, whatever operations follow in which the passes poll only 0
or `e`, a further poll of `e` adds no text; a code seen earlier is surfaced again
once another non-zero code has been polled in between. -/
theorem error_dedup (c : Consts) (s : RDP) :
    (∀ e, (classifyError s e).m_errMsg ≠ s.m_errMsg ↔
      (e ≠ 0 ∧ e ≠ s.m_lastError ∧ ¬ (e = 1 ∨ e = 2 ∨ e = 7 ∨ e = 9))) ∧
    (∀ o : LoopObs, (ThreadFunc_body s o).1.m_lastError =
      if o.error_info ≠ 0 then o.error_info else s.m_lastError) ∧
    (∀ (ptrs : Nat → MyPointer) (ops : List Op),
      (∀ o, Op.ThreadFunc_pass o ∈ ops → o.error_info = 0 ∨ o.error_info = s.m_lastError) →
      (classifyError (run c ⟨s, ptrs⟩ ops).1.rdp s.m_lastError).m_errMsg =
        (run c ⟨s, ptrs⟩ ops).1.rdp.m_errMsg) ∧
    (∀ e e2, e ≠ 0 → e2 ≠ 0 → e2 ≠ e → ¬ (e = 1 ∨ e = 2 ∨ e = 7 ∨ e = 9) →
      (classifyError (classifyError s e2) e).m_errMsg ≠ (classifyError s e2).m_errMsg) := by
  refine ⟨classifyError_adds_iff s, ?_, ?_, ?_⟩
  · intro o
    rw [(ThreadFunc_body_lastError s o).1, classifyError_lastError]
  · intro ptrs ops hops
    have hl := run_lastError c ops ⟨s, ptrs⟩ s.m_lastError rfl hops
    by_contra hne
    have := (classifyError_adds_iff (run c ⟨s, ptrs⟩ ops).1.rdp s.m_lastError).1 hne
    exact this.2.1 hl.symm
  · intro e e2 he he2 hne hb
    apply (classifyError_adds_iff (classifyError s e2) e).2
    refine ⟨he, ?_, hb⟩
    rw [classifyError_lastError, if_pos he2]
    exact fun h => hne h.symm

/-- Witness of C22 as amended: code 3 polled, then 0, then 3 again, surfaces the
text once. -/
theorem error_dedup_witness :
    (run sampleConsts (World.start connectedSession)
      [Op.ThreadFunc_pass ⟨3, false, false⟩, Op.ThreadFunc_pass ⟨0, false, false⟩,
        Op.ThreadFunc_pass ⟨3, false, false⟩]).2.count
        (Effect.send_text "E:Server reported error 0x3") = 1 ∧
    (classifyError { connectedSession with m_lastError := 3 } 3).m_errMsg =
      ({ connectedSession with m_lastError := 3 } : RDP).m_errMsg :=
  ⟨by decide, by
    have h := (error_dedup sampleConsts { connectedSession with m_lastError := 3 }).2.2.1
      (fun _ => zeroPointer) [] (fun _ ho => absurd ho (List.not_mem_nil _))
    exact h⟩

/-! ### Connect and the loop flag -/

end wsgate
